import Mathlib

/-!
Shader-binding-table helper of the ray-tracing pipeline (`src/rtPipe.cpp`).

A shallow embedding of `RTXHelper` (the shader-binding-table layout builder) and of the
parts of `helpers::Buffer` it uses.  Conventions:

* `uint32_t` values are natural numbers below `2^32`; every `uint32_t` arithmetic
  expression of the source is wrapped with `u32` (reduction modulo `2^32`).
* `Array<T>` (a `std::vector<T>`) is a `List T`.
* `assert` is modelled as in a build with assertions enabled: a failing assertion aborts
  the call (`Outcome.assertFailed`, carrying the object state at that moment).
* `std::vector::insert` at a position beyond `end()` has no defined behaviour
  (`Outcome.undefinedBehaviour`).
-/

namespace RtPipe

/-- The value of a `uint32_t` expression: reduction modulo `2^32`. -/
def u32 (n : Nat) : Nat := n % 4294967296

/-- Vulkan `VK_SHADER_UNUSED_NV` (`~0U`). -/
def VK_SHADER_UNUSED_NV : Nat := 4294967295

/-- Vulkan `VK_SHADER_STAGE_RAYGEN_BIT_NV`. -/
def VK_SHADER_STAGE_RAYGEN_BIT_NV : Nat := 0x100
/-- Vulkan `VK_SHADER_STAGE_ANY_HIT_BIT_NV`. -/
def VK_SHADER_STAGE_ANY_HIT_BIT_NV : Nat := 0x200
/-- Vulkan `VK_SHADER_STAGE_CLOSEST_HIT_BIT_NV`. -/
def VK_SHADER_STAGE_CLOSEST_HIT_BIT_NV : Nat := 0x400
/-- Vulkan `VK_SHADER_STAGE_MISS_BIT_NV`. -/
def VK_SHADER_STAGE_MISS_BIT_NV : Nat := 0x800

/-- Vulkan `VkResult`: `VK_SUCCESS` is `0`, every other value is an error or status code. -/
abbrev VkResult := Int

/-- Vulkan `VK_SUCCESS`. -/
def VK_SUCCESS : VkResult := 0

/-- Vulkan `VK_NULL_HANDLE` for the (integer-valued) object handles. -/
def VK_NULL_HANDLE : Nat := 0

/-- The fields of `VkPipelineShaderStageCreateInfo` the helper reads or stores:
the stage kind (`stage`, a `VkShaderStageFlagBits` value) and the shader module handle. -/
structure VkPipelineShaderStageCreateInfo where
  stage : Nat
  module : Nat
  deriving DecidableEq, Repr

/-- Vulkan `VkRayTracingShaderGroupTypeNV`. -/
inductive VkRayTracingShaderGroupTypeNV where
  | GENERAL
  | TRIANGLES_HIT_GROUP
  | PROCEDURAL_HIT_GROUP
  deriving DecidableEq, Repr

/-- The fields of `VkRayTracingShaderGroupCreateInfoNV` set by the helper
(`sType` and `pNext` are constant). -/
structure VkRayTracingShaderGroupCreateInfoNV where
  type : VkRayTracingShaderGroupTypeNV
  generalShader : Nat
  closestHitShader : Nat
  anyHitShader : Nat
  intersectionShader : Nat
  deriving DecidableEq, Repr

/-- State of `helpers::Buffer` (`common/vk_helpers.cpp`): buffer handle, memory handle, size. -/
structure Buffer where
  _Buffer : Nat
  _Memory : Nat
  _Size : Nat
  deriving DecidableEq, Repr

/-- Constructor `Buffer::Buffer()`. -/
def Buffer.new : Buffer :=
  { _Buffer := VK_NULL_HANDLE, _Memory := VK_NULL_HANDLE, _Size := 0 }

/-- Result of a call that can abort on an assertion or run into undefined behaviour. -/
inductive Outcome (σ : Type) where
  | ok (s : σ)
  | assertFailed (s : σ)
  | undefinedBehaviour
  deriving DecidableEq, Repr

/-- Sequencing: the next call only runs after a call that returned. -/
def Outcome.andThen {σ : Type} (o : Outcome σ) (f : σ → Outcome σ) : Outcome σ :=
  match o with
  | .ok s => f s
  | .assertFailed s => .assertFailed s
  | .undefinedBehaviour => .undefinedBehaviour

/-- `std::vector::resize(n, v)`: truncates to `n` elements, or appends copies of `v`
up to length `n`; elements that are kept are not changed. -/
def vectorResize (xs : List Nat) (n : Nat) (v : Nat) : List Nat :=
  xs.take n ++ List.replicate (n - xs.length) v

/-- `std::vector::insert(begin() + pos, first, last)`: defined only for `pos ≤ size()`. -/
def vectorInsert {α : Type} (xs : List α) (pos : Nat) (ys : List α) : Option (List α) :=
  if pos ≤ xs.length then some (xs.take pos ++ ys ++ xs.drop pos) else none

/-- The loop `for (x : xs) offset += x;` on a `uint32_t` accumulator. -/
def addAllU32 (offset : Nat) (xs : List Nat) : Nat :=
  xs.foldl (fun acc x => u32 (acc + x)) offset

/-- State of `RTXHelper` (the private members declared in `rtPipe.h`). -/
structure RTXHelper where
  _ShaderHeaderSize : Nat
  _NumHitGroups : Nat
  _NumMissGroups : Nat
  _NumHitShaders : List Nat
  _NumMissShaders : List Nat
  _Stages : List VkPipelineShaderStageCreateInfo
  _Groups : List VkRayTracingShaderGroupCreateInfoNV
  rtxHelper : Buffer
  deriving DecidableEq, Repr

namespace RTXHelper

/-- Constructor `RTXHelper::RTXHelper()`. -/
def new : RTXHelper :=
  { _ShaderHeaderSize := 0, _NumHitGroups := 0, _NumMissGroups := 0,
    _NumHitShaders := [], _NumMissShaders := [], _Stages := [], _Groups := [],
    rtxHelper := Buffer.new }

/-- `RTXHelper::Initialize(numHitGroups, numMissGroups, shaderHeaderSize)`. -/
def Initialize (numHitGroups numMissGroups shaderHeaderSize : Nat) (h : RTXHelper) : RTXHelper :=
  { h with
    _ShaderHeaderSize := shaderHeaderSize
    _NumHitGroups := numHitGroups
    _NumMissGroups := numMissGroups
    _NumHitShaders := vectorResize h._NumHitShaders numHitGroups 0
    _NumMissShaders := vectorResize h._NumMissShaders numMissGroups 0
    _Stages := []
    _Groups := [] }

/-- `RTXHelper::GetGroupsStride()`. -/
def GetGroupsStride (h : RTXHelper) : Nat := h._ShaderHeaderSize

/-- `RTXHelper::GetNu_Groups()`: `1 + _NumHitGroups + _NumMissGroups` in `uint32_t`. -/
def GetNu_Groups (h : RTXHelper) : Nat := u32 (u32 (1 + h._NumHitGroups) + h._NumMissGroups)

/-- `RTXHelper::GetRaygenOffset()`. -/
def GetRaygenOffset (_h : RTXHelper) : Nat := 0

/-- `RTXHelper::GetHitGroupsOffset()`: `1 * _ShaderHeaderSize` in `uint32_t`. -/
def GetHitGroupsOffset (h : RTXHelper) : Nat := u32 (1 * h._ShaderHeaderSize)

/-- `RTXHelper::GetMissGroupsOffset()`: `(1 + _NumHitGroups) * _ShaderHeaderSize` in `uint32_t`. -/
def GetMissGroupsOffset (h : RTXHelper) : Nat := u32 (u32 (1 + h._NumHitGroups) * h._ShaderHeaderSize)

/-- `RTXHelper::GetNu_Stages()`: the stage count cast to `uint32_t`. -/
def GetNu_Stages (h : RTXHelper) : Nat := u32 h._Stages.length

/-- `RTXHelper::GetSBTSize()`: `GetNu_Groups() * _ShaderHeaderSize` in `uint32_t`. -/
def GetSBTSize (h : RTXHelper) : Nat := u32 (GetNu_Groups h * h._ShaderHeaderSize)

/-- The group pushed by `SetRaygenStage` (group 0). -/
def raygenGroup : VkRayTracingShaderGroupCreateInfoNV :=
  { type := .GENERAL
    generalShader := 0
    closestHitShader := VK_SHADER_UNUSED_NV
    anyHitShader := VK_SHADER_UNUSED_NV
    intersectionShader := VK_SHADER_UNUSED_NV }

/-- `RTXHelper::SetRaygenStage(stage)`. -/
def SetRaygenStage (stage : VkPipelineShaderStageCreateInfo) (h : RTXHelper) : Outcome RTXHelper :=
  if h._Stages ≠ [] then .assertFailed h else
  .ok { h with
    _Stages := h._Stages ++ [stage]
    _Groups := h._Groups ++ [raygenGroup] }

/-- The stage-list offset computed by `AddStageToHitGroup`:
`offset = 1; for (i = 0; i <= groupIndex; ++i) offset += _NumHitShaders[i];`
(the call has asserted `groupIndex < _NumHitShaders.size()`). -/
def hitStageOffset (h : RTXHelper) (groupIndex : Nat) : Nat :=
  addAllU32 1 (h._NumHitShaders.take (groupIndex + 1))

/-- The initial value of `groupInfo` in `AddStageToHitGroup`. -/
def emptyHitGroup : VkRayTracingShaderGroupCreateInfoNV :=
  { type := .TRIANGLES_HIT_GROUP
    generalShader := VK_SHADER_UNUSED_NV
    closestHitShader := VK_SHADER_UNUSED_NV
    anyHitShader := VK_SHADER_UNUSED_NV
    intersectionShader := VK_SHADER_UNUSED_NV }

/-- The loop `for (size_t i = 0; i < stages.size(); i++)` of `AddStageToHitGroup`, from
index `i` on: `stages` are the stages not yet visited. -/
def hitGroupLoop (offset : Nat) :
    List VkPipelineShaderStageCreateInfo → Nat → VkRayTracingShaderGroupCreateInfoNV →
      VkRayTracingShaderGroupCreateInfoNV
  | [], _, groupInfo => groupInfo
  | stageInfo :: rest, i, groupInfo =>
    let shaderIdx := u32 (offset + i)
    let groupInfo1 :=
      if stageInfo.stage = VK_SHADER_STAGE_CLOSEST_HIT_BIT_NV then
        { groupInfo with closestHitShader := shaderIdx }
      else if stageInfo.stage = VK_SHADER_STAGE_ANY_HIT_BIT_NV then
        { groupInfo with anyHitShader := shaderIdx }
      else groupInfo
    hitGroupLoop offset rest (i + 1) groupInfo1

/-- The group `AddStageToHitGroup` creates for `stages` inserted at `offset`. -/
def hitGroupInfo (offset : Nat) (stages : List VkPipelineShaderStageCreateInfo) :
    VkRayTracingShaderGroupCreateInfoNV :=
  hitGroupLoop offset stages 0 emptyHitGroup

/-- `RTXHelper::AddStageToHitGroup(stages, groupIndex)`. -/
def AddStageToHitGroup (stages : List VkPipelineShaderStageCreateInfo) (groupIndex : Nat)
    (h : RTXHelper) : Outcome RTXHelper :=
  if h._Stages = [] then .assertFailed h else
  if ¬ groupIndex < h._NumHitShaders.length then .assertFailed h else
  if ¬ (stages ≠ [] ∧ stages.length ≤ 3) then .assertFailed h else
  if ¬ h._NumHitShaders.getD groupIndex 0 = 0 then .assertFailed h else
  let offset := hitStageOffset h groupIndex
  match vectorInsert h._Stages offset stages with
  | none => .undefinedBehaviour
  | some stages1 =>
    let groupInfo := hitGroupInfo offset stages
    match vectorInsert h._Groups (1 + groupIndex) [groupInfo] with
    | none => .undefinedBehaviour
    | some groups1 =>
      .ok { h with
        _Stages := stages1
        _Groups := groups1
        _NumHitShaders :=
          h._NumHitShaders.set groupIndex
            (u32 (h._NumHitShaders.getD groupIndex 0 + u32 stages.length)) }

/-- The stage-list offset computed by `AddStageToMissGroup`: `offset = 1`, plus every
element of `_NumHitShaders`, plus `_NumMissShaders[i]` for `i ≤ groupIndex`. -/
def missStageOffset (h : RTXHelper) (groupIndex : Nat) : Nat :=
  addAllU32 (addAllU32 1 h._NumHitShaders) (h._NumMissShaders.take (groupIndex + 1))

/-- The group `AddStageToMissGroup` creates for a stage inserted at `offset`. -/
def missGroupInfo (offset : Nat) : VkRayTracingShaderGroupCreateInfoNV :=
  { type := .GENERAL
    generalShader := offset
    closestHitShader := VK_SHADER_UNUSED_NV
    anyHitShader := VK_SHADER_UNUSED_NV
    intersectionShader := VK_SHADER_UNUSED_NV }

/-- `RTXHelper::AddStageToMissGroup(stage, groupIndex)`. -/
def AddStageToMissGroup (stage : VkPipelineShaderStageCreateInfo) (groupIndex : Nat)
    (h : RTXHelper) : Outcome RTXHelper :=
  if h._Stages = [] then .assertFailed h else
  if ¬ groupIndex < h._NumMissShaders.length then .assertFailed h else
  if ¬ h._NumMissShaders.getD groupIndex 0 = 0 then .assertFailed h else
  let offset := missStageOffset h groupIndex
  match vectorInsert h._Stages offset [stage] with
  | none => .undefinedBehaviour
  | some stages1 =>
    let groupInfo := missGroupInfo offset
    match vectorInsert h._Groups (u32 (u32 (groupIndex + 1) + h._NumHitGroups)) [groupInfo] with
    | none => .undefinedBehaviour
    | some groups1 =>
      .ok { h with
        _Stages := stages1
        _Groups := groups1
        _NumMissShaders :=
          h._NumMissShaders.set groupIndex (u32 (h._NumMissShaders.getD groupIndex 0 + 1)) }

end RTXHelper

/-- One external call made by `CreateSBT`, with the arguments that matter for the layout. -/
inductive SBTCall where
  /-- `rtxHelper.Create(size, ...)`: a host-visible buffer of `size` bytes is requested. -/
  | createBuffer (size : Nat)
  /-- `vkGetRayTracingShaderGroupHandlesNV(device, pipeline, firstGroup, groupCount, dataSize, mem)`. -/
  | getGroupHandles (firstGroup groupCount dataSize : Nat)
  deriving DecidableEq, Repr

/-- What the Vulkan driver answers to the calls of `Buffer::Create`. -/
structure BufferCreateReply where
  createBuffer : VkResult
  buffer : Nat
  allocateMemory : VkResult
  memory : Nat
  bindBufferMemory : VkResult
  deriving DecidableEq, Repr

/-- `helpers::Buffer::Create(size, usage, memoryProperties)`: the new buffer state and the
returned `VkResult`. -/
def Buffer.Create (size : Nat) (reply : BufferCreateReply) (b : Buffer) : VkResult × Buffer :=
  let b1 := { b with _Size := size }
  if reply.createBuffer = VK_SUCCESS then
    let b2 := { b1 with _Buffer := reply.buffer }
    if reply.allocateMemory ≠ VK_SUCCESS then
      (reply.allocateMemory, { b2 with _Buffer := VK_NULL_HANDLE, _Memory := VK_NULL_HANDLE })
    else
      let b3 := { b2 with _Memory := reply.memory }
      if reply.bindBufferMemory ≠ VK_SUCCESS then
        (reply.bindBufferMemory, { b3 with _Buffer := VK_NULL_HANDLE, _Memory := VK_NULL_HANDLE })
      else (reply.bindBufferMemory, b3)
  else (reply.createBuffer, b1)

/-- `helpers::Buffer::Destroy()`. -/
def Buffer.Destroy (b : Buffer) : Buffer :=
  { b with _Buffer := VK_NULL_HANDLE, _Memory := VK_NULL_HANDLE }

/-- `helpers::Buffer::GetBuffer()`. -/
def Buffer.GetBuffer (b : Buffer) : Nat := b._Buffer

namespace RTXHelper

/-- `RTXHelper::Destroy()`. -/
def Destroy (h : RTXHelper) : RTXHelper :=
  { h with
    _NumHitShaders := []
    _NumMissShaders := []
    _Stages := []
    _Groups := []
    rtxHelper := h.rtxHelper.Destroy }

/-- Result of `CreateSBT`: the returned flag (`none` when `CHECK_VK_ERROR` ended the
program), the helper afterwards, and the external calls made, in order. -/
structure SBTResult where
  ret : Option Bool
  helper : RTXHelper
  calls : List SBTCall
  deriving DecidableEq, Repr

/-- `RTXHelper::CreateSBT(device, rtPipeline)`.  `reply` is the driver's answer to the buffer
creation, `handles` the `VkResult` of `vkGetRayTracingShaderGroupHandlesNV`.  The macro
`CHECK_VK_ERROR` is defined in a header that is not among the sources, so its effect is a
parameter: with `checkAborts` it ends the program on an error result (as an assertion
does), without it the macro only reports the error and execution continues.  Mapping and
unmapping the buffer memory do not change the helper. -/
def CreateSBT (checkAborts : Bool) (reply : BufferCreateReply) (handles : VkResult)
    (h : RTXHelper) : SBTResult :=
  let sbtSize := GetSBTSize h
  let (error, buf) := h.rtxHelper.Create sbtSize reply
  let h1 := { h with rtxHelper := buf }
  if VK_SUCCESS ≠ error then
    { ret := if checkAborts then none else some false, helper := h1,
      calls := [.createBuffer sbtSize] }
  else
    { ret := if VK_SUCCESS ≠ handles ∧ checkAborts = true then none
        else some (decide (VK_SUCCESS = handles)),
      helper := h1,
      calls := [.createBuffer sbtSize, .getGroupHandles 0 (GetNu_Groups h) sbtSize] }

/-- `RTXHelper::GetSBTBuffer()`. -/
def GetSBTBuffer (h : RTXHelper) : Nat := h.rtxHelper.GetBuffer

end RTXHelper

/-- One slot registration: a call of `AddStageToHitGroup` or of `AddStageToMissGroup`. -/
inductive Registration where
  | hit (stages : List VkPipelineShaderStageCreateInfo) (groupIndex : Nat)
  | miss (stage : VkPipelineShaderStageCreateInfo) (groupIndex : Nat)
  deriving DecidableEq, Repr

/-- Perform one registration call. -/
def Registration.call : Registration → RTXHelper → Outcome RTXHelper
  | .hit stages groupIndex, h => h.AddStageToHitGroup stages groupIndex
  | .miss stage groupIndex, h => h.AddStageToMissGroup stage groupIndex

/-- Perform a sequence of registration calls, one after the other; a call that aborts or
has undefined behaviour ends the run. -/
def register : List Registration → RTXHelper → Outcome RTXHelper
  | [], h => .ok h
  | r :: rest, h => (r.call h).andThen (register rest)

/-- The calling sequence of `RtxApp::CreateRaytracingPipelineAndSBT` for an arbitrary
configuration: `Initialize(H, M, s)`, `SetRaygenStage(raygen)`, then the registration calls
`regs` in order. -/
def populate (H M s : Nat) (prior : RTXHelper) (raygen : VkPipelineShaderStageCreateInfo)
    (regs : List Registration) : Outcome RTXHelper :=
  ((prior.Initialize H M s).SetRaygenStage raygen).andThen (register regs)

/-- The slot a registration call addresses: hit (`true`) or miss (`false`) table, and index. -/
def Registration.slot : Registration → Bool × Nat
  | .hit _ groupIndex => (true, groupIndex)
  | .miss _ groupIndex => (false, groupIndex)

/-- The group index of the call is outside the range configured by `Initialize(H, M, _)`. -/
def Registration.outOfRange (H M : Nat) : Registration → Prop
  | .hit _ groupIndex => H ≤ groupIndex
  | .miss _ groupIndex => M ≤ groupIndex

/-- The call passes no stage or more than three stages (hit groups only). -/
def Registration.badStageCount : Registration → Prop
  | .hit stages _ => stages.length = 0 ∨ 3 < stages.length
  | .miss _ _ => False

/-- Every per-slot counter is in the range the registration calls can produce: at most 3
stages per hit slot and at most 1 per miss slot.  This holds for a constructed helper and
is kept by every member function. -/
def CountersInRange (h : RTXHelper) : Prop :=
  (∀ c ∈ h._NumHitShaders, c ≤ 3) ∧ (∀ c ∈ h._NumMissShaders, c ≤ 1)

/-- No per-slot counter is set, as in a helper that was just constructed or destroyed. -/
def CountersClear (h : RTXHelper) : Prop :=
  (∀ c ∈ h._NumHitShaders, c = 0) ∧ (∀ c ∈ h._NumMissShaders, c = 0)

/-- Sample stages used to instantiate the theorems: a raygen stage, two closest-hit
stages, an any-hit stage and two miss stages, each with its own shader module. -/
def sampleRaygen : VkPipelineShaderStageCreateInfo :=
  { stage := VK_SHADER_STAGE_RAYGEN_BIT_NV, module := 1 }

/-- Sample closest-hit stage (primary rays). -/
def sampleChit : VkPipelineShaderStageCreateInfo :=
  { stage := VK_SHADER_STAGE_CLOSEST_HIT_BIT_NV, module := 2 }

/-- Sample closest-hit stage (shadow rays). -/
def sampleShadowChit : VkPipelineShaderStageCreateInfo :=
  { stage := VK_SHADER_STAGE_CLOSEST_HIT_BIT_NV, module := 3 }

/-- Sample any-hit stage. -/
def sampleAhit : VkPipelineShaderStageCreateInfo :=
  { stage := VK_SHADER_STAGE_ANY_HIT_BIT_NV, module := 4 }

/-- Sample miss stage (primary rays). -/
def sampleMiss : VkPipelineShaderStageCreateInfo :=
  { stage := VK_SHADER_STAGE_MISS_BIT_NV, module := 5 }

/-- Sample miss stage (shadow rays). -/
def sampleShadowMiss : VkPipelineShaderStageCreateInfo :=
  { stage := VK_SHADER_STAGE_MISS_BIT_NV, module := 6 }

/-- The helper after `Initialize(2, 2, 32)` and `SetRaygenStage(sampleRaygen)` on a
constructed helper. -/
def sampleAfterRaygen : RTXHelper :=
  { _ShaderHeaderSize := 32, _NumHitGroups := 2, _NumMissGroups := 2,
    _NumHitShaders := [0, 0], _NumMissShaders := [0, 0],
    _Stages := [sampleRaygen], _Groups := [RTXHelper.raygenGroup],
    rtxHelper := Buffer.new }

/-- The helper `sampleAfterRaygen` after `AddStageToHitGroup({sampleChit}, 0)`. -/
def sampleOneHit : RTXHelper :=
  { sampleAfterRaygen with
    _NumHitShaders := [1, 0]
    _Stages := [sampleRaygen, sampleChit]
    _Groups := [RTXHelper.raygenGroup, RTXHelper.hitGroupInfo 1 [sampleChit]] }

/-- The helper `sampleOneHit` after `AddStageToHitGroup({sampleAhit, sampleShadowChit}, 1)`:
an any-hit stage passed before a closest-hit stage. -/
def sampleAnyClosest : RTXHelper :=
  { sampleOneHit with
    _NumHitShaders := [1, 2]
    _Stages := [sampleRaygen, sampleChit, sampleAhit, sampleShadowChit]
    _Groups := [RTXHelper.raygenGroup, RTXHelper.hitGroupInfo 1 [sampleChit],
      { RTXHelper.emptyHitGroup with anyHitShader := 2, closestHitShader := 3 }] }

/-- The helper `sampleOneHit` after `AddStageToHitGroup({sampleShadowChit}, 1)`. -/
def sampleTwoHits : RTXHelper :=
  { sampleOneHit with
    _NumHitShaders := [1, 1]
    _Stages := [sampleRaygen, sampleChit, sampleShadowChit]
    _Groups := [RTXHelper.raygenGroup, RTXHelper.hitGroupInfo 1 [sampleChit],
      RTXHelper.hitGroupInfo 2 [sampleShadowChit]] }

/-- The helper `sampleTwoHits` after `AddStageToMissGroup(sampleMiss, 0)`. -/
def sampleOneMiss : RTXHelper :=
  { sampleTwoHits with
    _NumMissShaders := [1, 0]
    _Stages := [sampleRaygen, sampleChit, sampleShadowChit, sampleMiss]
    _Groups := [RTXHelper.raygenGroup, RTXHelper.hitGroupInfo 1 [sampleChit],
      RTXHelper.hitGroupInfo 2 [sampleShadowChit], RTXHelper.missGroupInfo 3] }

/-- The helper `sampleOneMiss` after `AddStageToMissGroup(sampleShadowMiss, 1)`: the table
of the application, as populated by `RtxApp::CreateRaytracingPipelineAndSBT`. -/
def sampleTable : RTXHelper :=
  { sampleOneMiss with
    _NumMissShaders := [1, 1]
    _Stages := [sampleRaygen, sampleChit, sampleShadowChit, sampleMiss, sampleShadowMiss]
    _Groups := [RTXHelper.raygenGroup, RTXHelper.hitGroupInfo 1 [sampleChit],
      RTXHelper.hitGroupInfo 2 [sampleShadowChit], RTXHelper.missGroupInfo 3,
      RTXHelper.missGroupInfo 4] }

/-- Number of stages a registration call adds to the hit region. -/
def Registration.hitStages : Registration → Nat
  | .hit stages _ => stages.length
  | .miss _ _ => 0

/-- Sum of the stage counts of the hit groups registered by `regs`. -/
def hitStageTotal (regs : List Registration) : Nat :=
  (regs.map Registration.hitStages).sum

/-- The call registers a miss group at an index below `g`. -/
def Registration.isMissBelow (g : Nat) : Registration → Bool
  | .hit _ _ => false
  | .miss _ groupIndex => decide (groupIndex < g)

/-- Number of miss groups registered by `regs` at indices below `g`. -/
def missBelow (regs : List Registration) (g : Nat) : Nat :=
  regs.countP (Registration.isMissBelow g)

/-- The registration calls for the hit stage lists `hs`, in ascending slot order starting
at slot `k`. -/
def canonicalHits : Nat → List (List VkPipelineShaderStageCreateInfo) → List Registration
  | _, [] => []
  | k, stages :: rest => .hit stages k :: canonicalHits (k + 1) rest

/-- The registration calls for the miss stages `ms`, in ascending slot order starting at
slot `k`. -/
def canonicalMisses : Nat → List VkPipelineShaderStageCreateInfo → List Registration
  | _, [] => []
  | k, stage :: rest => .miss stage k :: canonicalMisses (k + 1) rest

/-- Total number of stages in the hit stage lists `hs`. -/
def stageTotal (hs : List (List VkPipelineShaderStageCreateInfo)) : Nat :=
  (hs.map List.length).sum

/-- The hit groups for stage lists placed one after the other from `offset` on. -/
def expectedHitGroups :
    Nat → List (List VkPipelineShaderStageCreateInfo) → List VkRayTracingShaderGroupCreateInfoNV
  | _, [] => []
  | offset, stages :: rest =>
    RTXHelper.hitGroupInfo offset stages :: expectedHitGroups (offset + stages.length) rest

/-- The miss groups for stages placed one after the other from `offset` on. -/
def expectedMissGroups :
    Nat → List VkPipelineShaderStageCreateInfo → List VkRayTracingShaderGroupCreateInfoNV
  | _, [] => []
  | offset, _ :: rest => RTXHelper.missGroupInfo offset :: expectedMissGroups (offset + 1) rest

/-- The helper after the hit stage lists `hsDone` (slots `0 ..`) and then the miss stages
`msDone` (slots `0 ..`) were registered in ascending order, with `nHit` hit slots and
`nMiss` miss slots still free; configuration and buffer are those of `base`. -/
def expectedState (base : RTXHelper) (raygen : VkPipelineShaderStageCreateInfo)
    (hsDone : List (List VkPipelineShaderStageCreateInfo)) (nHit : Nat)
    (msDone : List VkPipelineShaderStageCreateInfo) (nMiss : Nat) : RTXHelper :=
  { base with
    _NumHitShaders := hsDone.map List.length ++ List.replicate nHit 0
    _NumMissShaders := msDone.map (fun _ => 1) ++ List.replicate nMiss 0
    _Stages := raygen :: (hsDone.flatten ++ msDone)
    _Groups := RTXHelper.raygenGroup ::
      (expectedHitGroups 1 hsDone ++ expectedMissGroups (1 + stageTotal hsDone) msDone) }


/-- Apply a change of state to the state carried by an outcome. -/
def Outcome.map {σ : Type} (f : σ → σ) : Outcome σ → Outcome σ
  | .ok s => .ok (f s)
  | .assertFailed s => .assertFailed (f s)
  | .undefinedBehaviour => .undefinedBehaviour

/-- The helper `h` with its table buffer replaced by `b`. -/
def RTXHelper.withBuffer (b : Buffer) (h : RTXHelper) : RTXHelper :=
  { h with rtxHelper := b }

/-- Every hit slot and every miss slot has been registered: no per-slot counter is zero. -/
def AllSlotsRegistered (h : RTXHelper) : Prop :=
  (∀ c ∈ h._NumHitShaders, c ≠ 0) ∧ (∀ c ∈ h._NumMissShaders, c ≠ 0)

/-- A driver reply to `Buffer::Create` in which every call succeeds; the buffer gets
handle 7 and its memory handle 9. -/
def sampleBufferReply : BufferCreateReply :=
  { createBuffer := VK_SUCCESS, buffer := 7, allocateMemory := VK_SUCCESS, memory := 9,
    bindBufferMemory := VK_SUCCESS }


/-! Scene set-up (`RtxApp::CreateAS`, `RtxApp::CreateScene` in `src/rtPipe.cpp`).
`VkDeviceSize` and `size_t` values are 64-bit; no arithmetic on them in this part can exceed
64 bits (sizes of objects held in memory), so they are plain natural numbers. -/

/-- Vulkan `VkAccelerationStructureTypeNV`. -/
inductive VkAccelerationStructureTypeNV where
  | TOP_LEVEL
  | BOTTOM_LEVEL
  deriving DecidableEq, Repr

/-- Vulkan `VK_BUILD_ACCELERATION_STRUCTURE_PREFER_FAST_TRACE_BIT_NV`. -/
def VK_BUILD_ACCELERATION_STRUCTURE_PREFER_FAST_TRACE_BIT_NV : Nat := 0x4
/-- Vulkan `VK_ACCESS_ACCELERATION_STRUCTURE_READ_BIT_NV`. -/
def VK_ACCESS_ACCELERATION_STRUCTURE_READ_BIT_NV : Nat := 0x200000
/-- Vulkan `VK_ACCESS_ACCELERATION_STRUCTURE_WRITE_BIT_NV`. -/
def VK_ACCESS_ACCELERATION_STRUCTURE_WRITE_BIT_NV : Nat := 0x400000
/-- Vulkan `VK_PIPELINE_STAGE_RAY_TRACING_SHADER_BIT_NV`. -/
def VK_PIPELINE_STAGE_RAY_TRACING_SHADER_BIT_NV : Nat := 0x200000
/-- Vulkan `VK_GEOMETRY_OPAQUE_BIT_NV`. -/
def VK_GEOMETRY_OPAQUE_BIT_NV : Nat := 0x1
/-- Vulkan `VK_GEOMETRY_INSTANCE_TRIANGLE_CULL_DISABLE_BIT_NV`. -/
def VK_GEOMETRY_INSTANCE_TRIANGLE_CULL_DISABLE_BIT_NV : Nat := 0x1

/-- The fields of `VkAccelerationStructureInfoNV` the code sets.  `pGeometries` is `none`
for `nullptr` and `some i` for the address of element `i` of the local `geometries` array. -/
structure VkAccelerationStructureInfoNV where
  type : VkAccelerationStructureTypeNV
  flags : Nat
  instanceCount : Nat
  geometryCount : Nat
  pGeometries : Option Nat
  deriving DecidableEq, Repr

/-- The struct `RTAccelerationStructure` (`rtPipe.h`). -/
structure RTAccelerationStructure where
  memory : Nat
  accelerationStructureInfo : VkAccelerationStructureInfoNV
  accelerationStructure : Nat
  handle : Nat
  deriving DecidableEq, Repr

/-- The struct `RTMesh` (`rtPipe.h`). -/
structure RTMesh where
  numVertices : Nat
  numFaces : Nat
  positions : Buffer
  attribs : Buffer
  indices : Buffer
  faces : Buffer
  matIDs : Buffer
  blas : RTAccelerationStructure
  deriving DecidableEq, Repr

/-- The triangle fields of `VkGeometryNV` that depend on the mesh (the others are
constants: offsets 0, format `R32G32B32_SFLOAT`, index type `UINT32`, no transform data). -/
structure VkGeometryNV where
  vertexData : Nat
  vertexCount : Nat
  vertexStride : Nat
  indexData : Nat
  indexCount : Nat
  flags : Nat
  deriving DecidableEq, Repr

/-- The struct `VkGeometryInstance` (`rtPipe.cpp`).  The twelve `float`s of `transform` are
kept as their 32-bit patterns (they are only copied); the bit-fields hold values below
`2^24` and `2^8`. -/
structure VkGeometryInstance where
  transform : List Nat
  instanceId : Nat
  mask : Nat
  instanceOffset : Nat
  flags : Nat
  accelerationStructureHandle : Nat
  deriving DecidableEq, Repr

/-- The local `transform` of `CreateScene`: the 3x4 identity, row by row
(`1.0f` is `0x3F800000`, `0.0f` is `0`). -/
def identityTransform : List Nat :=
  [0x3F800000, 0, 0, 0,
   0, 0x3F800000, 0, 0,
   0, 0, 0x3F800000, 0]

/-- A Vulkan call made by `CreateAS`. -/
inductive ASCall where
  /-- `vkCreateAccelerationStructureNV` with `createInfo.info = info`. -/
  | createAccelerationStructure (info : VkAccelerationStructureInfoNV)
  /-- `vkAllocateMemory`. -/
  | allocateMemory
  /-- `vkBindAccelerationStructureMemoryNV`. -/
  | bindAccelerationStructureMemory (accelerationStructure memory : Nat)
  /-- `vkGetAccelerationStructureHandleNV`. -/
  | getAccelerationStructureHandle (accelerationStructure : Nat)
  deriving DecidableEq, Repr

/-- What the Vulkan driver answers to the calls of one `CreateAS`. -/
structure CreateASReply where
  createAccelerationStructure : VkResult
  accelerationStructure : Nat
  allocateMemory : VkResult
  memory : Nat
  bindMemory : VkResult
  getHandle : VkResult
  handle : Nat
  deriving DecidableEq, Repr

/-- Result of `CreateAS`: the returned flag (`none` when `CHECK_VK_ERROR` ended the
program), the structure record afterwards, and the Vulkan calls made, in order. -/
structure CreateASResult where
  ret : Option Bool
  as : RTAccelerationStructure
  calls : List ASCall
  deriving DecidableEq, Repr

/-- `RtxApp::CreateAS(type, geometryCount, geometries, instanceCount, _as)`.
`CHECK_VK_ERROR` is a parameter as in `CreateSBT`: with `checkAborts` it ends the program
on an error result, without it execution continues to the `return false`. -/
def CreateAS (checkAborts : Bool) (type : VkAccelerationStructureTypeNV) (geometryCount : Nat)
    (geometries : Option Nat) (instanceCount : Nat) (reply : CreateASReply)
    (as : RTAccelerationStructure) : CreateASResult :=
  let info : VkAccelerationStructureInfoNV :=
    { type := type
      flags := VK_BUILD_ACCELERATION_STRUCTURE_PREFER_FAST_TRACE_BIT_NV
      geometryCount := geometryCount
      instanceCount := instanceCount
      pGeometries := geometries }
  let failed : Option Bool := if checkAborts then none else some false
  let as1 := { as with accelerationStructureInfo := info }
  if VK_SUCCESS ≠ reply.createAccelerationStructure then
    { ret := failed, as := as1, calls := [.createAccelerationStructure info] }
  else
    let as2 := { as1 with accelerationStructure := reply.accelerationStructure }
    if VK_SUCCESS ≠ reply.allocateMemory then
      { ret := failed, as := as2, calls := [.createAccelerationStructure info, .allocateMemory] }
    else
      let as3 := { as2 with memory := reply.memory }
      if VK_SUCCESS ≠ reply.bindMemory then
        { ret := failed, as := as3,
          calls := [.createAccelerationStructure info, .allocateMemory,
            .bindAccelerationStructureMemory as3.accelerationStructure as3.memory] }
      else if VK_SUCCESS ≠ reply.getHandle then
        { ret := failed, as := as3,
          calls := [.createAccelerationStructure info, .allocateMemory,
            .bindAccelerationStructureMemory as3.accelerationStructure as3.memory,
            .getAccelerationStructureHandle as3.accelerationStructure] }
      else
        { ret := some true, as := { as3 with handle := reply.handle },
          calls := [.createAccelerationStructure info, .allocateMemory,
            .bindAccelerationStructureMemory as3.accelerationStructure as3.memory,
            .getAccelerationStructureHandle as3.accelerationStructure] }

/-- Modelled from the spec: `Max(a, b)`, a helper of `utils.h`, which is not among the
sources; the spec describes the value computed with it as the maximum of the
requirements. -/
def Max (a b : Nat) : Nat := if a < b then b else a

/-- The loop `for (mesh : meshes) maximumBlasSize = Max(maximumBlasSize, size_of(mesh))` of
`CreateScene`, started from `maximumBlasSize = 0`; `sizes` are the build-scratch
requirements the driver reports for the meshes, in mesh order. -/
def maximumBlasSize (sizes : List Nat) : Nat :=
  sizes.foldl Max 0

/-- The `scratchBufferSize` of `CreateScene`:
`Max(maximumBlasSize, memReqTLAS.memoryRequirements.size)`. -/
def scratchBufferSize (sizes : List Nat) (tlasSize : Nat) : Nat :=
  Max (maximumBlasSize sizes) tlasSize

/-- A command recorded into the command buffer by `CreateScene`. -/
inductive Command where
  /-- `vkCmdBuildAccelerationStructureNV(cb, &info, instanceData, instanceOffset, update,
  dst, src, scratch, scratchOffset)`. -/
  | buildAccelerationStructure (info : VkAccelerationStructureInfoNV)
      (instanceData instanceOffset : Nat) (update : Bool) (dst src scratch scratchOffset : Nat)
  /-- `vkCmdPipelineBarrier(cb, srcStageMask, dstStageMask, 0, 1, &memoryBarrier, 0, 0, 0, 0)`
  with the access masks of the one memory barrier. -/
  | pipelineBarrier (srcStageMask dstStageMask srcAccessMask dstAccessMask : Nat)
  deriving DecidableEq, Repr

/-- `sizeof(VkGeometryInstance)`: 48 bytes of transform, two 32-bit bit-field words and a
64-bit handle. -/
def sizeofVkGeometryInstance : Nat := 64

/-- `sizeof(vec3)`: three `float`s. -/
def sizeofVec3 : Nat := 12

/-- What the Vulkan driver answers during `CreateScene`: the replies to the `CreateAS` of
mesh `i`, the build-scratch requirement of mesh `i`, and the replies for the instance
buffer, the top-level structure, the scratch buffer and the command buffer. -/
structure SceneDriver where
  blas : Nat → CreateASReply
  blasScratch : Nat → Nat
  instancesBuffer : BufferCreateReply
  mapInstancesBuffer : VkResult
  tlas : CreateASReply
  tlasScratch : Nat
  scratchBuffer : BufferCreateReply
  allocateCommandBuffers : VkResult
  commandBuffer : Nat

/-- `helpers::Buffer::GetSize()`. -/
def Buffer.GetSize (b : Buffer) : Nat := b._Size

/-- `helpers::Buffer::Map(size, offset)`: `none` for the null pointer, otherwise the number
of bytes mapped.  The size is clamped to the buffer size before `vkMapMemory`, whose result
is `mapMemory`; the pointer is reset to null when that result is not `VK_SUCCESS`. -/
def Buffer.Map (size : Nat) (mapMemory : VkResult) (b : Buffer) : Option Nat :=
  let size1 := if size > b._Size then b._Size else size
  if VK_SUCCESS ≠ mapMemory then none else some size1

/-- `helpers::Buffer::UploadData(data, size, offset)`: the returned flag and the number of
bytes copied.  The data is copied only when `Map` returns a non-null pointer; the local
`result` is never assigned after its initialisation and the function ends with
`return true`. -/
def Buffer.UploadData (size : Nat) (mapMemory : VkResult) (b : Buffer) : Bool × Nat :=
  match b.Map size mapMemory with
  | some _ => (true, size)
  | none => (true, 0)

/-- The geometry `CreateScene` declares for a mesh. -/
def geometryOf (mesh : RTMesh) : VkGeometryNV :=
  { vertexData := mesh.positions.GetBuffer
    vertexCount := mesh.numVertices
    vertexStride := sizeofVec3
    indexData := mesh.indices.GetBuffer
    indexCount := u32 (mesh.numFaces * 3)
    flags := VK_GEOMETRY_OPAQUE_BIT_NV }

/-- The instance record `CreateScene` writes for mesh `i`; the bit-fields keep the low 24
and 8 bits of the assigned values. -/
def instanceOf (i : Nat) (mesh : RTMesh) : VkGeometryInstance :=
  { transform := identityTransform
    instanceId := u32 i % 16777216
    mask := 0xff % 256
    instanceOffset := 0 % 16777216
    flags := VK_GEOMETRY_INSTANCE_TRIANGLE_CULL_DISABLE_BIT_NV % 256
    accelerationStructureHandle := mesh.blas.handle }

/-- State after the first loop of `CreateScene`. -/
structure BottomLevelPhase where
  aborted : Bool
  meshes : List RTMesh
  geometries : List VkGeometryNV
  instances : List VkGeometryInstance
  calls : List ASCall
  deriving DecidableEq, Repr

/-- The first loop of `CreateScene` from mesh index `i` on: per mesh, the geometry, the
`CreateAS` call for the bottom-level structure (its result is ignored) and the instance
record. -/
def createBottomLevel (checkAborts : Bool) (driver : SceneDriver) :
    Nat → List RTMesh → BottomLevelPhase
  | _, [] => { aborted := false, meshes := [], geometries := [], instances := [], calls := [] }
  | i, mesh :: rest =>
    let geometry := geometryOf mesh
    let r := CreateAS checkAborts .BOTTOM_LEVEL 1 (some i) 0 (driver.blas i) mesh.blas
    let mesh1 := { mesh with blas := r.as }
    match r.ret with
    | none =>
      { aborted := true, meshes := mesh1 :: rest, geometries := [geometry], instances := [],
        calls := r.calls }
    | some _ =>
      let tail := createBottomLevel checkAborts driver (i + 1) rest
      { aborted := tail.aborted
        meshes := mesh1 :: tail.meshes
        geometries := geometry :: tail.geometries
        instances := instanceOf i mesh1 :: tail.instances
        calls := r.calls ++ tail.calls }

/-- The memory barrier command `CreateScene` records after every build. -/
def buildBarrier : Command :=
  .pipelineBarrier VK_PIPELINE_STAGE_RAY_TRACING_SHADER_BIT_NV
    VK_PIPELINE_STAGE_RAY_TRACING_SHADER_BIT_NV
    (VK_ACCESS_ACCELERATION_STRUCTURE_WRITE_BIT_NV ||| VK_ACCESS_ACCELERATION_STRUCTURE_READ_BIT_NV)
    (VK_ACCESS_ACCELERATION_STRUCTURE_WRITE_BIT_NV ||| VK_ACCESS_ACCELERATION_STRUCTURE_READ_BIT_NV)

/-- The build info of mesh `i` as the recording loop sets it (lines 509 to 511). -/
def bottomLevelBuildInfo (i : Nat) (mesh : RTMesh) : VkAccelerationStructureInfoNV :=
  { mesh.blas.accelerationStructureInfo with
    instanceCount := 0
    geometryCount := 1
    pGeometries := some i }

/-- The commands of the recording loop of `CreateScene` from mesh index `i` on: per mesh,
the build command and the barrier. -/
def recordBottomLevel (scratch : Nat) : Nat → List RTMesh → List Command
  | _, [] => []
  | i, mesh :: rest =>
    .buildAccelerationStructure (bottomLevelBuildInfo i mesh) VK_NULL_HANDLE 0 false
        mesh.blas.accelerationStructure VK_NULL_HANDLE scratch 0 ::
      buildBarrier :: recordBottomLevel scratch (i + 1) rest

/-- The meshes after the recording loop of `CreateScene` from mesh index `i` on: their
build infos are updated. -/
def recordedMeshes : Nat → List RTMesh → List RTMesh
  | _, [] => []
  | i, mesh :: rest =>
    { mesh with blas := { mesh.blas with accelerationStructureInfo := bottomLevelBuildInfo i mesh } } ::
      recordedMeshes (i + 1) rest

/-- The build info of the top-level structure as `CreateScene` sets it before recording
(lines 521 to 523); `numInstances` is `instances.size()`. -/
def topLevelBuildInfo (numInstances : Nat) (topLevelAS : RTAccelerationStructure) :
    VkAccelerationStructureInfoNV :=
  { topLevelAS.accelerationStructureInfo with
    instanceCount := u32 numInstances
    geometryCount := 0
    pGeometries := none }

/-- Result of `CreateScene`: whether `CHECK_VK_ERROR` or an assertion ended the program,
the scene afterwards, the local arrays and buffers, the Vulkan calls made by `CreateAS`,
the commands recorded, and whether the command buffer was submitted. -/
structure SceneResult where
  aborted : Bool
  meshes : List RTMesh
  topLevelAS : RTAccelerationStructure
  geometries : List VkGeometryNV
  instances : List VkGeometryInstance
  calls : List ASCall
  instancesBuffer : Buffer
  scratchBufferSize : Nat
  scratchBuffer : Buffer
  commands : List Command
  submitted : Bool
  deriving DecidableEq, Repr

/-- `RtxApp::CreateScene()` on the scene `meshes`, `topLevelAS`. -/
def CreateScene (checkAborts : Bool) (driver : SceneDriver) (meshes : List RTMesh)
    (topLevelAS : RTAccelerationStructure) : SceneResult :=
  let numMeshes := meshes.length
  let phase := createBottomLevel checkAborts driver 0 meshes
  if phase.aborted then
    { aborted := true, meshes := phase.meshes, topLevelAS := topLevelAS,
      geometries := phase.geometries, instances := phase.instances, calls := phase.calls,
      instancesBuffer := Buffer.new, scratchBufferSize := 0, scratchBuffer := Buffer.new,
      commands := [], submitted := false }
  else
    let created :=
      Buffer.new.Create (numMeshes * sizeofVkGeometryInstance) driver.instancesBuffer
    let instancesBuffer := created.2
    if VK_SUCCESS ≠ created.1 ∧ checkAborts = true then
      { aborted := true, meshes := phase.meshes, topLevelAS := topLevelAS,
        geometries := phase.geometries, instances := phase.instances, calls := phase.calls,
        instancesBuffer := instancesBuffer, scratchBufferSize := 0, scratchBuffer := Buffer.new,
        commands := [], submitted := false }
    else if (instancesBuffer.UploadData instancesBuffer.GetSize driver.mapInstancesBuffer).1 =
        false then
      { aborted := true, meshes := phase.meshes, topLevelAS := topLevelAS,
        geometries := phase.geometries, instances := phase.instances, calls := phase.calls,
        instancesBuffer := instancesBuffer, scratchBufferSize := 0, scratchBuffer := Buffer.new,
        commands := [], submitted := false }
    else
      let top := CreateAS checkAborts .TOP_LEVEL 0 none 1 driver.tlas topLevelAS
      if top.ret = none then
        { aborted := true, meshes := phase.meshes, topLevelAS := top.as,
          geometries := phase.geometries, instances := phase.instances,
          calls := phase.calls ++ top.calls,
          instancesBuffer := instancesBuffer, scratchBufferSize := 0,
          scratchBuffer := Buffer.new, commands := [], submitted := false }
      else
        let size := scratchBufferSize ((List.range numMeshes).map driver.blasScratch)
          driver.tlasScratch
        let createdScratch := Buffer.new.Create size driver.scratchBuffer
        let scratchBuffer := createdScratch.2
        if (VK_SUCCESS ≠ createdScratch.1 ∧ checkAborts = true) ∨
            (VK_SUCCESS ≠ driver.allocateCommandBuffers ∧ checkAborts = true) then
          { aborted := true, meshes := phase.meshes, topLevelAS := top.as,
            geometries := phase.geometries, instances := phase.instances,
            calls := phase.calls ++ top.calls,
            instancesBuffer := instancesBuffer, scratchBufferSize := size,
            scratchBuffer := scratchBuffer, commands := [], submitted := false }
        else
          let info := topLevelBuildInfo numMeshes top.as
          { aborted := false
            meshes := recordedMeshes 0 phase.meshes
            topLevelAS := { top.as with accelerationStructureInfo := info }
            geometries := phase.geometries
            instances := phase.instances
            calls := phase.calls ++ top.calls
            instancesBuffer := instancesBuffer
            scratchBufferSize := size
            scratchBuffer := scratchBuffer
            commands := recordBottomLevel scratchBuffer.GetBuffer 0 phase.meshes ++
              [.buildAccelerationStructure info instancesBuffer.GetBuffer 0 false
                  top.as.accelerationStructure VK_NULL_HANDLE scratchBuffer.GetBuffer 0,
                buildBarrier]
            submitted := true }

/-- The build info carried by a build command. -/
def Command.buildInfo? : Command → Option VkAccelerationStructureInfoNV
  | .buildAccelerationStructure info _ _ _ _ _ _ _ => some info
  | .pipelineBarrier _ _ _ _ => none

/-- The command builds an acceleration structure of the given type. -/
def Command.isBuildOf (type : VkAccelerationStructureTypeNV) (c : Command) : Bool :=
  match c.buildInfo? with
  | some info => decide (info.type = type)
  | none => false

/-- The command is a build command. -/
def Command.isBuild (c : Command) : Bool := c.buildInfo?.isSome

/-- The scratch buffer and scratch offset of a build command. -/
def Command.scratch? : Command → Option (Nat × Nat)
  | .buildAccelerationStructure _ _ _ _ _ _ scratch scratchOffset => some (scratch, scratchOffset)
  | .pipelineBarrier _ _ _ _ => none

/-- A driver whose every call succeeds; structure `i` gets handle `100 + i`, its memory
`200 + i` and its 64-bit handle `300 + i`, mesh `i` needs `1000 * (i + 1)` bytes of build
scratch and the top-level structure 512. -/
def sampleDriver : SceneDriver :=
  { blas := fun i =>
      { createAccelerationStructure := VK_SUCCESS, accelerationStructure := 100 + i,
        allocateMemory := VK_SUCCESS, memory := 200 + i, bindMemory := VK_SUCCESS,
        getHandle := VK_SUCCESS, handle := 300 + i }
    blasScratch := fun i => 1000 * (i + 1)
    instancesBuffer := sampleBufferReply
    mapInstancesBuffer := VK_SUCCESS
    tlas :=
      { createAccelerationStructure := VK_SUCCESS, accelerationStructure := 150,
        allocateMemory := VK_SUCCESS, memory := 250, bindMemory := VK_SUCCESS,
        getHandle := VK_SUCCESS, handle := 350 }
    tlasScratch := 512
    scratchBuffer :=
      { createBuffer := VK_SUCCESS, buffer := 8, allocateMemory := VK_SUCCESS, memory := 10,
        bindBufferMemory := VK_SUCCESS }
    allocateCommandBuffers := VK_SUCCESS
    commandBuffer := 1 }

/-- A structure record as it is before `CreateAS` has run on it. -/
def sampleNoAS : RTAccelerationStructure :=
  { memory := 0
    accelerationStructureInfo :=
      { type := .TOP_LEVEL, flags := 0, instanceCount := 0, geometryCount := 0,
        pGeometries := none }
    accelerationStructure := 0
    handle := 0 }

/-- A mesh of `numFaces` triangles whose position and index buffers have the given
handles. -/
def sampleMesh (numFaces positions indices : Nat) : RTMesh :=
  { numVertices := u32 (numFaces * 3)
    numFaces := u32 numFaces
    positions := { _Buffer := positions, _Memory := positions + 1, _Size := numFaces * 36 }
    attribs := Buffer.new
    indices := { _Buffer := indices, _Memory := indices + 1, _Size := numFaces * 12 }
    faces := Buffer.new
    matIDs := Buffer.new
    blas := sampleNoAS }

/-- The scene of two meshes, with 3 and 4 triangles. -/
def sampleScene : List RTMesh := [sampleMesh 3 20 22, sampleMesh 4 24 26]


/-! Helpers of `src/common/vk_helpers.cpp` and `src/common/vulkanapp.cpp`. -/

/-- Vulkan `VK_MAX_MEMORY_TYPES`. -/
def VK_MAX_MEMORY_TYPES : Nat := 32

/-- The test `memoryTypeBits & (1 << memoryTypeIndex)` of `GetMemoryType`.  The shift is done
on `int` and the result converted to 32 bits for the `&`; for an index below 32 that is the
bit `2^memoryTypeIndex`. -/
def memoryTypeBitSet (memoryTypeBits memoryTypeIndex : Nat) : Bool :=
  decide (memoryTypeBits &&& u32 (1 <<< memoryTypeIndex) ≠ 0)

/-- The loop of `helpers::GetMemoryType` from `memoryTypeIndex` on, with `fuel` indices left
before `VK_MAX_MEMORY_TYPES`; `memoryTypes i` are the `propertyFlags` of memory type `i` in
`runtime_info::PhysicalDeviceMemoryProperties`.  `result` is 0 unless the loop breaks. -/
def getMemoryTypeLoop (memoryTypes : Nat → Nat) (memoryTypeBits memoryProperties : Nat) :
    Nat → Nat → Nat
  | 0, _ => 0
  | fuel + 1, memoryTypeIndex =>
    if memoryTypeBitSet memoryTypeBits memoryTypeIndex = true ∧
        memoryTypes memoryTypeIndex &&& memoryProperties = memoryProperties then
      memoryTypeIndex
    else
      getMemoryTypeLoop memoryTypes memoryTypeBits memoryProperties fuel (memoryTypeIndex + 1)

/-- `helpers::GetMemoryType(memoryRequiriments, memoryProperties)`, where `memoryTypeBits`
is `memoryRequiriments.memoryTypeBits`. -/
def GetMemoryType (memoryTypes : Nat → Nat) (memoryTypeBits memoryProperties : Nat) : Nat :=
  getMemoryTypeLoop memoryTypes memoryTypeBits memoryProperties VK_MAX_MEMORY_TYPES 0

/-- Memory type `i` is allowed by `memoryTypeBits` (bit `i` is set) and its property flags
contain every bit of `memoryProperties`. -/
def MemoryTypeSuits (memoryTypes : Nat → Nat) (memoryTypeBits memoryProperties i : Nat) :
    Prop :=
  memoryTypeBits.testBit i = true ∧ memoryTypes i &&& memoryProperties = memoryProperties

instance (memoryTypes : Nat → Nat) (memoryTypeBits memoryProperties i : Nat) :
    Decidable (MemoryTypeSuits memoryTypes memoryTypeBits memoryProperties i) := by
  unfold MemoryTypeSuits
  exact inferInstance

/-- Memory types of a sample device: type 0 is device-local (flags `0x1`), type 1 is
host-visible and host-coherent (`0x6`), type 2 is host-visible, coherent and cached (`0xe`);
the other entries are zero. -/
def sampleMemoryTypes : Nat → Nat
  | 0 => 0x1
  | 1 => 0x6
  | 2 => 0xe
  | _ => 0

/-- Vulkan `VK_QUEUE_GRAPHICS_BIT`. -/
def VK_QUEUE_GRAPHICS_BIT : Nat := 0x1
/-- Vulkan `VK_QUEUE_COMPUTE_BIT`. -/
def VK_QUEUE_COMPUTE_BIT : Nat := 0x2
/-- Vulkan `VK_QUEUE_TRANSFER_BIT`. -/
def VK_QUEUE_TRANSFER_BIT : Nat := 0x4

/-- The initial value `~0u` of the queue indices. -/
def noQueueFamily : Nat := 4294967295

/-- A loop `for (j = 0; j < count; ++j) if (cond(queueFlags[j])) { queueIdx = j; break; }` of
`InitializeDevicesAndQueues`, from index `j` on: `families` are the `queueFlags` of the
families not yet visited, `queueIdx` the value before the loop. -/
def findQueueFamily (cond : Nat → Bool) : Nat → List Nat → Nat → Nat
  | _, [], queueIdx => queueIdx
  | j, queueFlags :: rest, queueIdx =>
    if cond queueFlags then j else findQueueFamily cond (j + 1) rest queueIdx

/-- One round of the loop over `askingFlags` in `InitializeDevicesAndQueues`: the queue
family index chosen for `flag`. -/
def selectQueueFamily (flag : Nat) (families : List Nat) : Nat :=
  let queueIdx := noQueueFamily
  let queueIdx1 :=
    if flag = VK_QUEUE_COMPUTE_BIT then
      findQueueFamily (fun q => decide (q &&& VK_QUEUE_COMPUTE_BIT ≠ 0) &&
        !decide (q &&& VK_QUEUE_GRAPHICS_BIT ≠ 0)) 0 families queueIdx
    else if flag = VK_QUEUE_TRANSFER_BIT then
      findQueueFamily (fun q => decide (q &&& VK_QUEUE_TRANSFER_BIT ≠ 0) &&
        !decide (q &&& VK_QUEUE_GRAPHICS_BIT ≠ 0) &&
        !decide (q &&& VK_QUEUE_COMPUTE_BIT ≠ 0)) 0 families queueIdx
    else queueIdx
  if queueIdx1 = noQueueFamily then
    findQueueFamily (fun q => decide (q &&& flag ≠ 0)) 0 families queueIdx1
  else queueIdx1

/-- The queue family indices chosen by `InitializeDevicesAndQueues` and the
`queueFamilyIndex` fields of the `VkDeviceQueueCreateInfo`s it passes to device creation. -/
structure QueueSelection where
  _GraphicsQueueFamilyIndex : Nat
  _ComputeQueueFamilyIndex : Nat
  _TransferQueueFamilyIndex : Nat
  deviceQueueCreateInfos : List Nat
  deriving DecidableEq, Repr

/-- The queue selection of `vulkanapp::InitializeDevicesAndQueues` for a physical device
whose queue families have the flags `families`. -/
def selectQueues (families : List Nat) : QueueSelection :=
  let graphics := selectQueueFamily VK_QUEUE_GRAPHICS_BIT families
  let compute := selectQueueFamily VK_QUEUE_COMPUTE_BIT families
  let transfer := selectQueueFamily VK_QUEUE_TRANSFER_BIT families
  let infos1 := [graphics]
  let infos2 := if compute ≠ graphics then infos1 ++ [compute] else infos1
  let infos3 :=
    if transfer ≠ graphics ∧ transfer ≠ compute then infos2 ++ [transfer] else infos2
  { _GraphicsQueueFamilyIndex := graphics
    _ComputeQueueFamilyIndex := compute
    _TransferQueueFamilyIndex := transfer
    deviceQueueCreateInfos := infos3 }

/-- Family `j` is the first one whose flags satisfy `cond`. -/
def IsFirstFamily (cond : Nat → Bool) (families : List Nat) (j : Nat) : Prop :=
  (∃ q, families[j]? = some q ∧ cond q = true) ∧
    ∀ k q, k < j → families[k]? = some q → cond q = false

/-- The queue flags `q` have the graphics bit. -/
def hasGraphics (q : Nat) : Bool := q.testBit 0

/-- The queue flags `q` have the compute bit. -/
def hasCompute (q : Nat) : Bool := q.testBit 1

/-- The queue flags `q` have the transfer bit. -/
def hasTransfer (q : Nat) : Bool := q.testBit 2


/-! Scene loading (`RtxApp::LoadSceneGeometry`) and the per-frame commands
(`RtxApp::FillCommandBuffer`) of `src/rtPipe.cpp`. -/

/-- A value of type `size_t` (64 bits). -/
def u64 (n : Nat) : Nat := n % 18446744073709551616

/-- The part of a `tinyobj::shape_t` that `LoadSceneGeometry` reads apart from the vertex
data: per face its number of vertices (`mesh.num_face_vertices`) and its material id
(`mesh.material_ids`). -/
structure Shape where
  num_face_vertices : List Nat
  material_ids : List Int
  deriving DecidableEq, Repr

/-- What the Vulkan driver answers while one mesh is loaded: the replies to the five
`Buffer::Create` calls and the results of mapping the five buffers. -/
structure MeshBuffersReply where
  positions : BufferCreateReply
  indices : BufferCreateReply
  faces : BufferCreateReply
  attribs : BufferCreateReply
  matIDs : BufferCreateReply
  mapPositions : VkResult
  mapAttribs : VkResult
  mapIndices : VkResult
  mapFaces : VkResult
  mapMatIDs : VkResult
  deriving DecidableEq, Repr

/-- What the conversion loop of `LoadSceneGeometry` has done: the vertex cursor `vIdx`, the
elements written to the index, face and material-id buffers as (position, value) pairs in
the order of writing, and the faces reported by `printf` because they are no triangles.
The copied vertex positions and normals are floating-point data and are left out. -/
structure Conversion where
  vIdx : Nat
  indices : List (Nat × Nat)
  faces : List (Nat × Nat)
  matIDs : List (Nat × Nat)
  skipped : List Nat
  deriving DecidableEq, Repr

/-- The conversion loop `for (f = 0; f < numFaces; ++f)` of `LoadSceneGeometry` from face
`f` on; `counts` are the vertex counts of the faces not yet visited. -/
def convertFaces (material_ids : List Int) : Nat → List Nat → Conversion → Conversion
  | _, [], conv => conv
  | f, count :: rest, conv =>
    if count = 3 then
      let a := u32 (3 * f + 0)
      let b := u32 (3 * f + 1)
      let c := u32 (3 * f + 2)
      convertFaces material_ids (f + 1) rest
        { conv with
          vIdx := conv.vIdx + 3
          indices := conv.indices ++ [(a, a), (b, b), (c, c)]
          faces := conv.faces ++ [(4 * f + 0, a), (4 * f + 1, b), (4 * f + 2, c)]
          matIDs := conv.matIDs ++ [(f, ((material_ids.getD f 0) % 4294967296).toNat)] }
    else
      convertFaces material_ids (f + 1) rest { conv with skipped := conv.skipped ++ [f] }

/-- Result of loading one mesh: whether `CHECK_VK_ERROR` ended the program, whether the
conversion loop wrote through a null pointer (a buffer could not be mapped), the mesh, and
what the conversion loop did. -/
structure LoadedMesh where
  aborted : Bool
  undefined : Bool
  mesh : RTMesh
  conversion : Conversion
  deriving DecidableEq, Repr

/-- The conversion at the start of the loop. -/
def Conversion.start : Conversion :=
  { vIdx := 0, indices := [], faces := [], matIDs := [], skipped := [] }

/-- The body of the mesh loop of `LoadSceneGeometry` for one shape: counts, the five buffers
and the conversion loop.  `sizeofVertexAttribute` is `sizeof(VertexAttribute)`, a struct
declared in a header that is not among the sources.  A `Map()` call maps the whole
buffer. -/
def loadMesh (checkAborts : Bool) (sizeofVertexAttribute : Nat) (reply : MeshBuffersReply)
    (shape : Shape) (mesh : RTMesh) : LoadedMesh :=
  let numFaces := shape.num_face_vertices.length
  let numVertices := u64 (numFaces * 3)
  let mesh0 := { mesh with numVertices := u32 numVertices, numFaces := u32 numFaces }
  let positionsBufferSize := u64 (numVertices * sizeofVec3)
  let indicesBufferSize := u64 (u64 (numFaces * 3) * 4)
  let facesBufferSize := u64 (u64 (numFaces * 4) * 4)
  let attribsBufferSize := u64 (numVertices * sizeofVertexAttribute)
  let matIDsBufferSize := u64 (numFaces * 4)
  let stop (m : RTMesh) : LoadedMesh :=
    { aborted := true, undefined := false, mesh := m, conversion := Conversion.start }
  let positions := mesh0.positions.Create positionsBufferSize reply.positions
  let mesh1 := { mesh0 with positions := positions.2 }
  if VK_SUCCESS ≠ positions.1 ∧ checkAborts = true then stop mesh1 else
  let indices := mesh1.indices.Create indicesBufferSize reply.indices
  let mesh2 := { mesh1 with indices := indices.2 }
  if VK_SUCCESS ≠ indices.1 ∧ checkAborts = true then stop mesh2 else
  let faces := mesh2.faces.Create facesBufferSize reply.faces
  let mesh3 := { mesh2 with faces := faces.2 }
  if VK_SUCCESS ≠ faces.1 ∧ checkAborts = true then stop mesh3 else
  let attribs := mesh3.attribs.Create attribsBufferSize reply.attribs
  let mesh4 := { mesh3 with attribs := attribs.2 }
  if VK_SUCCESS ≠ attribs.1 ∧ checkAborts = true then stop mesh4 else
  let matIDs := mesh4.matIDs.Create matIDsBufferSize reply.matIDs
  let mesh5 := { mesh4 with matIDs := matIDs.2 }
  if VK_SUCCESS ≠ matIDs.1 ∧ checkAborts = true then stop mesh5 else
  let allMapped :=
    (mesh5.positions.Map mesh5.positions.GetSize reply.mapPositions).isSome &&
    (mesh5.attribs.Map mesh5.attribs.GetSize reply.mapAttribs).isSome &&
    (mesh5.indices.Map mesh5.indices.GetSize reply.mapIndices).isSome &&
    (mesh5.faces.Map mesh5.faces.GetSize reply.mapFaces).isSome &&
    (mesh5.matIDs.Map mesh5.matIDs.GetSize reply.mapMatIDs).isSome
  { aborted := false
    undefined := !allMapped && shape.num_face_vertices.any (fun count => decide (count = 3))
    mesh := mesh5
    conversion := convertFaces shape.material_ids 0 shape.num_face_vertices Conversion.start }

/-- A mesh as `_Scene.meshes.resize` creates it: counts and handles are zero. -/
def RTMesh.empty : RTMesh :=
  { numVertices := 0, numFaces := 0, positions := Buffer.new, attribs := Buffer.new,
    indices := Buffer.new, faces := Buffer.new, matIDs := Buffer.new,
    blas :=
      { memory := 0
        accelerationStructureInfo :=
          { type := .TOP_LEVEL, flags := 0, instanceCount := 0, geometryCount := 0,
            pGeometries := none }
        accelerationStructure := 0
        handle := 0 } }

/-- The mesh loop `for (meshIdx = 0; meshIdx < shapes.size(); ++meshIdx)` of
`LoadSceneGeometry` from mesh `meshIdx` on, on meshes created by `resize`: the loaded
meshes; after the program was ended the remaining meshes stay as `resize` made them. -/
def loadMeshes (checkAborts : Bool) (sizeofVertexAttribute : Nat)
    (replies : Nat → MeshBuffersReply) : Nat → List Shape → List LoadedMesh
  | _, [] => []
  | meshIdx, shape :: rest =>
    let loaded := loadMesh checkAborts sizeofVertexAttribute (replies meshIdx) shape RTMesh.empty
    if loaded.aborted then
      loaded :: rest.map (fun _ =>
        { aborted := true, undefined := false, mesh := RTMesh.empty,
          conversion := Conversion.start })
    else
      loaded :: loadMeshes checkAborts sizeofVertexAttribute replies (meshIdx + 1) rest

/-- Vulkan `VkDescriptorBufferInfo`. -/
structure VkDescriptorBufferInfo where
  buffer : Nat
  offset : Nat
  range : Nat
  deriving DecidableEq, Repr

/-- The scene after `LoadSceneGeometry`: whether the program was ended, the meshes and the
three per-mesh descriptor arrays. -/
structure LoadedScene where
  aborted : Bool
  meshes : List RTMesh
  matIDsBufferInfos : List VkDescriptorBufferInfo
  attribsBufferInfos : List VkDescriptorBufferInfo
  facesBufferInfos : List VkDescriptorBufferInfo
  deriving DecidableEq, Repr

/-- The loop `for (i = 0; i < numMeshes; ++i)` of `LoadSceneGeometry` that fills one of the
three descriptor arrays, for the buffer selected by `field`. -/
def bufferInfos (field : RTMesh → Buffer) (meshes : List RTMesh) :
    List VkDescriptorBufferInfo :=
  meshes.map fun mesh =>
    { buffer := (field mesh).GetBuffer, offset := 0, range := (field mesh).GetSize }

/-- `RtxApp::LoadSceneGeometry()` for the shapes returned by a successful `LoadObj`. -/
def LoadSceneGeometry (checkAborts : Bool) (sizeofVertexAttribute : Nat)
    (replies : Nat → MeshBuffersReply) (shapes : List Shape) : LoadedScene :=
  let loaded := loadMeshes checkAborts sizeofVertexAttribute replies 0 shapes
  let meshes := loaded.map LoadedMesh.mesh
  if loaded.any LoadedMesh.aborted then
    { aborted := true, meshes := meshes, matIDsBufferInfos := [], attribsBufferInfos := [],
      facesBufferInfos := [] }
  else
    { aborted := false
      meshes := meshes
      matIDsBufferInfos := bufferInfos RTMesh.matIDs meshes
      attribsBufferInfos := bufferInfos RTMesh.attribs meshes
      facesBufferInfos := bufferInfos RTMesh.faces meshes }

/-- Replies with which every buffer of a mesh is created and mapped; the buffers get the
handles `base`, `base + 2`, .., `base + 8`. -/
def sampleMeshReply (base : Nat) : MeshBuffersReply :=
  { positions :=
      { createBuffer := VK_SUCCESS, buffer := base, allocateMemory := VK_SUCCESS,
        memory := base + 1, bindBufferMemory := VK_SUCCESS }
    indices :=
      { createBuffer := VK_SUCCESS, buffer := base + 2, allocateMemory := VK_SUCCESS,
        memory := base + 3, bindBufferMemory := VK_SUCCESS }
    faces :=
      { createBuffer := VK_SUCCESS, buffer := base + 4, allocateMemory := VK_SUCCESS,
        memory := base + 5, bindBufferMemory := VK_SUCCESS }
    attribs :=
      { createBuffer := VK_SUCCESS, buffer := base + 6, allocateMemory := VK_SUCCESS,
        memory := base + 7, bindBufferMemory := VK_SUCCESS }
    matIDs :=
      { createBuffer := VK_SUCCESS, buffer := base + 8, allocateMemory := VK_SUCCESS,
        memory := base + 9, bindBufferMemory := VK_SUCCESS }
    mapPositions := VK_SUCCESS
    mapAttribs := VK_SUCCESS
    mapIndices := VK_SUCCESS
    mapFaces := VK_SUCCESS
    mapMatIDs := VK_SUCCESS }

/-- Two shapes: three triangles; and three triangles with one four-sided face in between. -/
def sampleShapes : List Shape :=
  [{ num_face_vertices := [3, 3, 3], material_ids := [0, 0, 1] },
   { num_face_vertices := [3, 4, 3, 3], material_ids := [1, 1, 1, 0] }]


/-- Vulkan `VK_PIPELINE_BIND_POINT_RAY_TRACING_NV`. -/
def VK_PIPELINE_BIND_POINT_RAY_TRACING_NV : Nat := 1000165000

/-- A command recorded by `FillCommandBuffer`. -/
inductive FrameCommand where
  /-- `vkCmdBindPipeline(cb, pipelineBindPoint, pipeline)`. -/
  | bindPipeline (pipelineBindPoint pipeline : Nat)
  /-- `vkCmdBindDescriptorSets(cb, pipelineBindPoint, layout, firstSet, descriptorSetCount,
  pDescriptorSets, dynamicOffsetCount, pDynamicOffsets)`. -/
  | bindDescriptorSets (pipelineBindPoint layout firstSet descriptorSetCount : Nat)
      (descriptorSets : List Nat) (dynamicOffsetCount : Nat)
  /-- `vkCmdTraceRaysNV(cb, raygen buffer and offset, miss buffer, offset and stride, hit
  buffer, offset and stride, callable buffer, offset and stride, width, height, depth)`. -/
  | traceRays (raygenBuffer raygenOffset missBuffer missOffset missStride hitBuffer hitOffset
      hitStride callableBuffer callableOffset callableStride width height depth : Nat)
  deriving DecidableEq, Repr

/-- The members of `RtxApp` that `FillCommandBuffer` reads; the resolution is
`_Settings.resolutionX` and `_Settings.resolutionY`. -/
structure RtxApp where
  _RTXPipelineLayout : Nat
  _RTXPipeline : Nat
  _RTXDescriptorSets : List Nat
  rtxHelper : RTXHelper
  resolutionX : Nat
  resolutionY : Nat

/-- `RtxApp::FillCommandBuffer(commandBuffer, imageIndex)`: the commands recorded. -/
def FillCommandBuffer (app : RtxApp) : List FrameCommand :=
  [.bindPipeline VK_PIPELINE_BIND_POINT_RAY_TRACING_NV app._RTXPipeline,
   .bindDescriptorSets VK_PIPELINE_BIND_POINT_RAY_TRACING_NV app._RTXPipelineLayout 0
     (u32 app._RTXDescriptorSets.length) app._RTXDescriptorSets 0,
   .traceRays
     app.rtxHelper.GetSBTBuffer app.rtxHelper.GetRaygenOffset
     app.rtxHelper.GetSBTBuffer app.rtxHelper.GetMissGroupsOffset app.rtxHelper.GetGroupsStride
     app.rtxHelper.GetSBTBuffer app.rtxHelper.GetHitGroupsOffset app.rtxHelper.GetGroupsStride
     VK_NULL_HANDLE 0 0
     app.resolutionX app.resolutionY 1]

/-- The command is a ray dispatch. -/
def FrameCommand.isTraceRays : FrameCommand → Bool
  | .traceRays _ _ _ _ _ _ _ _ _ _ _ _ _ _ => true
  | _ => false

/-- An application state around the helper `helper`, with resolution 1280 x 720. -/
def sampleApp (helper : RTXHelper) : RtxApp :=
  { _RTXPipelineLayout := 40, _RTXPipeline := 41, _RTXDescriptorSets := [50, 51, 52],
    rtxHelper := helper, resolutionX := 1280, resolutionY := 720 }


/-- The slots in canonical order: the hit slots `0 .. H-1` ascending, then the miss slots
`0 .. M-1` ascending (`true` marks a hit slot, as in `Registration.slot`). -/
def canonicalSlots (H M : Nat) : List (Bool × Nat) :=
  (List.range H).map (fun g => (true, g)) ++ (List.range M).map (fun g => (false, g))

/-- The position at which a registration call inserts its group into the group list:
`1 + groupIndex` in `AddStageToHitGroup`, `groupIndex + 1 + _NumHitGroups` (as a 32-bit
value) in `AddStageToMissGroup`. -/
def Registration.groupPosition (h : RTXHelper) : Registration → Nat
  | .hit _ groupIndex => 1 + groupIndex
  | .miss _ groupIndex => u32 (u32 (groupIndex + 1) + h._NumHitGroups)

/-- The position at which a registration call inserts its stages into the stage list: the
`offset` computed by `AddStageToHitGroup` or by `AddStageToMissGroup`. -/
def Registration.stagePosition (h : RTXHelper) : Registration → Nat
  | .hit _ groupIndex => RTXHelper.hitStageOffset h groupIndex
  | .miss _ groupIndex => RTXHelper.missStageOffset h groupIndex

/-- The call addresses a slot of the configuration `(H, M)` that is not among the first
`nh` hit slots and the first `nm` miss slots, and a hit call passes 1 to 3 stages. -/
def Registration.fits (H M nh nm : Nat) : Registration → Prop
  | .hit stages groupIndex => stages ≠ [] ∧ stages.length ≤ 3 ∧ nh ≤ groupIndex ∧ groupIndex < H
  | .miss _ groupIndex => nm ≤ groupIndex ∧ groupIndex < M

instance (H M nh nm : Nat) (r : Registration) : Decidable (r.fits H M nh nm) := by
  cases r <;> unfold Registration.fits <;> exact inferInstance


/-! The instance record in memory (`struct VkGeometryInstance`, `src/rtPipe.cpp`). -/

/-- The `width` little-endian bytes of `n`, least significant byte first (the bytes of
`n mod 256^width`). -/
def leBytes : Nat → Nat → List Nat
  | 0, _ => []
  | width + 1, n => n % 256 :: leBytes width (n / 256)

/-- The number whose little-endian bytes are `bytes`. -/
def ofLeBytes : List Nat → Nat
  | [] => 0
  | b :: rest => b + 256 * ofLeBytes rest

/-- The bytes of a `VkGeometryInstance` object, the array element that `CreateScene`
uploads from `instances.data()`: the members in declaration order, `float transform[12]`
(each `float` as its 32-bit pattern), the `uint32_t` unit holding the bit-fields
`instanceId : 24` and `mask : 8`, the unit holding `instanceOffset : 24` and `flags : 8`, and
the `uint64_t accelerationStructureHandle`.  All members are naturally aligned, so there is
no padding; on the little-endian targets of the application every scalar is stored least
significant byte first and the bit-fields of a unit are allocated from its least
significant bit. -/
def VkGeometryInstance.pack (r : VkGeometryInstance) : List Nat :=
  (r.transform.map (leBytes 4)).flatten ++
    leBytes 4 (r.instanceId % 16777216 + 16777216 * (r.mask % 256)) ++
    leBytes 4 (r.instanceOffset % 16777216 + 16777216 * (r.flags % 256)) ++
    leBytes 8 r.accelerationStructureHandle

/-- Reading a record back through the layout documented in the spec: twelve little-endian
32-bit floats at bytes 0..47; the 32-bit word at byte 48 with the instance id in bits 0..23
and the mask in bits 24..31; the 32-bit word at byte 52 with the shader-binding offset in
bits 0..23 and the flags in bits 24..31; then the 64-bit handle, at byte 56. -/
def readDocumentedLayout (bytes : List Nat) : VkGeometryInstance :=
  let word (pos : Nat) : Nat := ofLeBytes ((bytes.drop pos).take 4)
  { transform :=
      [word 0, word 4, word 8, word 12, word 16, word 20, word 24, word 28, word 32,
       word 36, word 40, word 44]
    instanceId := word 48 % 16777216
    mask := word 48 / 16777216 % 256
    instanceOffset := word 52 % 16777216
    flags := word 52 / 16777216 % 256
    accelerationStructureHandle := ofLeBytes ((bytes.drop 56).take 8) }

/-- The values of the record are representable in its members: twelve 32-bit patterns, a
24-bit id, an 8-bit mask, a 24-bit offset, 8-bit flags and a 64-bit handle. -/
def VkGeometryInstance.WellFormed (r : VkGeometryInstance) : Prop :=
  r.transform.length = 12 ∧ (∀ t ∈ r.transform, t < 4294967296) ∧
    r.instanceId < 16777216 ∧ r.mask < 256 ∧ r.instanceOffset < 16777216 ∧ r.flags < 256 ∧
    r.accelerationStructureHandle < 18446744073709551616

instance (r : VkGeometryInstance) : Decidable r.WellFormed := by
  unfold VkGeometryInstance.WellFormed
  exact inferInstance

/-- The record of the spec's example: identity transform, id 3, mask `0xFF`, offset 0,
flags 0 and handle `0x1122334455667788`. -/
def exampleInstance : VkGeometryInstance :=
  { transform := [0x3F800000, 0, 0, 0, 0, 0x3F800000, 0, 0, 0, 0, 0x3F800000, 0]
    instanceId := 3
    mask := 0xFF
    instanceOffset := 0
    flags := 0
    accelerationStructureHandle := 0x1122334455667788 }

/-- A sample record with a different value in every member. -/
def sampleInstance : VkGeometryInstance :=
  { transform :=
      [0x3F800000, 0x40000000, 0x40400000, 0xC0800000, 0x3F000000, 0xBF800000, 0x41200000,
       0x80000000, 0x7F7FFFFF, 0x00000001, 0xFFFFFFFF, 0x12345678]
    instanceId := 0xABCDEF
    mask := 0x12
    instanceOffset := 0x345678
    flags := 0x9A
    accelerationStructureHandle := 0x0123456789ABCDEF }

end RtPipe

/-! ## Region offsets and table size -/

namespace RtPipe

open RTXHelper

theorem u32_of_lt {n : Nat} (h : n < 4294967296) : u32 n = n :=
  Nat.mod_eq_of_lt h

theorem u32_lt (n : Nat) : u32 n < 4294967296 :=
  Nat.mod_lt _ (by decide)

/-- The group count is exact when `1 + H + M` fits 32 bits. -/
theorem GetNu_Groups_of_lt (h : RTXHelper)
    (hfit : 1 + h._NumHitGroups + h._NumMissGroups < 4294967296) :
    GetNu_Groups h = 1 + h._NumHitGroups + h._NumMissGroups := by
  unfold GetNu_Groups
  rw [u32_of_lt (n := 1 + h._NumHitGroups) (by omega), u32_of_lt hfit]

/-- The miss-region offset is exact when `(1 + H) * s` fits 32 bits. -/
theorem GetMissGroupsOffset_of_lt (h : RTXHelper)
    (hfit : (1 + h._NumHitGroups) * h._ShaderHeaderSize < 4294967296) :
    GetMissGroupsOffset h = (1 + h._NumHitGroups) * h._ShaderHeaderSize := by
  unfold GetMissGroupsOffset
  rcases Nat.eq_zero_or_pos h._ShaderHeaderSize with hs | hs
  · simp [hs, u32]
  · have h1 : 1 + h._NumHitGroups < 4294967296 :=
      lt_of_le_of_lt (Nat.le_mul_of_pos_right _ hs) hfit
    rw [u32_of_lt h1, u32_of_lt hfit]

/-- The table size is exact when `(1 + H + M) * s` fits 32 bits. -/
theorem GetSBTSize_of_lt (h : RTXHelper)
    (hfit : (1 + h._NumHitGroups + h._NumMissGroups) * h._ShaderHeaderSize < 4294967296) :
    GetSBTSize h = (1 + h._NumHitGroups + h._NumMissGroups) * h._ShaderHeaderSize := by
  unfold GetSBTSize
  rcases Nat.eq_zero_or_pos h._ShaderHeaderSize with hs | hs
  · simp [hs, u32]
  · have h1 : 1 + h._NumHitGroups + h._NumMissGroups < 4294967296 :=
      lt_of_le_of_lt (Nat.le_mul_of_pos_right _ hs) hfit
    rw [GetNu_Groups_of_lt h h1, u32_of_lt hfit]

/-- C1, as stated, fails: with `H = 1` and the positive stride `s = 2^31`, the miss-region
offset returned after `Initialize(1, 0, 2^31)` is `0`, while `(1 + H) * s = 2^32`. -/
theorem C1_counterexample :
    (0 : Nat) < 2147483648 ∧ (2147483648 : Nat) < 4294967296 ∧
    GetMissGroupsOffset (Initialize 1 0 2147483648 RTXHelper.new) = 0 ∧
    (1 + 1) * 2147483648 ≠ GetMissGroupsOffset (Initialize 1 0 2147483648 RTXHelper.new) := by
  decide

/-- C1 (amended): for every prior state, every `H`, `M` and stride `s` (positive or not) such
that `(1 + H) * s` fits 32 bits, after `Initialize(H, M, s)` the raygen offset is `0`, the
hit-region offset is `s`, the miss-region offset is `(1 + H) * s` and the stride is `s`. -/
theorem C1_offsets_after_Initialize (prior : RTXHelper) (H M s : Nat)
    (hfit : (1 + H) * s < 4294967296) :
    GetRaygenOffset (Initialize H M s prior) = 0 ∧
    GetHitGroupsOffset (Initialize H M s prior) = s ∧
    GetMissGroupsOffset (Initialize H M s prior) = (1 + H) * s ∧
    GetGroupsStride (Initialize H M s prior) = s := by
  have hs32 : s < 4294967296 := by
    have : s ≤ (1 + H) * s := Nat.le_mul_of_pos_left _ (by omega)
    omega
  refine ⟨rfl, ?_, ?_, rfl⟩
  · show u32 (1 * s) = s
    rw [Nat.one_mul, u32_of_lt hs32]
  · exact GetMissGroupsOffset_of_lt (Initialize H M s prior) hfit

/-- C1 (amended) applied to the configuration of the application: `H = 2`, `M = 2`, `s = 32`. -/
theorem C1_offsets_after_Initialize_witness :
    GetRaygenOffset (Initialize 2 2 32 RTXHelper.new) = 0 ∧
    GetHitGroupsOffset (Initialize 2 2 32 RTXHelper.new) = 32 ∧
    GetMissGroupsOffset (Initialize 2 2 32 RTXHelper.new) = (1 + 2) * 32 ∧
    GetGroupsStride (Initialize 2 2 32 RTXHelper.new) = 32 :=
  C1_offsets_after_Initialize RTXHelper.new 2 2 32 (by decide)

/-- C2, as stated, fails: (a) with `H = 2`, `M = 2` and stride `2^30` the table size returned
is `2^30`, not `5 * 2^30`, and that is the size `CreateSBT` requests; (b) when the buffer
creation reports an error, `CreateSBT` ends before retrieving any group handle. -/
theorem C2_counterexample :
    GetSBTSize (Initialize 2 2 1073741824 RTXHelper.new) = 1073741824 ∧
    (1 + 2 + 2) * 1073741824 ≠ GetSBTSize (Initialize 2 2 1073741824 RTXHelper.new) ∧
    (CreateSBT false ⟨0, 7, 0, 9, 0⟩ 0 (Initialize 2 2 1073741824 RTXHelper.new)).calls =
      [.createBuffer 1073741824, .getGroupHandles 0 5 1073741824] ∧
    (CreateSBT false ⟨-1, 0, 0, 0, 0⟩ 0 (Initialize 2 2 32 RTXHelper.new)).calls =
      [.createBuffer 160] ∧
    (CreateSBT true ⟨-1, 0, 0, 0, 0⟩ 0 (Initialize 2 2 32 RTXHelper.new)).calls =
      [.createBuffer 160] := by
  decide

/-- C2 (amended): for every helper configured with `H`, `M` and stride `s` such that
`1 + H + M` and `(1 + H + M) * s` fit 32 bits, `GetSBTSize() = (1 + H + M) * s`; `CreateSBT`
first requests a buffer of exactly that size and, when the buffer creation succeeds, makes
exactly one more call, retrieving `1 + H + M` group handles starting at group `0` into that
many bytes; with `H = 2` and `M = 2` the table is `5 * s` bytes, the hit offset is `s` and
the miss offset is `3 * s`. -/
theorem C2_table_size_and_CreateSBT (h : RTXHelper) (H M s : Nat) (checkAborts : Bool)
    (reply : BufferCreateReply) (handles : VkResult)
    (hH : h._NumHitGroups = H) (hM : h._NumMissGroups = M) (hS : h._ShaderHeaderSize = s)
    (hcount : 1 + H + M < 4294967296) (hfit : (1 + H + M) * s < 4294967296) :
    GetSBTSize h = (1 + H + M) * s ∧
    (CreateSBT checkAborts reply handles h).calls.head? =
      some (.createBuffer ((1 + H + M) * s)) ∧
    ((h.rtxHelper.Create (GetSBTSize h) reply).1 = VK_SUCCESS →
      (CreateSBT checkAborts reply handles h).calls =
        [.createBuffer ((1 + H + M) * s), .getGroupHandles 0 (1 + H + M) ((1 + H + M) * s)]) ∧
    (H = 2 → M = 2 →
      GetSBTSize h = 5 * s ∧ GetHitGroupsOffset h = s ∧ GetMissGroupsOffset h = 3 * s) := by
  subst hH hM hS
  have hsize := GetSBTSize_of_lt h hfit
  have hgroups := GetNu_Groups_of_lt h hcount
  refine ⟨hsize, ?_, ?_, ?_⟩
  · unfold CreateSBT
    simp only [hsize]
    split <;> rfl
  · intro hok
    unfold CreateSBT
    simp only [hsize] at hok ⊢
    simp [hok, hgroups]
  · intro h2 m2
    rw [h2, m2] at hfit
    rw [hsize, h2, m2]
    refine ⟨rfl, ?_, ?_⟩
    · show u32 (1 * h._ShaderHeaderSize) = h._ShaderHeaderSize
      rw [Nat.one_mul, u32_of_lt (by omega)]
    · rw [GetMissGroupsOffset_of_lt h (by rw [h2]; omega), h2]

/-- C2 (amended) applied to the application's configuration `Initialize(2, 2, 32)` with a
driver that creates the buffer successfully: the table has 160 bytes, and `CreateSBT`
requests 160 bytes and retrieves 5 group handles starting at group 0. -/
theorem C2_table_size_and_CreateSBT_witness :
    GetSBTSize (Initialize 2 2 32 RTXHelper.new) = (1 + 2 + 2) * 32 ∧
    ((Initialize 2 2 32 RTXHelper.new).rtxHelper.Create
        (GetSBTSize (Initialize 2 2 32 RTXHelper.new)) ⟨0, 7, 0, 9, 0⟩).1 = VK_SUCCESS ∧
    (CreateSBT false ⟨0, 7, 0, 9, 0⟩ 0 (Initialize 2 2 32 RTXHelper.new)).calls =
      [.createBuffer ((1 + 2 + 2) * 32), .getGroupHandles 0 (1 + 2 + 2) ((1 + 2 + 2) * 32)] ∧
    GetSBTSize (Initialize 2 2 32 RTXHelper.new) = 5 * 32 ∧
    GetHitGroupsOffset (Initialize 2 2 32 RTXHelper.new) = 32 ∧
    GetMissGroupsOffset (Initialize 2 2 32 RTXHelper.new) = 3 * 32 :=
  have hthm := C2_table_size_and_CreateSBT (Initialize 2 2 32 RTXHelper.new) 2 2 32 false
    ⟨0, 7, 0, 9, 0⟩ 0 rfl rfl rfl (by decide) (by decide)
  ⟨hthm.1, by decide, hthm.2.2.1 (by decide), hthm.2.2.2 rfl rfl⟩

/-- C3, as stated, fails: with `H = 1`, `M = 1` and stride `2^31` the hit-region offset is
`2^31` but the miss-region offset wraps to `0`, so the miss region does not follow the hit
region (`hit offset ≤ miss offset` is false, and `miss offset ≠ hit offset + H * s`). -/
theorem C3_counterexample :
    GetHitGroupsOffset (Initialize 1 1 2147483648 RTXHelper.new) = 2147483648 ∧
    GetMissGroupsOffset (Initialize 1 1 2147483648 RTXHelper.new) = 0 ∧
    ¬ (GetHitGroupsOffset (Initialize 1 1 2147483648 RTXHelper.new) ≤
        GetMissGroupsOffset (Initialize 1 1 2147483648 RTXHelper.new)) ∧
    GetMissGroupsOffset (Initialize 1 1 2147483648 RTXHelper.new) ≠
      GetHitGroupsOffset (Initialize 1 1 2147483648 RTXHelper.new) + 1 * 2147483648 := by
  decide

/-- C3 (amended): for every prior state and every `H`, `M`, `s` such that the table size
`(1 + H + M) * s` fits 32 bits, after `Initialize(H, M, s)` the regions are consecutive and
fill the table: hit offset = raygen offset + `1 * s`, miss offset = hit offset + `H * s`,
table size = miss offset + `M * s`, and raygen ≤ hit ≤ miss ≤ table size. -/
theorem C3_regions_consecutive (prior : RTXHelper) (H M s : Nat)
    (hfit : (1 + H + M) * s < 4294967296) :
    GetHitGroupsOffset (Initialize H M s prior) =
      GetRaygenOffset (Initialize H M s prior) + 1 * s ∧
    GetMissGroupsOffset (Initialize H M s prior) =
      GetHitGroupsOffset (Initialize H M s prior) + H * s ∧
    GetSBTSize (Initialize H M s prior) =
      GetMissGroupsOffset (Initialize H M s prior) + M * s ∧
    GetRaygenOffset (Initialize H M s prior) ≤ GetHitGroupsOffset (Initialize H M s prior) ∧
    GetHitGroupsOffset (Initialize H M s prior) ≤ GetMissGroupsOffset (Initialize H M s prior) ∧
    GetMissGroupsOffset (Initialize H M s prior) ≤ GetSBTSize (Initialize H M s prior) := by
  have hexp : (1 + H + M) * s = s + H * s + M * s := by ring
  have hmissfit : (1 + H) * s < 4294967296 := by
    have : (1 + H) * s = s + H * s := by ring
    omega
  have hsize : GetSBTSize (Initialize H M s prior) = (1 + H + M) * s :=
    GetSBTSize_of_lt (Initialize H M s prior) hfit
  have hmiss : GetMissGroupsOffset (Initialize H M s prior) = (1 + H) * s :=
    GetMissGroupsOffset_of_lt (Initialize H M s prior) hmissfit
  have hhit : GetHitGroupsOffset (Initialize H M s prior) = s := by
    show u32 (1 * s) = s
    rw [Nat.one_mul, u32_of_lt (by omega)]
  have hray : GetRaygenOffset (Initialize H M s prior) = 0 := rfl
  have hm : (1 + H) * s = s + H * s := by ring
  rw [hsize, hmiss, hhit, hray, hexp, hm]
  refine ⟨by omega, rfl, rfl, by omega, by omega, by omega⟩

/-- C3 (amended) applied to `Initialize(2, 2, 32)`. -/
theorem C3_regions_consecutive_witness :
    GetHitGroupsOffset (Initialize 2 2 32 RTXHelper.new) =
      GetRaygenOffset (Initialize 2 2 32 RTXHelper.new) + 1 * 32 ∧
    GetMissGroupsOffset (Initialize 2 2 32 RTXHelper.new) =
      GetHitGroupsOffset (Initialize 2 2 32 RTXHelper.new) + 2 * 32 ∧
    GetSBTSize (Initialize 2 2 32 RTXHelper.new) =
      GetMissGroupsOffset (Initialize 2 2 32 RTXHelper.new) + 2 * 32 ∧
    GetRaygenOffset (Initialize 2 2 32 RTXHelper.new) ≤
      GetHitGroupsOffset (Initialize 2 2 32 RTXHelper.new) ∧
    GetHitGroupsOffset (Initialize 2 2 32 RTXHelper.new) ≤
      GetMissGroupsOffset (Initialize 2 2 32 RTXHelper.new) ∧
    GetMissGroupsOffset (Initialize 2 2 32 RTXHelper.new) ≤
      GetSBTSize (Initialize 2 2 32 RTXHelper.new) :=
  C3_regions_consecutive RTXHelper.new 2 2 32 (by decide)

/-! ## Single registration calls -/

theorem vectorInsert_eq_some {α : Type} {xs ys zs : List α} {pos : Nat}
    (h : vectorInsert xs pos ys = some zs) :
    pos ≤ xs.length ∧ zs = xs.take pos ++ ys ++ xs.drop pos := by
  unfold vectorInsert at h
  split at h
  · exact ⟨by assumption, (Option.some.inj h).symm⟩
  · exact absurd h (by simp)

theorem vectorInsert_of_le {α : Type} (xs ys : List α) {pos : Nat} (h : pos ≤ xs.length) :
    vectorInsert xs pos ys = some (xs.take pos ++ ys ++ xs.drop pos) := by
  unfold vectorInsert
  rw [if_pos h]

theorem vectorInsert_of_gt {α : Type} (xs ys : List α) {pos : Nat} (h : xs.length < pos) :
    vectorInsert xs pos ys = none := by
  unfold vectorInsert
  rw [if_neg (by omega)]

/-- What a returning `AddStageToHitGroup` call has checked and done. -/
theorem AddStageToHitGroup_ok {stages : List VkPipelineShaderStageCreateInfo} {g : Nat}
    {h h' : RTXHelper} (hok : AddStageToHitGroup stages g h = .ok h') :
    h._Stages ≠ [] ∧ g < h._NumHitShaders.length ∧ stages ≠ [] ∧ stages.length ≤ 3 ∧
    h._NumHitShaders.getD g 0 = 0 ∧
    hitStageOffset h g ≤ h._Stages.length ∧ 1 + g ≤ h._Groups.length ∧
    h' = { h with
      _Stages := h._Stages.take (hitStageOffset h g) ++ stages ++
        h._Stages.drop (hitStageOffset h g)
      _Groups := h._Groups.take (1 + g) ++ [hitGroupInfo (hitStageOffset h g) stages] ++
        h._Groups.drop (1 + g)
      _NumHitShaders := h._NumHitShaders.set g (u32 (0 + u32 stages.length)) } := by
  unfold AddStageToHitGroup at hok
  split at hok
  · exact absurd hok (by simp)
  split at hok
  · exact absurd hok (by simp)
  split at hok
  · exact absurd hok (by simp)
  split at hok
  · exact absurd hok (by simp)
  rename_i h1 h2 h3 h4
  simp only [not_not] at h2 h3 h4
  simp only at hok
  split at hok
  · exact absurd hok (by simp)
  rename_i st1 hst
  split at hok
  · exact absurd hok (by simp)
  rename_i gr1 hgr
  obtain ⟨hle1, rfl⟩ := vectorInsert_eq_some hst
  obtain ⟨hle2, rfl⟩ := vectorInsert_eq_some hgr
  refine ⟨h1, h2, h3.1, h3.2, h4, hle1, hle2, ?_⟩
  rw [h4] at hok
  exact (Outcome.ok.inj hok).symm

/-- What a returning `AddStageToMissGroup` call has checked and done. -/
theorem AddStageToMissGroup_ok {stage : VkPipelineShaderStageCreateInfo} {g : Nat}
    {h h' : RTXHelper} (hok : AddStageToMissGroup stage g h = .ok h') :
    h._Stages ≠ [] ∧ g < h._NumMissShaders.length ∧
    h._NumMissShaders.getD g 0 = 0 ∧
    missStageOffset h g ≤ h._Stages.length ∧
    u32 (u32 (g + 1) + h._NumHitGroups) ≤ h._Groups.length ∧
    h' = { h with
      _Stages := h._Stages.take (missStageOffset h g) ++ [stage] ++
        h._Stages.drop (missStageOffset h g)
      _Groups := h._Groups.take (u32 (u32 (g + 1) + h._NumHitGroups)) ++
        [missGroupInfo (missStageOffset h g)] ++
        h._Groups.drop (u32 (u32 (g + 1) + h._NumHitGroups))
      _NumMissShaders := h._NumMissShaders.set g (u32 (0 + 1)) } := by
  unfold AddStageToMissGroup at hok
  split at hok
  · exact absurd hok (by simp)
  split at hok
  · exact absurd hok (by simp)
  split at hok
  · exact absurd hok (by simp)
  rename_i h1 h2 h4
  simp only [not_not] at h2 h4
  simp only at hok
  split at hok
  · exact absurd hok (by simp)
  rename_i st1 hst
  split at hok
  · exact absurd hok (by simp)
  rename_i gr1 hgr
  obtain ⟨hle1, rfl⟩ := vectorInsert_eq_some hst
  obtain ⟨hle2, rfl⟩ := vectorInsert_eq_some hgr
  refine ⟨h1, h2, h4, hle1, hle2, ?_⟩
  rw [h4] at hok
  exact (Outcome.ok.inj hok).symm

/-- `AddStageToHitGroup` on a slot whose counter is set aborts on an assertion, whichever
assertion fires first, with the helper unchanged. -/
theorem AddStageToHitGroup_populated (stages : List VkPipelineShaderStageCreateInfo) (g : Nat)
    (h : RTXHelper) (hpop : h._NumHitShaders.getD g 0 ≠ 0) :
    AddStageToHitGroup stages g h = .assertFailed h := by
  unfold AddStageToHitGroup
  split
  · rfl
  split
  · rfl
  split
  · rfl
  rfl

/-- `AddStageToMissGroup` on a slot whose counter is set aborts on an assertion with the
helper unchanged. -/
theorem AddStageToMissGroup_populated (stage : VkPipelineShaderStageCreateInfo) (g : Nat)
    (h : RTXHelper) (hpop : h._NumMissShaders.getD g 0 ≠ 0) :
    AddStageToMissGroup stage g h = .assertFailed h := by
  unfold AddStageToMissGroup
  split
  · rfl
  split
  · rfl
  rfl

/-- A property kept by every returning registration call holds after a returning run. -/
theorem register_invariant (P : RTXHelper → Prop)
    (hstep : ∀ (r : Registration) (h h' : RTXHelper), P h → r.call h = .ok h' → P h') :
    ∀ (regs : List Registration) (h h' : RTXHelper), P h → register regs h = .ok h' → P h' := by
  intro regs
  induction regs with
  | nil =>
    intro h h' hP hrun
    have : h = h' := Outcome.ok.inj hrun
    exact this ▸ hP
  | cons r rest ih =>
    intro h h' hP hrun
    unfold register at hrun
    cases hcall : r.call h with
    | ok h1 =>
      rw [hcall] at hrun
      exact ih h1 h' (hstep r h h1 hP hcall) hrun
    | assertFailed h1 =>
      rw [hcall] at hrun
      exact absurd hrun (by simp [Outcome.andThen])
    | undefinedBehaviour =>
      rw [hcall] at hrun
      exact absurd hrun (by simp [Outcome.andThen])

theorem u32_small_stage_count {n : Nat} (h1 : n ≠ 0) (h3 : n ≤ 3) : u32 (0 + u32 n) ≠ 0 := by
  have h := u32_of_lt (n := n) (by omega)
  rw [h, Nat.zero_add, h]
  exact h1

/-- After a returning registration call the counter of its slot is set. -/
theorem call_sets_counter {r : Registration} {h h' : RTXHelper} (hok : r.call h = .ok h') :
    (if r.slot.1 then h'._NumHitShaders else h'._NumMissShaders).getD r.slot.2 0 ≠ 0 := by
  cases r with
  | hit stages g =>
    obtain ⟨_, hg, hne, hlen, _, _, _, rfl⟩ := AddStageToHitGroup_ok hok
    have hpos : stages.length ≠ 0 := by
      intro h0
      exact hne (List.length_eq_zero.mp h0)
    simpa [Registration.slot, List.getD_eq_getElem?_getD, List.getElem?_set, hg] using
      u32_small_stage_count hpos hlen
  | miss stage g =>
    obtain ⟨_, hg, _, _, _, rfl⟩ := AddStageToMissGroup_ok hok
    simp [Registration.slot, List.getD_eq_getElem?_getD, List.getElem?_set, hg, u32]

/-- A returning registration call leaves the set counters of all slots set. -/
theorem call_keeps_counter {r : Registration} {h h' : RTXHelper} (hok : r.call h = .ok h')
    (b : Bool) (g : Nat)
    (hset : (if b then h._NumHitShaders else h._NumMissShaders).getD g 0 ≠ 0) :
    (if b then h'._NumHitShaders else h'._NumMissShaders).getD g 0 ≠ 0 := by
  cases r with
  | hit stages g' =>
    obtain ⟨_, hg, _, _, hzero, _, _, rfl⟩ := AddStageToHitGroup_ok hok
    cases b with
    | false => simpa using hset
    | true =>
      have hne : g' ≠ g := by
        rintro rfl
        simp only [if_true] at hset
        exact hset hzero
      simpa [List.getD_eq_getElem?_getD, List.getElem?_set, hne] using hset
  | miss stage g' =>
    obtain ⟨_, hg, hzero, _, _, rfl⟩ := AddStageToMissGroup_ok hok
    cases b with
    | true => simpa using hset
    | false =>
      have hne : g' ≠ g := by
        rintro rfl
        simp only [Bool.false_eq_true, if_false] at hset
        exact hset hzero
      simpa [List.getD_eq_getElem?_getD, List.getElem?_set, hne] using hset

/-- C5: once a registration call for a slot has returned, then after any further returning
registration calls, a call of `AddStageToHitGroup` (respectively `AddStageToMissGroup`) for
the same slot, with any stages, aborts on an assertion and leaves the helper (stage list,
group list, per-slot counters and all other members) exactly as it was. -/
theorem C5_second_registration_fails (h h1 h2 : RTXHelper) (r r2 : Registration)
    (regs : List Registration)
    (hfirst : r.call h = .ok h1) (hmore : register regs h1 = .ok h2)
    (hslot : r2.slot = r.slot) :
    r2.call h2 = .assertFailed h2 := by
  have hset1 := call_sets_counter hfirst
  have hset2 :
      (if r.slot.1 then h2._NumHitShaders else h2._NumMissShaders).getD r.slot.2 0 ≠ 0 :=
    register_invariant
      (fun x => (if r.slot.1 then x._NumHitShaders else x._NumMissShaders).getD r.slot.2 0 ≠ 0)
      (fun r' x x' hx hcall => call_keeps_counter hcall r.slot.1 r.slot.2 hx)
      regs h1 h2 hset1 hmore
  rw [← hslot] at hset2
  cases r2 with
  | hit stages g =>
    exact AddStageToHitGroup_populated stages g h2 (by simpa [Registration.slot] using hset2)
  | miss stage g =>
    exact AddStageToMissGroup_populated stage g h2 (by simpa [Registration.slot] using hset2)

/-- C5 at a concrete input: after `AddStageToHitGroup({chit}, 0)` and then
`AddStageToHitGroup({shadow chit}, 1)`, registering hit slot 0 again (with an any-hit
stage) aborts and leaves the helper as it was. -/
theorem C5_second_registration_fails_witness :
    (Registration.hit [sampleChit] 0).call sampleAfterRaygen = .ok sampleOneHit ∧
    register [.hit [sampleShadowChit] 1] sampleOneHit = .ok sampleTwoHits ∧
    (Registration.hit [sampleAhit] 0).slot = (Registration.hit [sampleChit] 0).slot ∧
    (Registration.hit [sampleAhit] 0).call sampleTwoHits = .assertFailed sampleTwoHits :=
  ⟨by decide, by decide, rfl,
    C5_second_registration_fails sampleAfterRaygen sampleOneHit sampleTwoHits
      (.hit [sampleChit] 0) (.hit [sampleAhit] 0) [.hit [sampleShadowChit] 1]
      (by decide) (by decide) rfl⟩

/-! ## Configuration kept by the registration calls -/

theorem vectorResize_length (xs : List Nat) (n v : Nat) : (vectorResize xs n v).length = n := by
  unfold vectorResize
  simp only [List.length_append, List.length_take, List.length_replicate]
  omega

/-- A returning registration call changes neither the configuration nor the number of
per-slot counters, and leaves the stage list non-empty. -/
theorem call_keeps_config {r : Registration} {h h' : RTXHelper} (hok : r.call h = .ok h') :
    h'._NumHitGroups = h._NumHitGroups ∧ h'._NumMissGroups = h._NumMissGroups ∧
    h'._ShaderHeaderSize = h._ShaderHeaderSize ∧
    h'._NumHitShaders.length = h._NumHitShaders.length ∧
    h'._NumMissShaders.length = h._NumMissShaders.length ∧
    h'._Stages ≠ [] := by
  cases r with
  | hit stages g =>
    obtain ⟨_, _, hne, _, _, _, _, rfl⟩ := AddStageToHitGroup_ok hok
    refine ⟨rfl, rfl, rfl, by simp, rfl, ?_⟩
    simp [hne]
  | miss stage g =>
    obtain ⟨_, _, _, _, _, rfl⟩ := AddStageToMissGroup_ok hok
    refine ⟨rfl, rfl, rfl, rfl, by simp, ?_⟩
    simp

/-- The helper right after `Initialize(H, M, s)` and `SetRaygenStage(raygen)`. -/
theorem SetRaygenStage_Initialize (H M s : Nat) (prior : RTXHelper)
    (raygen : VkPipelineShaderStageCreateInfo) :
    SetRaygenStage raygen (Initialize H M s prior) =
      .ok { Initialize H M s prior with _Stages := [raygen], _Groups := [raygenGroup] } := by
  simp [SetRaygenStage, Initialize]

/-- A returning `populate` is a returning run of the registrations from the state after
`SetRaygenStage`. -/
theorem populate_ok {H M s : Nat} {prior : RTXHelper} {raygen : VkPipelineShaderStageCreateInfo}
    {regs : List Registration} {h : RTXHelper} (hrun : populate H M s prior raygen regs = .ok h) :
    register regs
      { Initialize H M s prior with _Stages := [raygen], _Groups := [raygenGroup] } = .ok h := by
  unfold populate at hrun
  rw [SetRaygenStage_Initialize] at hrun
  exact hrun

/-- After a returning `populate` the configuration is the one passed to `Initialize`, there
are exactly `H` hit counters and `M` miss counters, and the stage list is not empty. -/
theorem populate_config {H M s : Nat} {prior : RTXHelper}
    {raygen : VkPipelineShaderStageCreateInfo} {regs : List Registration} {h : RTXHelper}
    (hrun : populate H M s prior raygen regs = .ok h) :
    h._NumHitGroups = H ∧ h._NumMissGroups = M ∧ h._ShaderHeaderSize = s ∧
    h._NumHitShaders.length = H ∧ h._NumMissShaders.length = M ∧ h._Stages ≠ [] := by
  refine register_invariant
    (fun x => x._NumHitGroups = H ∧ x._NumMissGroups = M ∧ x._ShaderHeaderSize = s ∧
      x._NumHitShaders.length = H ∧ x._NumMissShaders.length = M ∧ x._Stages ≠ [])
    ?_ regs _ h ?_ (populate_ok hrun)
  · intro r x x' hx hcall
    obtain ⟨a, b, c, d, e, f⟩ := call_keeps_config hcall
    exact ⟨a.trans hx.1, b.trans hx.2.1, c.trans hx.2.2.1, d.trans hx.2.2.2.1,
      e.trans hx.2.2.2.2.1, f⟩
  · refine ⟨rfl, rfl, rfl, ?_, ?_, by simp⟩
    · exact vectorResize_length _ _ _
    · exact vectorResize_length _ _ _

/-- A registration call on a helper with an empty stage list aborts on the first
assertion. -/
theorem call_before_raygen (r : Registration) (h : RTXHelper) (hempty : h._Stages = []) :
    r.call h = .assertFailed h := by
  cases r with
  | hit stages g => simp [Registration.call, AddStageToHitGroup, hempty]
  | miss stage g => simp [Registration.call, AddStageToMissGroup, hempty]

/-- C8: (1) a call of `AddStageToHitGroup` or `AddStageToMissGroup` on a helper whose stage
list is empty (before `SetRaygenStage`, as right after `Initialize`) aborts on an assertion
and changes nothing; (2) in every state reached after `Initialize(H, M, s)`,
`SetRaygenStage` and any returning registration calls, a call with group index `g ≥ H`
(hit) or `g ≥ M` (miss), and a hit call with 0 or more than 3 stages, aborts on an assertion
and changes nothing. -/
theorem C8_precondition_failures (H M s : Nat) (prior : RTXHelper)
    (raygen : VkPipelineShaderStageCreateInfo) (regs : List Registration) (h : RTXHelper)
    (hrun : populate H M s prior raygen regs = .ok h) :
    (∀ (h0 : RTXHelper) (r : Registration), h0._Stages = [] → r.call h0 = .assertFailed h0) ∧
    (∀ r : Registration,
      r.call (Initialize H M s prior) = .assertFailed (Initialize H M s prior)) ∧
    (∀ r : Registration, r.outOfRange H M ∨ r.badStageCount → r.call h = .assertFailed h) := by
  obtain ⟨_, _, _, hlenH, hlenM, _⟩ := populate_config hrun
  refine ⟨fun h0 r he => call_before_raygen r h0 he,
    fun r => call_before_raygen r _ rfl, ?_⟩
  intro r hbad
  cases r with
  | hit stages g =>
    rcases hbad with hrange | hcount
    · have hge : ¬ g < h._NumHitShaders.length := by
        have : H ≤ g := hrange
        omega
      show AddStageToHitGroup stages g h = .assertFailed h
      simp [AddStageToHitGroup, hge]
    · have hc : ¬ (stages ≠ [] ∧ stages.length ≤ 3) := by
        rintro ⟨hne, hle⟩
        rcases hcount with h0 | h3
        · exact hne (List.length_eq_zero.mp h0)
        · omega
      show AddStageToHitGroup stages g h = .assertFailed h
      unfold AddStageToHitGroup
      rw [if_pos hc]
      simp
  | miss stage g =>
    rcases hbad with hrange | hcount
    · have hge : ¬ g < h._NumMissShaders.length := by
        have : M ≤ g := hrange
        omega
      show AddStageToMissGroup stage g h = .assertFailed h
      simp [AddStageToMissGroup, hge]
    · exact absurd hcount (by simp [Registration.badStageCount])

/-- C8 at concrete inputs: with `H = M = 2`, after two hit registrations, hit index 2, miss
index 2, an empty stage list and a list of four stages are all rejected without any change;
so is any call right after `Initialize`. -/
theorem C8_precondition_failures_witness :
    populate 2 2 32 RTXHelper.new sampleRaygen
      [.hit [sampleChit] 0, .hit [sampleShadowChit] 1] = .ok sampleTwoHits ∧
    (Registration.hit [sampleChit] 0).call (Initialize 2 2 32 RTXHelper.new) =
      .assertFailed (Initialize 2 2 32 RTXHelper.new) ∧
    (Registration.hit [sampleAhit] 2).call sampleTwoHits = .assertFailed sampleTwoHits ∧
    (Registration.miss sampleMiss 2).call sampleTwoHits = .assertFailed sampleTwoHits ∧
    (Registration.hit [] 1).call sampleTwoHits = .assertFailed sampleTwoHits ∧
    (Registration.hit [sampleChit, sampleAhit, sampleChit, sampleAhit] 1).call sampleTwoHits =
      .assertFailed sampleTwoHits :=
  have hrun : populate 2 2 32 RTXHelper.new sampleRaygen
      [.hit [sampleChit] 0, .hit [sampleShadowChit] 1] = .ok sampleTwoHits := by decide
  have hthm := C8_precondition_failures 2 2 32 RTXHelper.new sampleRaygen
    [.hit [sampleChit] 0, .hit [sampleShadowChit] 1] sampleTwoHits hrun
  ⟨hrun, hthm.2.1 _,
    hthm.2.2 (.hit [sampleAhit] 2) (Or.inl (by decide : (2 : Nat) ≤ 2)),
    hthm.2.2 (.miss sampleMiss 2) (Or.inl (by decide : (2 : Nat) ≤ 2)),
    hthm.2.2 (.hit [] 1) (Or.inr (Or.inl rfl)),
    hthm.2.2 (.hit [sampleChit, sampleAhit, sampleChit, sampleAhit] 1)
      (Or.inr (Or.inr (by decide : (3 : Nat) < 4)))⟩

/-! ## Arithmetic of the stage offsets -/

/-- The 32-bit accumulation is the plain sum when the total fits 32 bits. -/
theorem addAllU32_eq_sum (xs : List Nat) :
    ∀ offset : Nat, offset + xs.sum < 4294967296 → addAllU32 offset xs = offset + xs.sum := by
  induction xs with
  | nil => intro offset _; simp [addAllU32]
  | cons x rest ih =>
    intro offset hfit
    simp only [List.sum_cons] at hfit
    have hstep : u32 (offset + x) = offset + x := u32_of_lt (by omega)
    have hrest := ih (offset + x) (by omega)
    unfold addAllU32 at hrest ⊢
    simp only [List.foldl_cons, List.sum_cons, hstep, hrest]
    omega

theorem sum_le_of_forall_le (k : Nat) (xs : List Nat) (hk : ∀ c ∈ xs, c ≤ k) :
    xs.sum ≤ k * xs.length := by
  induction xs with
  | nil => simp
  | cons x rest ih =>
    have hx : x ≤ k := hk x (List.mem_cons_self _ _)
    have hrest := ih (fun c hc => hk c (List.mem_cons_of_mem _ hc))
    simp only [List.sum_cons, List.length_cons, Nat.mul_succ]
    omega

theorem sum_take_le_sum (xs : List Nat) : ∀ n : Nat, (xs.take n).sum ≤ xs.sum := by
  induction xs with
  | nil => intro n; simp
  | cons x rest ih =>
    intro n
    cases n with
    | zero => simp
    | succ m =>
      have := ih m
      simp only [List.take_succ_cons, List.sum_cons]
      omega

theorem sum_take_succ (xs : List Nat) :
    ∀ g : Nat, (xs.take (g + 1)).sum = (xs.take g).sum + xs.getD g 0 := by
  induction xs with
  | nil => intro g; simp
  | cons x rest ih =>
    intro g
    cases g with
    | zero => simp
    | succ m =>
      have := ih m
      simp only [List.take_succ_cons, List.sum_cons, List.getD_cons_succ]
      omega

theorem sum_set_of_zero (xs : List Nat) (v : Nat) :
    ∀ g : Nat, g < xs.length → xs.getD g 0 = 0 → (xs.set g v).sum = xs.sum + v := by
  induction xs with
  | nil => intro g hg; simp at hg
  | cons x rest ih =>
    intro g hg hzero
    cases g with
    | zero =>
      simp only [List.getD_cons_zero] at hzero
      simp only [List.set_cons_zero, List.sum_cons, hzero]
      omega
    | succ m =>
      simp only [List.getD_cons_succ] at hzero
      simp only [List.length_cons] at hg
      have := ih m (by omega) hzero
      simp only [List.set_cons_succ, List.sum_cons, this]
      omega

theorem mem_set_cases (xs : List Nat) (v c : Nat) :
    ∀ g : Nat, c ∈ xs.set g v → c ∈ xs ∨ c = v := by
  induction xs with
  | nil => intro g hc; simp at hc
  | cons x rest ih =>
    intro g hc
    cases g with
    | zero =>
      simp only [List.set_cons_zero, List.mem_cons] at hc
      rcases hc with rfl | hc
      · exact Or.inr rfl
      · exact Or.inl (List.mem_cons_of_mem _ hc)
    | succ m =>
      simp only [List.set_cons_succ, List.mem_cons] at hc
      rcases hc with rfl | hc
      · exact Or.inl (List.mem_cons_self _ _)
      · rcases ih m hc with h1 | h1
        · exact Or.inl (List.mem_cons_of_mem _ h1)
        · exact Or.inr h1

theorem mem_vectorResize (xs : List Nat) (n c : Nat) (hc : c ∈ vectorResize xs n 0) :
    c ∈ xs ∨ c = 0 := by
  unfold vectorResize at hc
  rcases List.mem_append.mp hc with h1 | h1
  · exact Or.inl (List.mem_of_mem_take h1)
  · exact Or.inr (List.eq_of_mem_replicate h1)

/-- `Initialize` keeps the counters in range. -/
theorem CountersInRange_Initialize (H M s : Nat) (prior : RTXHelper)
    (hprior : CountersInRange prior) : CountersInRange (Initialize H M s prior) := by
  constructor
  · intro c hc
    rcases mem_vectorResize _ _ _ hc with h1 | h1
    · exact hprior.1 c h1
    · omega
  · intro c hc
    rcases mem_vectorResize _ _ _ hc with h1 | h1
    · exact hprior.2 c h1
    · omega

/-- A constructed helper and a destroyed helper have their counters in range. -/
theorem CountersInRange_new_Destroy (h : RTXHelper) :
    CountersInRange RTXHelper.new ∧ CountersInRange (Destroy h) := by
  refine ⟨⟨?_, ?_⟩, ⟨?_, ?_⟩⟩ <;> intro c hc <;> simp [RTXHelper.new, Destroy] at hc

/-- A returning registration call keeps the counters in range. -/
theorem CountersInRange_call {r : Registration} {h h' : RTXHelper}
    (hin : CountersInRange h) (hok : r.call h = .ok h') : CountersInRange h' := by
  cases r with
  | hit stages g =>
    obtain ⟨_, _, _, hlen, _, _, _, rfl⟩ := AddStageToHitGroup_ok hok
    refine ⟨?_, hin.2⟩
    intro c hc
    rcases mem_set_cases _ _ _ _ hc with h1 | h1
    · exact hin.1 c h1
    · rw [h1, Nat.zero_add, u32_of_lt (u32_lt _), u32_of_lt (by omega)]
      exact hlen
  | miss stage g =>
    obtain ⟨_, _, _, _, _, rfl⟩ := AddStageToMissGroup_ok hok
    refine ⟨hin.1, ?_⟩
    intro c hc
    rcases mem_set_cases _ _ _ _ hc with h1 | h1
    · exact hin.2 c h1
    · rw [h1]
      decide

/-- After a returning `populate` from a helper with counters in range, the counters are in
range. -/
theorem populate_CountersInRange {H M s : Nat} {prior : RTXHelper}
    {raygen : VkPipelineShaderStageCreateInfo} {regs : List Registration} {h : RTXHelper}
    (hprior : CountersInRange prior)
    (hrun : populate H M s prior raygen regs = .ok h) : CountersInRange h :=
  register_invariant CountersInRange (fun _ _ _ hx hcall => CountersInRange_call hx hcall)
    regs { Initialize H M s prior with _Stages := [raygen], _Groups := [raygenGroup] } h
    (CountersInRange_Initialize H M s prior hprior) (populate_ok hrun)

/-- The hit-stage offset without wrap-around. -/
theorem hitStageOffset_eq (h : RTXHelper) (g : Nat) (hin : CountersInRange h)
    (hfit : 3 * h._NumHitShaders.length + h._NumMissShaders.length + 1 < 4294967296) :
    hitStageOffset h g = 1 + (h._NumHitShaders.take (g + 1)).sum := by
  unfold hitStageOffset
  apply addAllU32_eq_sum
  have h1 := sum_take_le_sum h._NumHitShaders (g + 1)
  have h2 := sum_le_of_forall_le 3 h._NumHitShaders hin.1
  omega

/-- The miss-stage offset without wrap-around. -/
theorem missStageOffset_eq (h : RTXHelper) (g : Nat) (hin : CountersInRange h)
    (hfit : 3 * h._NumHitShaders.length + h._NumMissShaders.length + 1 < 4294967296) :
    missStageOffset h g = 1 + h._NumHitShaders.sum + (h._NumMissShaders.take (g + 1)).sum := by
  unfold missStageOffset
  have h1 := sum_take_le_sum h._NumMissShaders (g + 1)
  have h2 := sum_le_of_forall_le 3 h._NumHitShaders hin.1
  have h3 := sum_le_of_forall_le 1 h._NumMissShaders hin.2
  rw [addAllU32_eq_sum h._NumHitShaders 1 (by omega)]
  exact addAllU32_eq_sum _ _ (by omega)

theorem head?_insert {α : Type} (xs ys : List α) (a : α) (pos : Nat)
    (hhead : xs.head? = some a) (hpos : 1 ≤ pos) :
    (xs.take pos ++ ys ++ xs.drop pos).head? = some a := by
  cases xs with
  | nil => simp at hhead
  | cons x rest =>
    cases pos with
    | zero => omega
    | succ p => simpa using hhead

/-! ## The raygen stage and group stay first -/

/-- A returning registration call, made while the counters are in range and the maximal
stage count fits 32 bits, keeps the first stage and the first group. -/
theorem call_keeps_heads {r : Registration} {h h' : RTXHelper}
    (raygen : VkPipelineShaderStageCreateInfo)
    (hin : CountersInRange h)
    (hfit : 3 * h._NumHitShaders.length + h._NumMissShaders.length + 1 < 4294967296)
    (hH : h._NumHitGroups = h._NumHitShaders.length)
    (hhead : h._Stages.head? = some raygen ∧ h._Groups.head? = some raygenGroup)
    (hok : r.call h = .ok h') :
    h'._Stages.head? = some raygen ∧ h'._Groups.head? = some raygenGroup := by
  cases r with
  | hit stages g =>
    obtain ⟨_, _, _, _, _, _, _, rfl⟩ := AddStageToHitGroup_ok hok
    have hoff := hitStageOffset_eq h g hin hfit
    exact ⟨head?_insert _ _ _ _ hhead.1 (by omega), head?_insert _ _ _ _ hhead.2 (by omega)⟩
  | miss stage g =>
    obtain ⟨_, hg, _, _, _, rfl⟩ := AddStageToMissGroup_ok hok
    have hoff := missStageOffset_eq h g hin hfit
    have hpos : u32 (u32 (g + 1) + h._NumHitGroups) = g + 1 + h._NumHitGroups := by
      rw [u32_of_lt (n := g + 1) (by omega), u32_of_lt (by omega)]
    exact ⟨head?_insert _ _ _ _ hhead.1 (by omega),
      head?_insert _ _ _ _ hhead.2 (by omega)⟩

/-- C9: `SetRaygenStage` returns exactly when the stage list is empty; and in every state
reached by `Initialize(H, M, s)`, `SetRaygenStage(raygen)` and any sequence of returning
`AddStageToHitGroup` / `AddStageToMissGroup` calls, a further `SetRaygenStage` call aborts
(changing nothing), element 0 of the stage list is `raygen`, and element 0 of the group list
is the raygen group (general type, `generalShader = 0`).  The prior helper has its counters
in range (true of every helper the member functions can produce) and the maximal stage
count `3 * H + M + 1` fits the 32-bit stage indices. -/
theorem C9_raygen_stays_first (H M s : Nat) (prior : RTXHelper)
    (raygen : VkPipelineShaderStageCreateInfo) (regs : List Registration) (h : RTXHelper)
    (hprior : CountersInRange prior) (hfit : 3 * H + M + 1 < 4294967296)
    (hrun : populate H M s prior raygen regs = .ok h) :
    (∀ (h0 : RTXHelper) (stage : VkPipelineShaderStageCreateInfo),
      (∃ h1, SetRaygenStage stage h0 = .ok h1) ↔ h0._Stages = []) ∧
    (∀ stage : VkPipelineShaderStageCreateInfo, SetRaygenStage stage h = .assertFailed h) ∧
    h._Stages[0]? = some raygen ∧
    h._Groups[0]? = some raygenGroup ∧
    raygenGroup.type = .GENERAL ∧ raygenGroup.generalShader = 0 := by
  have hinv : (CountersInRange h ∧ h._NumHitGroups = H ∧ h._NumHitShaders.length = H ∧
      h._NumMissShaders.length = M) ∧
      h._Stages.head? = some raygen ∧ h._Groups.head? = some raygenGroup := by
    refine register_invariant
      (fun x => (CountersInRange x ∧ x._NumHitGroups = H ∧ x._NumHitShaders.length = H ∧
        x._NumMissShaders.length = M) ∧
        x._Stages.head? = some raygen ∧ x._Groups.head? = some raygenGroup)
      ?_ regs _ h ?_ (populate_ok hrun)
    · intro r x x' hx hcall
      obtain ⟨⟨hin, hHx, hlH, hlM⟩, hheads⟩ := hx
      obtain ⟨a, _, _, d, e, _⟩ := call_keeps_config hcall
      refine ⟨⟨CountersInRange_call hin hcall, a.trans hHx, d.trans hlH, e.trans hlM⟩, ?_⟩
      exact call_keeps_heads raygen hin (by rw [hlH, hlM]; exact hfit) (hHx.trans hlH.symm)
        hheads hcall
    · exact ⟨⟨CountersInRange_Initialize H M s prior hprior, rfl, vectorResize_length _ _ _,
        vectorResize_length _ _ _⟩, rfl, rfl⟩
  obtain ⟨_, hs, hg⟩ := hinv
  have hne : h._Stages ≠ [] := by
    intro he
    rw [he] at hs
    simp at hs
  refine ⟨?_, ?_, ?_, ?_, rfl, rfl⟩
  · intro h0 stage
    constructor
    · rintro ⟨h1, hok⟩
      by_contra hcon
      simp [SetRaygenStage, hcon] at hok
    · intro he
      exact ⟨{ h0 with _Stages := h0._Stages ++ [stage], _Groups := h0._Groups ++ [raygenGroup] },
        by simp [SetRaygenStage, he]⟩
  · intro stage
    simp [SetRaygenStage, hne]
  · rw [← List.head?_eq_getElem?]
    exact hs
  · rw [← List.head?_eq_getElem?]
    exact hg

/-- C9 at a concrete input: the application's sequence of four registrations. -/
theorem C9_raygen_stays_first_witness :
    populate 2 2 32 RTXHelper.new sampleRaygen
      [.hit [sampleChit] 0, .hit [sampleShadowChit] 1, .miss sampleMiss 0,
        .miss sampleShadowMiss 1] = .ok sampleTable ∧
    SetRaygenStage sampleChit sampleTable = .assertFailed sampleTable ∧
    sampleTable._Stages[0]? = some sampleRaygen ∧
    sampleTable._Groups[0]? = some raygenGroup :=
  have hrun : populate 2 2 32 RTXHelper.new sampleRaygen
      [.hit [sampleChit] 0, .hit [sampleShadowChit] 1, .miss sampleMiss 0,
        .miss sampleShadowMiss 1] = .ok sampleTable := by decide
  have hthm := C9_raygen_stays_first 2 2 32 RTXHelper.new sampleRaygen
    [.hit [sampleChit] 0, .hit [sampleShadowChit] 1, .miss sampleMiss 0,
      .miss sampleShadowMiss 1] sampleTable (CountersInRange_new_Destroy RTXHelper.new).1
    (by decide) hrun
  ⟨hrun, hthm.2.1 sampleChit, hthm.2.2.1, hthm.2.2.2.1⟩

/-! ## The hit group records its stages by kind -/

theorem getElem?_insert {α : Type} (xs ys : List α) (pos j : Nat)
    (hpos : pos ≤ xs.length) (hj : j < ys.length) :
    (xs.take pos ++ ys ++ xs.drop pos)[pos + j]? = ys[j]? := by
  have hlen : (xs.take pos).length = pos := by
    rw [List.length_take]
    omega
  rw [List.append_assoc, List.getElem?_append_right (by omega), hlen,
    List.getElem?_append_left (by omega)]
  congr 1
  omega

theorem length_insert {α : Type} (xs ys : List α) (pos : Nat) :
    (xs.take pos ++ ys ++ xs.drop pos).length = xs.length + ys.length := by
  simp only [List.length_append, List.length_take, List.length_drop]
  omega

/-- The loop of `AddStageToHitGroup` only writes `closestHitShader` and `anyHitShader`. -/
theorem hitGroupLoop_fixed (offset : Nat) :
    ∀ (stages : List VkPipelineShaderStageCreateInfo) (i : Nat)
      (g0 : VkRayTracingShaderGroupCreateInfoNV),
      (hitGroupLoop offset stages i g0).type = g0.type ∧
      (hitGroupLoop offset stages i g0).generalShader = g0.generalShader ∧
      (hitGroupLoop offset stages i g0).intersectionShader = g0.intersectionShader := by
  intro stages
  induction stages with
  | nil => intro i g0; exact ⟨rfl, rfl, rfl⟩
  | cons st rest ih =>
    intro i g0
    unfold hitGroupLoop
    simp only
    split
    · exact ih _ _
    · split
      · exact ih _ _
      · exact ih _ _

/-- The loop leaves `closestHitShader` alone when no stage is a closest-hit stage, and
otherwise sets it to the index of a closest-hit stage of the list. -/
theorem hitGroupLoop_closest (offset : Nat) :
    ∀ (stages : List VkPipelineShaderStageCreateInfo) (i : Nat)
      (g0 : VkRayTracingShaderGroupCreateInfoNV),
      ((∀ st ∈ stages, st.stage ≠ VK_SHADER_STAGE_CLOSEST_HIT_BIT_NV) ∧
        (hitGroupLoop offset stages i g0).closestHitShader = g0.closestHitShader) ∨
      (∃ j st, stages[j]? = some st ∧ st.stage = VK_SHADER_STAGE_CLOSEST_HIT_BIT_NV ∧
        (hitGroupLoop offset stages i g0).closestHitShader = u32 (offset + (i + j))) := by
  intro stages
  induction stages with
  | nil => intro i g0; exact Or.inl ⟨by simp, rfl⟩
  | cons s rest ih =>
    intro i g0
    unfold hitGroupLoop
    simp only
    by_cases hc : s.stage = VK_SHADER_STAGE_CLOSEST_HIT_BIT_NV
    · rw [if_pos hc]
      rcases ih (i + 1) { g0 with closestHitShader := u32 (offset + i) } with ⟨_, h2⟩ | ⟨j, st, h1, h2, h3⟩
      · exact Or.inr ⟨0, s, by simp, hc, by rw [h2]; rfl⟩
      · refine Or.inr ⟨j + 1, st, by simpa using h1, h2, ?_⟩
        rw [h3]
        congr 1
        omega
    · rw [if_neg hc]
      have hkeep : ∀ g1 : VkRayTracingShaderGroupCreateInfoNV,
          g1.closestHitShader = g0.closestHitShader →
          ((∀ st ∈ s :: rest, st.stage ≠ VK_SHADER_STAGE_CLOSEST_HIT_BIT_NV) ∧
            (hitGroupLoop offset rest (i + 1) g1).closestHitShader = g0.closestHitShader) ∨
          (∃ j st, (s :: rest)[j]? = some st ∧ st.stage = VK_SHADER_STAGE_CLOSEST_HIT_BIT_NV ∧
            (hitGroupLoop offset rest (i + 1) g1).closestHitShader = u32 (offset + (i + j))) := by
        intro g1 hg1
        rcases ih (i + 1) g1 with ⟨h1, h2⟩ | ⟨j, st, h1, h2, h3⟩
        · refine Or.inl ⟨?_, by rw [h2, hg1]⟩
          intro st hst
          rcases List.mem_cons.mp hst with rfl | hst
          · exact hc
          · exact h1 st hst
        · refine Or.inr ⟨j + 1, st, by simpa using h1, h2, ?_⟩
          rw [h3]
          congr 1
          omega
      split
      · exact hkeep _ rfl
      · exact hkeep _ rfl

/-- The loop leaves `anyHitShader` alone when no stage is an any-hit stage, and otherwise
sets it to the index of an any-hit stage of the list. -/
theorem hitGroupLoop_any (offset : Nat) :
    ∀ (stages : List VkPipelineShaderStageCreateInfo) (i : Nat)
      (g0 : VkRayTracingShaderGroupCreateInfoNV),
      ((∀ st ∈ stages, st.stage ≠ VK_SHADER_STAGE_ANY_HIT_BIT_NV) ∧
        (hitGroupLoop offset stages i g0).anyHitShader = g0.anyHitShader) ∨
      (∃ j st, stages[j]? = some st ∧ st.stage = VK_SHADER_STAGE_ANY_HIT_BIT_NV ∧
        (hitGroupLoop offset stages i g0).anyHitShader = u32 (offset + (i + j))) := by
  intro stages
  induction stages with
  | nil => intro i g0; exact Or.inl ⟨by simp, rfl⟩
  | cons s rest ih =>
    intro i g0
    unfold hitGroupLoop
    simp only
    by_cases ha : s.stage = VK_SHADER_STAGE_ANY_HIT_BIT_NV
    · have hc : ¬ s.stage = VK_SHADER_STAGE_CLOSEST_HIT_BIT_NV := by
        rw [ha]
        decide
      rw [if_neg hc, if_pos ha]
      rcases ih (i + 1) { g0 with anyHitShader := u32 (offset + i) } with ⟨_, h2⟩ | ⟨j, st, h1, h2, h3⟩
      · exact Or.inr ⟨0, s, by simp, ha, by rw [h2]; rfl⟩
      · refine Or.inr ⟨j + 1, st, by simpa using h1, h2, ?_⟩
        rw [h3]
        congr 1
        omega
    · have hkeep : ∀ g1 : VkRayTracingShaderGroupCreateInfoNV,
          g1.anyHitShader = g0.anyHitShader →
          ((∀ st ∈ s :: rest, st.stage ≠ VK_SHADER_STAGE_ANY_HIT_BIT_NV) ∧
            (hitGroupLoop offset rest (i + 1) g1).anyHitShader = g0.anyHitShader) ∨
          (∃ j st, (s :: rest)[j]? = some st ∧ st.stage = VK_SHADER_STAGE_ANY_HIT_BIT_NV ∧
            (hitGroupLoop offset rest (i + 1) g1).anyHitShader = u32 (offset + (i + j))) := by
        intro g1 hg1
        rcases ih (i + 1) g1 with ⟨h1, h2⟩ | ⟨j, st, h1, h2, h3⟩
        · refine Or.inl ⟨?_, by rw [h2, hg1]⟩
          intro st hst
          rcases List.mem_cons.mp hst with rfl | hst
          · exact ha
          · exact h1 st hst
        · refine Or.inr ⟨j + 1, st, by simpa using h1, h2, ?_⟩
          rw [h3]
          congr 1
          omega
      rw [if_neg ha]
      split
      · exact hkeep _ rfl
      · exact hkeep _ rfl

/-- C10: when `AddStageToHitGroup(stages, g)` returns (so `stages` holds 1 to 3 stages) and
the resulting stage count fits the 32-bit stage indices, the group now at index `1 + g` of
the group list is a triangle-hit group whose `closestHitShader` is `VK_SHADER_UNUSED_NV` if
no passed stage is of the closest-hit kind, and otherwise the index, in the new stage list,
of a passed stage of the closest-hit kind (namely `offset + j` for its position `j` in
`stages`); likewise `anyHitShader` for the any-hit kind; `[any-hit, closest-hit]` yields
`anyHitShader = offset` and `closestHitShader = offset + 1`. -/
theorem C10_hit_group_by_kind (h h' : RTXHelper)
    (stages : List VkPipelineShaderStageCreateInfo) (g : Nat)
    (hok : AddStageToHitGroup stages g h = .ok h')
    (hfit : h'._Stages.length < 4294967296) :
    1 ≤ stages.length ∧ stages.length ≤ 3 ∧
    ∃ grp : VkRayTracingShaderGroupCreateInfoNV,
      h'._Groups[1 + g]? = some grp ∧ grp.type = .TRIANGLES_HIT_GROUP ∧
      (((∀ st ∈ stages, st.stage ≠ VK_SHADER_STAGE_CLOSEST_HIT_BIT_NV) ∧
          grp.closestHitShader = VK_SHADER_UNUSED_NV) ∨
        (∃ j st, stages[j]? = some st ∧ st.stage = VK_SHADER_STAGE_CLOSEST_HIT_BIT_NV ∧
          grp.closestHitShader = hitStageOffset h g + j ∧
          h'._Stages[grp.closestHitShader]? = some st ∧
          grp.closestHitShader ≠ VK_SHADER_UNUSED_NV)) ∧
      (((∀ st ∈ stages, st.stage ≠ VK_SHADER_STAGE_ANY_HIT_BIT_NV) ∧
          grp.anyHitShader = VK_SHADER_UNUSED_NV) ∨
        (∃ j st, stages[j]? = some st ∧ st.stage = VK_SHADER_STAGE_ANY_HIT_BIT_NV ∧
          grp.anyHitShader = hitStageOffset h g + j ∧
          h'._Stages[grp.anyHitShader]? = some st ∧
          grp.anyHitShader ≠ VK_SHADER_UNUSED_NV)) ∧
      (∀ a c : VkPipelineShaderStageCreateInfo, stages = [a, c] →
        a.stage = VK_SHADER_STAGE_ANY_HIT_BIT_NV →
        c.stage = VK_SHADER_STAGE_CLOSEST_HIT_BIT_NV →
        grp.anyHitShader = hitStageOffset h g ∧
        grp.closestHitShader = hitStageOffset h g + 1) := by
  obtain ⟨_, _, hne, hle3, _, hoff, hgpos, rfl⟩ := AddStageToHitGroup_ok hok
  have hpos : 1 ≤ stages.length := by
    cases stages with
    | nil => exact absurd rfl hne
    | cons a rest => simp
  simp only [length_insert] at hfit
  have hidx : ∀ j st, stages[j]? = some st →
      u32 (hitStageOffset h g + (0 + j)) = hitStageOffset h g + j ∧
      (h._Stages.take (hitStageOffset h g) ++ stages ++
        h._Stages.drop (hitStageOffset h g))[hitStageOffset h g + j]? = some st ∧
      hitStageOffset h g + j ≠ VK_SHADER_UNUSED_NV := by
    intro j st hj
    have hjlt : j < stages.length := by
      by_contra hcon
      rw [List.getElem?_eq_none (by omega)] at hj
      exact absurd hj (by simp)
    refine ⟨?_, ?_, ?_⟩
    · rw [Nat.zero_add, u32_of_lt (by omega)]
    · rw [getElem?_insert _ _ _ _ hoff hjlt]
      exact hj
    · unfold VK_SHADER_UNUSED_NV
      omega
  refine ⟨hpos, hle3, hitGroupInfo (hitStageOffset h g) stages, ?_, ?_, ?_, ?_, ?_⟩
  · have := getElem?_insert h._Groups [hitGroupInfo (hitStageOffset h g) stages] (1 + g) 0
      hgpos (by simp)
    simpa using this
  · exact (hitGroupLoop_fixed _ stages 0 emptyHitGroup).1
  · rcases hitGroupLoop_closest (hitStageOffset h g) stages 0 emptyHitGroup with
      ⟨h1, h2⟩ | ⟨j, st, h1, h2, h3⟩
    · exact Or.inl ⟨h1, h2⟩
    · obtain ⟨e1, e2, e3⟩ := hidx j st h1
      have hval : (hitGroupInfo (hitStageOffset h g) stages).closestHitShader =
          hitStageOffset h g + j := by
        unfold hitGroupInfo
        rw [h3, e1]
      exact Or.inr ⟨j, st, h1, h2, hval, by rw [hval]; exact e2, by rw [hval]; exact e3⟩
  · rcases hitGroupLoop_any (hitStageOffset h g) stages 0 emptyHitGroup with
      ⟨h1, h2⟩ | ⟨j, st, h1, h2, h3⟩
    · exact Or.inl ⟨h1, h2⟩
    · obtain ⟨e1, e2, e3⟩ := hidx j st h1
      have hval : (hitGroupInfo (hitStageOffset h g) stages).anyHitShader =
          hitStageOffset h g + j := by
        unfold hitGroupInfo
        rw [h3, e1]
      exact Or.inr ⟨j, st, h1, h2, hval, by rw [hval]; exact e2, by rw [hval]; exact e3⟩
  · intro a c hst ha hc
    subst hst
    simp only [List.length_cons, List.length_nil] at hfit
    have hkinds : ¬ VK_SHADER_STAGE_ANY_HIT_BIT_NV = VK_SHADER_STAGE_CLOSEST_HIT_BIT_NV := by
      decide
    have e0 : u32 (hitStageOffset h g) = hitStageOffset h g := u32_of_lt (by omega)
    have e1 : u32 (hitStageOffset h g + 1) = hitStageOffset h g + 1 := u32_of_lt (by omega)
    simp [hitGroupInfo, hitGroupLoop, ha, hc, hkinds, e0, e1]

/-- C10 at a concrete input: `AddStageToHitGroup({any-hit, closest-hit}, 1)` after one hit
group, where the stages are inserted at offset 2, records `anyHitShader = 2` and
`closestHitShader = 3`. -/
theorem C10_hit_group_by_kind_witness :
    AddStageToHitGroup [sampleAhit, sampleShadowChit] 1 sampleOneHit = .ok sampleAnyClosest ∧
    sampleAnyClosest._Stages.length < 4294967296 ∧
    hitStageOffset sampleOneHit 1 = 2 ∧
    sampleAnyClosest._Groups[1 + 1]? =
      some { emptyHitGroup with anyHitShader := 2, closestHitShader := 3 } ∧
    ({ emptyHitGroup with anyHitShader := 2, closestHitShader := 3 } :
      VkRayTracingShaderGroupCreateInfoNV).anyHitShader = hitStageOffset sampleOneHit 1 ∧
    ({ emptyHitGroup with anyHitShader := 2, closestHitShader := 3 } :
      VkRayTracingShaderGroupCreateInfoNV).closestHitShader =
        hitStageOffset sampleOneHit 1 + 1 :=
  have hok : AddStageToHitGroup [sampleAhit, sampleShadowChit] 1 sampleOneHit =
      .ok sampleAnyClosest := by decide
  have hgrp : sampleAnyClosest._Groups[1 + 1]? =
      some { emptyHitGroup with anyHitShader := 2, closestHitShader := 3 } := by decide
  have hthm := C10_hit_group_by_kind sampleOneHit sampleAnyClosest
    [sampleAhit, sampleShadowChit] 1 hok (by decide)
  hthm.2.2.elim fun grp hg =>
    have heq : grp = { emptyHitGroup with anyHitShader := 2, closestHitShader := 3 } :=
      Option.some.inj (hg.1.symm.trans hgrp)
    have hex := hg.2.2.2.2 sampleAhit sampleShadowChit rfl rfl rfl
    ⟨hok, by decide, by decide, hgrp, heq ▸ hex.1, heq ▸ hex.2⟩

/-! ## When a registration call returns -/

theorem u32_stage_count {n : Nat} (h3 : n ≤ 3) : u32 (0 + u32 n) = n := by
  have h := u32_of_lt (n := n) (by omega)
  rw [h, Nat.zero_add, h]

/-- `AddStageToHitGroup` returns when its assertions hold and both insertion positions are
within their lists. -/
theorem AddStageToHitGroup_of (stages : List VkPipelineShaderStageCreateInfo) (g : Nat)
    (h : RTXHelper) (h1 : h._Stages ≠ []) (h2 : g < h._NumHitShaders.length)
    (h3 : stages ≠ []) (h3' : stages.length ≤ 3) (h4 : h._NumHitShaders.getD g 0 = 0)
    (h5 : hitStageOffset h g ≤ h._Stages.length) (h6 : 1 + g ≤ h._Groups.length) :
    AddStageToHitGroup stages g h = .ok { h with
      _Stages := h._Stages.take (hitStageOffset h g) ++ stages ++
        h._Stages.drop (hitStageOffset h g)
      _Groups := h._Groups.take (1 + g) ++ [hitGroupInfo (hitStageOffset h g) stages] ++
        h._Groups.drop (1 + g)
      _NumHitShaders := h._NumHitShaders.set g stages.length } := by
  unfold AddStageToHitGroup
  rw [if_neg h1, if_neg (not_not.mpr h2), if_neg (not_not.mpr ⟨h3, h3'⟩),
    if_neg (not_not.mpr h4)]
  simp only [vectorInsert_of_le _ _ h5, vectorInsert_of_le _ _ h6, h4, u32_stage_count h3']

/-- `AddStageToMissGroup` returns when its assertions hold and both insertion positions are
within their lists. -/
theorem AddStageToMissGroup_of (stage : VkPipelineShaderStageCreateInfo) (g : Nat)
    (h : RTXHelper) (h1 : h._Stages ≠ []) (h2 : g < h._NumMissShaders.length)
    (h4 : h._NumMissShaders.getD g 0 = 0)
    (h5 : missStageOffset h g ≤ h._Stages.length)
    (h6 : u32 (u32 (g + 1) + h._NumHitGroups) ≤ h._Groups.length) :
    AddStageToMissGroup stage g h = .ok { h with
      _Stages := h._Stages.take (missStageOffset h g) ++ [stage] ++
        h._Stages.drop (missStageOffset h g)
      _Groups := h._Groups.take (u32 (u32 (g + 1) + h._NumHitGroups)) ++
        [missGroupInfo (missStageOffset h g)] ++
        h._Groups.drop (u32 (u32 (g + 1) + h._NumHitGroups))
      _NumMissShaders := h._NumMissShaders.set g 1 } := by
  unfold AddStageToMissGroup
  rw [if_neg h1, if_neg (not_not.mpr h2), if_neg (not_not.mpr h4)]
  simp only [vectorInsert_of_le _ _ h5, vectorInsert_of_le _ _ h6, h4]
  rfl

/-- `AddStageToMissGroup` has undefined behaviour when its assertions hold and the stage is
inserted, but the group-list position lies beyond the end of the group list. -/
theorem AddStageToMissGroup_beyond {stage : VkPipelineShaderStageCreateInfo} {g : Nat}
    {h : RTXHelper} (h1 : h._Stages ≠ []) (h2 : g < h._NumMissShaders.length)
    (h4 : h._NumMissShaders.getD g 0 = 0)
    (h5 : missStageOffset h g ≤ h._Stages.length)
    (h6 : h._Groups.length < u32 (u32 (g + 1) + h._NumHitGroups)) :
    AddStageToMissGroup stage g h = .undefinedBehaviour := by
  unfold AddStageToMissGroup
  rw [if_neg h1, if_neg (not_not.mpr h2), if_neg (not_not.mpr h4)]
  simp only [vectorInsert_of_le _ _ h5, vectorInsert_of_gt _ _ h6]

/-! ## Counters, registrations and the stage count -/

theorem sum_take_set_of_zero (xs : List Nat) (v : Nat) :
    ∀ j k : Nat, j < xs.length → xs.getD j 0 = 0 →
      ((xs.set j v).take k).sum = (xs.take k).sum + (if j < k then v else 0) := by
  induction xs with
  | nil => intro j k hj; simp at hj
  | cons x rest ih =>
    intro j k hj hzero
    cases k with
    | zero => simp
    | succ k' =>
      cases j with
      | zero =>
        simp only [List.getD_cons_zero] at hzero
        simp only [List.set_cons_zero, List.take_succ_cons, List.sum_cons, hzero]
        simp
        omega
      | succ j' =>
        simp only [List.getD_cons_succ] at hzero
        simp only [List.length_cons] at hj
        have := ih j' k' (by omega) hzero
        simp only [List.set_cons_succ, List.take_succ_cons, List.sum_cons, this]
        by_cases hlt : j' < k'
        · simp [hlt]
          omega
        · simp [hlt]

theorem sum_eq_zero_of_forall (xs : List Nat) (hz : ∀ c ∈ xs, c = 0) : xs.sum = 0 := by
  have := sum_le_of_forall_le 0 xs (fun c hc => by rw [hz c hc])
  omega

/-- What one returning registration call adds to the counters. -/
theorem call_totals {r : Registration} {h h' : RTXHelper} (hok : r.call h = .ok h') :
    h'._NumHitShaders.sum = h._NumHitShaders.sum + r.hitStages ∧
    ∀ k : Nat, (h'._NumMissShaders.take k).sum =
      (h._NumMissShaders.take k).sum + (if r.isMissBelow k then 1 else 0) := by
  cases r with
  | hit stages g =>
    obtain ⟨_, hg, _, hlen, hzero, _, _, rfl⟩ := AddStageToHitGroup_ok hok
    refine ⟨?_, fun k => by simp [Registration.isMissBelow]⟩
    simp only [u32_stage_count hlen, Registration.hitStages]
    exact sum_set_of_zero _ _ _ hg hzero
  | miss stage g =>
    obtain ⟨_, hg, hzero, _, _, rfl⟩ := AddStageToMissGroup_ok hok
    refine ⟨by simp [Registration.hitStages], fun k => ?_⟩
    have := sum_take_set_of_zero h._NumMissShaders 1 g k hg hzero
    simpa [Registration.isMissBelow, u32] using this

/-- What a returning run of registration calls adds to the counters. -/
theorem register_totals :
    ∀ (regs : List Registration) (h h' : RTXHelper), register regs h = .ok h' →
      h'._NumHitShaders.sum = h._NumHitShaders.sum + hitStageTotal regs ∧
      ∀ k : Nat, (h'._NumMissShaders.take k).sum =
        (h._NumMissShaders.take k).sum + missBelow regs k := by
  intro regs
  induction regs with
  | nil =>
    intro h h' hrun
    have : h = h' := Outcome.ok.inj hrun
    subst this
    simp [hitStageTotal, missBelow]
  | cons r rest ih =>
    intro h h' hrun
    unfold register at hrun
    cases hcall : r.call h with
    | ok h1 =>
      rw [hcall] at hrun
      obtain ⟨a1, a2⟩ := call_totals hcall
      obtain ⟨b1, b2⟩ := ih h1 h' hrun
      refine ⟨?_, fun k => ?_⟩
      · rw [b1, a1]
        simp only [hitStageTotal, List.map_cons, List.sum_cons]
        omega
      · rw [b2 k, a2 k]
        simp only [missBelow, List.countP_cons]
        omega
    | assertFailed h1 =>
      rw [hcall] at hrun
      exact absurd hrun (by simp [Outcome.andThen])
    | undefinedBehaviour =>
      rw [hcall] at hrun
      exact absurd hrun (by simp [Outcome.andThen])

/-- A returning registration call keeps the stage count equal to one plus all counters. -/
theorem call_keeps_stage_count {r : Registration} {h h' : RTXHelper}
    (hcount : h._Stages.length = 1 + h._NumHitShaders.sum + h._NumMissShaders.sum)
    (hok : r.call h = .ok h') :
    h'._Stages.length = 1 + h'._NumHitShaders.sum + h'._NumMissShaders.sum := by
  cases r with
  | hit stages g =>
    obtain ⟨_, hg, _, hlen, hzero, _, _, rfl⟩ := AddStageToHitGroup_ok hok
    simp only [length_insert, u32_stage_count hlen, sum_set_of_zero _ _ _ hg hzero, hcount]
    omega
  | miss stage g =>
    obtain ⟨_, hg, hzero, _, _, rfl⟩ := AddStageToMissGroup_ok hok
    have h1 : u32 (0 + 1) = 1 := by decide
    simp only [length_insert, h1, sum_set_of_zero _ _ _ hg hzero, hcount, List.length_singleton]
    omega

/-- The counters right after `Initialize` on a helper with clear counters are all zero. -/
theorem Initialize_clear (H M s : Nat) (prior : RTXHelper) (hclear : CountersClear prior) :
    CountersClear (Initialize H M s prior) := by
  constructor
  · intro c hc
    rcases mem_vectorResize _ _ _ hc with h1 | h1
    · exact hclear.1 c h1
    · exact h1
  · intro c hc
    rcases mem_vectorResize _ _ _ hc with h1 | h1
    · exact hclear.2 c h1
    · exact h1

theorem CountersInRange_of_clear {h : RTXHelper} (hclear : CountersClear h) :
    CountersInRange h :=
  ⟨fun c hc => by rw [hclear.1 c hc]; omega, fun c hc => by rw [hclear.2 c hc]; omega⟩

/-- The state reached by a returning `populate` from a helper with clear counters: the
counters record exactly the registrations made, and the stage list holds the raygen stage
and one entry per counted stage. -/
theorem populate_totals {H M s : Nat} {prior : RTXHelper}
    {raygen : VkPipelineShaderStageCreateInfo} {regs : List Registration} {h : RTXHelper}
    (hclear : CountersClear prior)
    (hrun : populate H M s prior raygen regs = .ok h) :
    h._NumHitShaders.sum = hitStageTotal regs ∧
    (∀ k : Nat, (h._NumMissShaders.take k).sum = missBelow regs k) ∧
    h._Stages.length = 1 + h._NumHitShaders.sum + h._NumMissShaders.sum := by
  have hinit := Initialize_clear H M s prior hclear
  have hzH : (Initialize H M s prior)._NumHitShaders.sum = 0 :=
    sum_eq_zero_of_forall _ hinit.1
  have hzM : (Initialize H M s prior)._NumMissShaders.sum = 0 :=
    sum_eq_zero_of_forall _ hinit.2
  have hrun' := populate_ok hrun
  obtain ⟨t1, t2⟩ := register_totals regs _ h hrun'
  refine ⟨?_, ?_, ?_⟩
  · rw [t1]
    show (Initialize H M s prior)._NumHitShaders.sum + hitStageTotal regs = hitStageTotal regs
    omega
  · intro k
    rw [t2 k]
    have := sum_take_le_sum (Initialize H M s prior)._NumMissShaders k
    show ((Initialize H M s prior)._NumMissShaders.take k).sum + missBelow regs k =
      missBelow regs k
    omega
  · refine register_invariant
      (fun x => x._Stages.length = 1 + x._NumHitShaders.sum + x._NumMissShaders.sum)
      (fun r x x' hx hcall => call_keeps_stage_count hx hcall) regs
      { Initialize H M s prior with _Stages := [raygen], _Groups := [raygenGroup] } h ?_ hrun'
    show 1 = 1 + (Initialize H M s prior)._NumHitShaders.sum +
      (Initialize H M s prior)._NumMissShaders.sum
    omega

/-! ## The insertion offset of a miss stage -/

/-- C7, as stated, fails: (a) with `H = 1` and `M = 1`, in the state right after
`SetRaygenStage` the miss slot 0 is unpopulated, yet `AddStageToMissGroup(stage, 0)` does
not complete: after inserting the stage it inserts the group at position `1 + H + 0 = 2` of
a group list of length 1, which is beyond its end; (b) when `Initialize(2, 2, 32)` is called
on a helper that still holds the counters of two registered hit groups, no hit group has
been registered since, yet the offset computed for miss slot 0 is `3`, beyond the end of
the stage list `[raygen]`. -/
theorem C7_counterexample :
    populate 1 1 32 RTXHelper.new sampleRaygen [] =
      .ok { Initialize 1 1 32 RTXHelper.new with
        _Stages := [sampleRaygen], _Groups := [raygenGroup] } ∧
    ({ Initialize 1 1 32 RTXHelper.new with
        _Stages := [sampleRaygen], _Groups := [raygenGroup] } : RTXHelper)._NumMissShaders = [0] ∧
    AddStageToMissGroup sampleMiss 0
      { Initialize 1 1 32 RTXHelper.new with
        _Stages := [sampleRaygen], _Groups := [raygenGroup] } = .undefinedBehaviour ∧
    populate 2 2 32 sampleTwoHits sampleRaygen [] =
      .ok { sampleAfterRaygen with _NumHitShaders := [1, 1] } ∧
    missStageOffset { sampleAfterRaygen with _NumHitShaders := [1, 1] } 0 = 3 ∧
    AddStageToMissGroup sampleMiss 0 { sampleAfterRaygen with _NumHitShaders := [1, 1] } =
      .undefinedBehaviour := by
  decide

/-- C7 (amended): in every state `h` reached by `Initialize(H, M, s)` on a helper with clear
counters, `SetRaygenStage` and returning registration calls `regs`, for every unpopulated
miss index `g < M` whose group-list position `1 + H + g` is within the group list,
`AddStageToMissGroup(stage, g)` returns; it inserts the stage into the stage list at offset
`1 + (sum of the stage counts of the hit groups registered by regs) + (number of miss groups
registered by regs at indices below g)`, and the group it inserts (at position `1 + H + g`)
is a general group whose `generalShader` is that same offset. -/
theorem C7_miss_insertion_offset (H M s : Nat) (prior : RTXHelper)
    (raygen stage : VkPipelineShaderStageCreateInfo) (regs : List Registration)
    (h : RTXHelper) (g : Nat)
    (hclear : CountersClear prior) (hfit : 3 * H + M + 1 < 4294967296)
    (hrun : populate H M s prior raygen regs = .ok h)
    (hg : g < M) (hfree : h._NumMissShaders.getD g 0 = 0)
    (hpos : 1 + H + g ≤ h._Groups.length) :
    ∃ h' : RTXHelper, AddStageToMissGroup stage g h = .ok h' ∧
      1 + hitStageTotal regs + missBelow regs g ≤ h._Stages.length ∧
      h'._Stages = h._Stages.take (1 + hitStageTotal regs + missBelow regs g) ++ [stage] ++
        h._Stages.drop (1 + hitStageTotal regs + missBelow regs g) ∧
      h'._Stages[1 + hitStageTotal regs + missBelow regs g]? = some stage ∧
      h'._Groups = h._Groups.take (1 + H + g) ++
        [missGroupInfo (1 + hitStageTotal regs + missBelow regs g)] ++
        h._Groups.drop (1 + H + g) ∧
      h'._Groups[1 + H + g]? = some (missGroupInfo (1 + hitStageTotal regs + missBelow regs g)) ∧
      (missGroupInfo (1 + hitStageTotal regs + missBelow regs g)).type = .GENERAL ∧
      (missGroupInfo (1 + hitStageTotal regs + missBelow regs g)).generalShader =
        1 + hitStageTotal regs + missBelow regs g := by
  obtain ⟨hHcfg, _, _, hlenH, hlenM, hne⟩ := populate_config hrun
  obtain ⟨t1, t2, t3⟩ := populate_totals hclear hrun
  have hin : CountersInRange h :=
    populate_CountersInRange (CountersInRange_of_clear hclear) hrun
  have hoff : missStageOffset h g = 1 + hitStageTotal regs + missBelow regs g := by
    rw [missStageOffset_eq h g hin (by rw [hlenH, hlenM]; exact hfit), sum_take_succ, hfree,
      t1, t2 g]
    omega
  have hle : missStageOffset h g ≤ h._Stages.length := by
    rw [missStageOffset_eq h g hin (by rw [hlenH, hlenM]; exact hfit), t3]
    have := sum_take_le_sum h._NumMissShaders (g + 1)
    omega
  have hgp : u32 (u32 (g + 1) + h._NumHitGroups) = 1 + H + g := by
    rw [hHcfg, u32_of_lt (n := g + 1) (by omega), u32_of_lt (by omega)]
    omega
  have hcall := AddStageToMissGroup_of stage g h hne (by rw [hlenM]; exact hg) hfree hle
    (by rw [hgp]; exact hpos)
  rw [hgp, hoff] at hcall
  rw [hoff] at hle
  refine ⟨_, hcall, hle, rfl, ?_, rfl, ?_, rfl, rfl⟩
  · have := getElem?_insert h._Stages [stage] _ 0 hle (by simp)
    simpa using this
  · have := getElem?_insert h._Groups
      [missGroupInfo (1 + hitStageTotal regs + missBelow regs g)] _ 0 hpos (by simp)
    simpa using this

/-- C7 (amended) at a concrete input: after both hit groups of the application are
registered, `AddStageToMissGroup(miss, 0)` inserts at offset `1 + 2 + 0 = 3`. -/
theorem C7_miss_insertion_offset_witness :
    populate 2 2 32 RTXHelper.new sampleRaygen
      [.hit [sampleChit] 0, .hit [sampleShadowChit] 1] = .ok sampleTwoHits ∧
    1 + hitStageTotal [.hit [sampleChit] 0, .hit [sampleShadowChit] 1] +
      missBelow [.hit [sampleChit] 0, .hit [sampleShadowChit] 1] 0 = 3 ∧
    AddStageToMissGroup sampleMiss 0 sampleTwoHits = .ok sampleOneMiss ∧
    sampleOneMiss._Stages[3]? = some sampleMiss ∧
    sampleOneMiss._Groups[1 + 2 + 0]? = some (missGroupInfo 3) :=
  have hrun : populate 2 2 32 RTXHelper.new sampleRaygen
      [.hit [sampleChit] 0, .hit [sampleShadowChit] 1] = .ok sampleTwoHits := by decide
  have hthm := C7_miss_insertion_offset 2 2 32 RTXHelper.new sampleRaygen sampleMiss
    [.hit [sampleChit] 0, .hit [sampleShadowChit] 1] sampleTwoHits 0
    ⟨by decide, by decide⟩ (by decide) hrun (by decide) (by decide) (by decide)
  have hcall : AddStageToMissGroup sampleMiss 0 sampleTwoHits = .ok sampleOneMiss := by decide
  hthm.elim fun h' hh =>
    have heq : h' = sampleOneMiss := Outcome.ok.inj (hh.1.symm.trans hcall)
    ⟨hrun, by decide, hcall, heq ▸ hh.2.2.2.1, heq ▸ hh.2.2.2.2.2.1⟩

/-! ## Registration in ascending slot order -/

theorem insert_at_end {α : Type} (xs ys : List α) :
    xs.take xs.length ++ ys ++ xs.drop xs.length = xs ++ ys := by
  simp

theorem length_expectedHitGroups :
    ∀ (hs : List (List VkPipelineShaderStageCreateInfo)) (offset : Nat),
      (expectedHitGroups offset hs).length = hs.length := by
  intro hs
  induction hs with
  | nil => intro offset; rfl
  | cons ss rest ih => intro offset; simp [expectedHitGroups, ih]

theorem length_expectedMissGroups :
    ∀ (ms : List VkPipelineShaderStageCreateInfo) (offset : Nat),
      (expectedMissGroups offset ms).length = ms.length := by
  intro ms
  induction ms with
  | nil => intro offset; rfl
  | cons m rest ih => intro offset; simp [expectedMissGroups, ih]

theorem expectedHitGroups_append :
    ∀ (a b : List (List VkPipelineShaderStageCreateInfo)) (offset : Nat),
      expectedHitGroups offset (a ++ b) =
        expectedHitGroups offset a ++ expectedHitGroups (offset + stageTotal a) b := by
  intro a
  induction a with
  | nil => intro b offset; simp [expectedHitGroups, stageTotal]
  | cons ss rest ih =>
    intro b offset
    show expectedHitGroups offset (ss :: (rest ++ b)) = _
    simp only [expectedHitGroups]
    rw [ih]
    simp only [stageTotal, List.map_cons, List.sum_cons, Nat.add_assoc, List.cons_append]

theorem expectedMissGroups_append :
    ∀ (a b : List VkPipelineShaderStageCreateInfo) (offset : Nat),
      expectedMissGroups offset (a ++ b) =
        expectedMissGroups offset a ++ expectedMissGroups (offset + a.length) b := by
  intro a
  induction a with
  | nil => intro b offset; simp [expectedMissGroups]
  | cons m rest ih =>
    intro b offset
    show expectedMissGroups offset (m :: (rest ++ b)) = _
    simp only [expectedMissGroups]
    rw [ih]
    have : offset + 1 + rest.length = offset + (rest.length + 1) := by omega
    rw [this]
    rfl

theorem stageTotal_append (a b : List (List VkPipelineShaderStageCreateInfo)) :
    stageTotal (a ++ b) = stageTotal a + stageTotal b := by
  simp [stageTotal]

theorem getD_append_replicate_zero (xs : List Nat) (n : Nat) :
    (xs ++ List.replicate n 0).getD xs.length 0 = 0 := by
  rw [List.getD_eq_getElem?_getD, List.getElem?_append_right (Nat.le_refl _), Nat.sub_self]
  cases n with
  | zero => rfl
  | succ m => simp

theorem take_succ_append_replicate (xs : List Nat) (n : Nat) :
    (xs ++ List.replicate (n + 1) 0).take (xs.length + 1) = xs ++ [0] := by
  rw [List.take_append_eq_append_take, List.take_of_length_le (by omega)]
  congr 1
  simp [List.replicate_succ]

theorem set_append_replicate (xs : List Nat) (n v : Nat) :
    (xs ++ List.replicate (n + 1) 0).set xs.length v = xs ++ [v] ++ List.replicate n 0 := by
  rw [List.set_append_right _ _ (Nat.le_refl _), Nat.sub_self, List.replicate_succ,
    List.set_cons_zero, List.append_assoc]
  rfl

theorem sum_map_one {α : Type} (xs : List α) : (xs.map (fun _ => 1)).sum = xs.length := by
  induction xs with
  | nil => rfl
  | cons x rest ih =>
    simp only [List.map_cons, List.sum_cons, List.length_cons, ih]
    omega

/-- Registering the next hit slot in ascending order appends the stages and the group. -/
theorem hit_step (base : RTXHelper) (raygen : VkPipelineShaderStageCreateInfo)
    (hsDone : List (List VkPipelineShaderStageCreateInfo)) (n nMiss : Nat)
    (stages : List VkPipelineShaderStageCreateInfo)
    (hne : stages ≠ []) (hle : stages.length ≤ 3)
    (hfit : 1 + stageTotal hsDone < 4294967296) :
    AddStageToHitGroup stages hsDone.length
        (expectedState base raygen hsDone (n + 1) [] nMiss) =
      .ok (expectedState base raygen (hsDone ++ [stages]) n [] nMiss) := by
  have hoff : hitStageOffset (expectedState base raygen hsDone (n + 1) [] nMiss)
      hsDone.length = 1 + stageTotal hsDone := by
    unfold hitStageOffset expectedState
    simp only
    have htake := take_succ_append_replicate (hsDone.map List.length) n
    rw [List.length_map] at htake
    have hfit' : 1 + (hsDone.map List.length).sum < 4294967296 := hfit
    rw [htake, addAllU32_eq_sum _ _
      (by simp only [List.sum_append, List.sum_cons, List.sum_nil]; omega)]
    simp [stageTotal]
  have hlenS : (expectedState base raygen hsDone (n + 1) [] nMiss)._Stages.length =
      1 + stageTotal hsDone := by
    simp [expectedState, stageTotal]
    omega
  have hlenG : (expectedState base raygen hsDone (n + 1) [] nMiss)._Groups.length =
      1 + hsDone.length := by
    simp [expectedState, length_expectedHitGroups, expectedMissGroups]
    omega
  have hcall := AddStageToHitGroup_of stages hsDone.length
    (expectedState base raygen hsDone (n + 1) [] nMiss)
    (by simp [expectedState]) (by simp [expectedState])
    hne hle
    (by
      have := getD_append_replicate_zero (hsDone.map List.length) (n + 1)
      rw [List.length_map] at this
      exact this)
    (by rw [hoff, hlenS]) (by rw [hlenG])
  rw [hcall, hoff]
  congr 1
  have e1 : 1 + stageTotal hsDone =
      (expectedState base raygen hsDone (n + 1) [] nMiss)._Stages.length := hlenS.symm
  have e2 : 1 + hsDone.length =
      (expectedState base raygen hsDone (n + 1) [] nMiss)._Groups.length := hlenG.symm
  have e3 := set_append_replicate (hsDone.map List.length) n stages.length
  rw [List.length_map] at e3
  rw [e2]
  conv_lhs => rw [e1]
  rw [insert_at_end, insert_at_end]
  simp only [expectedState, List.append_nil, expectedMissGroups, e3, List.map_append,
    List.map_cons, List.map_nil, List.flatten_append, List.flatten_cons, List.flatten_nil,
    expectedHitGroups_append, expectedHitGroups, List.cons_append, List.length_cons,
    List.length_append, List.length_flatten]
  simp [stageTotal, Nat.add_comm]

/-- Registering the next miss slot in ascending order, after all hit slots, appends the
stage and the group. -/
theorem miss_step (base : RTXHelper) (raygen : VkPipelineShaderStageCreateInfo)
    (hs : List (List VkPipelineShaderStageCreateInfo))
    (msDone : List VkPipelineShaderStageCreateInfo) (n : Nat)
    (stage : VkPipelineShaderStageCreateInfo)
    (hbase : base._NumHitGroups = hs.length)
    (hfit : 1 + stageTotal hs + msDone.length < 4294967296)
    (hpos : msDone.length + 1 + hs.length < 4294967296) :
    AddStageToMissGroup stage msDone.length
        (expectedState base raygen hs 0 msDone (n + 1)) =
      .ok (expectedState base raygen hs 0 (msDone ++ [stage]) n) := by
  have hfit' : 1 + (hs.map List.length).sum + msDone.length < 4294967296 := hfit
  have hoff : missStageOffset (expectedState base raygen hs 0 msDone (n + 1))
      msDone.length = 1 + stageTotal hs + msDone.length := by
    unfold missStageOffset expectedState
    simp only [List.replicate_zero, List.append_nil]
    have htake := take_succ_append_replicate (msDone.map (fun _ => 1)) n
    rw [List.length_map] at htake
    rw [htake, addAllU32_eq_sum _ 1 (by omega), addAllU32_eq_sum _ _
      (by simp only [List.sum_append, List.sum_cons, List.sum_nil, sum_map_one]; omega)]
    simp only [List.sum_append, List.sum_cons, List.sum_nil, sum_map_one, stageTotal]
    omega
  have hlenS : (expectedState base raygen hs 0 msDone (n + 1))._Stages.length =
      1 + stageTotal hs + msDone.length := by
    simp [expectedState, stageTotal]
    omega
  have hlenG : (expectedState base raygen hs 0 msDone (n + 1))._Groups.length =
      1 + hs.length + msDone.length := by
    simp [expectedState, length_expectedHitGroups, length_expectedMissGroups]
    omega
  have hgp : u32 (u32 (msDone.length + 1) +
      (expectedState base raygen hs 0 msDone (n + 1))._NumHitGroups) =
      (expectedState base raygen hs 0 msDone (n + 1))._Groups.length := by
    rw [hlenG]
    show u32 (u32 (msDone.length + 1) + base._NumHitGroups) = _
    rw [hbase, u32_of_lt (n := msDone.length + 1) (by omega), u32_of_lt (by omega)]
    omega
  have hcall := AddStageToMissGroup_of stage msDone.length
    (expectedState base raygen hs 0 msDone (n + 1))
    (by simp [expectedState]) (by simp [expectedState])
    (by
      have := getD_append_replicate_zero (msDone.map (fun _ => 1)) (n + 1)
      rw [List.length_map] at this
      exact this)
    (by rw [hoff, hlenS]) (by rw [hgp])
  rw [hcall, hgp, hoff]
  congr 1
  have e1 : 1 + stageTotal hs + msDone.length =
      (expectedState base raygen hs 0 msDone (n + 1))._Stages.length := hlenS.symm
  have e3 := set_append_replicate (msDone.map (fun _ => 1)) n 1
  rw [List.length_map] at e3
  conv_lhs => rw [e1]
  rw [insert_at_end, insert_at_end]
  simp only [expectedState, e3, List.map_append, List.map_cons, List.map_nil,
    expectedMissGroups_append, expectedMissGroups, List.cons_append, List.length_cons,
    List.length_append, List.length_flatten, List.append_assoc, List.replicate_zero,
    List.append_nil]
  simp [stageTotal, Nat.add_comm, Nat.add_left_comm, Nat.add_assoc]

theorem register_append (a b : List Registration) :
    ∀ h : RTXHelper, register (a ++ b) h = (register a h).andThen (register b) := by
  induction a with
  | nil => intro h; rfl
  | cons r rest ih =>
    intro h
    show (r.call h).andThen (register (rest ++ b)) =
      ((r.call h).andThen (register rest)).andThen (register b)
    cases r.call h with
    | ok h1 => exact ih h1
    | assertFailed h1 => rfl
    | undefinedBehaviour => rfl

/-- Registering the hit stage lists `todo` in ascending slot order, after `done`, returns
and reaches the expected state. -/
theorem register_canonicalHits (base : RTXHelper) (raygen : VkPipelineShaderStageCreateInfo)
    (nMiss : Nat) :
    ∀ (todo done : List (List VkPipelineShaderStageCreateInfo)),
      (∀ ss ∈ todo, ss ≠ [] ∧ ss.length ≤ 3) →
      1 + stageTotal (done ++ todo) < 4294967296 →
      register (canonicalHits done.length todo)
          (expectedState base raygen done todo.length [] nMiss) =
        .ok (expectedState base raygen (done ++ todo) 0 [] nMiss) := by
  intro todo
  induction todo with
  | nil =>
    intro done _ _
    simp [canonicalHits, register]
  | cons ss rest ih =>
    intro done hall hfit
    have hss := hall ss (List.mem_cons_self _ _)
    rw [stageTotal_append] at hfit
    have hfit1 : 1 + stageTotal done < 4294967296 := by omega
    have hstep := hit_step base raygen done rest.length nMiss ss hss.1 hss.2 hfit1
    have hrest := ih (done ++ [ss]) (fun x hx => hall x (List.mem_cons_of_mem _ hx))
      (by
        rw [stageTotal_append, stageTotal_append]
        have : stageTotal (ss :: rest) = stageTotal [ss] + stageTotal rest := by
          simp [stageTotal]
        omega)
    have hlen : (done ++ [ss]).length = done.length + 1 := by simp
    rw [hlen, List.append_assoc] at hrest
    show (AddStageToHitGroup ss done.length
      (expectedState base raygen done (rest.length + 1) [] nMiss)).andThen
        (register (canonicalHits (done.length + 1) rest)) = _
    rw [hstep]
    exact hrest

/-- Registering the miss stages `todo` in ascending slot order, after all hit slots and
after `done`, returns and reaches the expected state. -/
theorem register_canonicalMisses (base : RTXHelper) (raygen : VkPipelineShaderStageCreateInfo)
    (hs : List (List VkPipelineShaderStageCreateInfo))
    (hbase : base._NumHitGroups = hs.length) :
    ∀ (todo done : List VkPipelineShaderStageCreateInfo),
      1 + stageTotal hs + (done ++ todo).length < 4294967296 →
      (done ++ todo).length + 1 + hs.length < 4294967296 →
      register (canonicalMisses done.length todo)
          (expectedState base raygen hs 0 done todo.length) =
        .ok (expectedState base raygen hs 0 (done ++ todo) 0) := by
  intro todo
  induction todo with
  | nil =>
    intro done _ _
    simp [canonicalMisses, register]
  | cons m rest ih =>
    intro done hfit hpos
    simp only [List.length_append, List.length_cons] at hfit hpos
    have hstep := miss_step base raygen hs done rest.length m hbase (by omega) (by omega)
    have hrest := ih (done ++ [m])
      (by simp only [List.length_append, List.length_cons, List.length_nil]; omega)
      (by simp only [List.length_append, List.length_cons, List.length_nil]; omega)
    have hlen : (done ++ [m]).length = done.length + 1 := by simp
    rw [hlen, List.append_assoc] at hrest
    show (AddStageToMissGroup m done.length
      (expectedState base raygen hs 0 done (rest.length + 1))).andThen
        (register (canonicalMisses (done.length + 1) rest)) = _
    rw [hstep]
    exact hrest

theorem vectorResize_clear (xs : List Nat) (n : Nat) (hz : ∀ c ∈ xs, c = 0) :
    vectorResize xs n 0 = List.replicate n 0 := by
  apply List.eq_replicate_iff.mpr
  refine ⟨vectorResize_length xs n 0, ?_⟩
  intro c hc
  rcases mem_vectorResize xs n c hc with h1 | h1
  · exact hz c h1
  · exact h1

theorem stageTotal_le (hs : List (List VkPipelineShaderStageCreateInfo))
    (hall : ∀ ss ∈ hs, ss ≠ [] ∧ ss.length ≤ 3) : stageTotal hs ≤ 3 * hs.length := by
  have := sum_le_of_forall_le 3 (hs.map List.length) (by
    intro c hc
    obtain ⟨ss, hss, rfl⟩ := List.mem_map.mp hc
    exact (hall ss hss).2)
  rw [List.length_map] at this
  exact this

/-- Registration in ascending slot order, hit slots first: the run returns and reaches the
expected state. -/
theorem populate_canonical (H M s : Nat) (prior : RTXHelper)
    (raygen : VkPipelineShaderStageCreateInfo)
    (hs : List (List VkPipelineShaderStageCreateInfo))
    (ms : List VkPipelineShaderStageCreateInfo)
    (hclear : CountersClear prior) (hH : hs.length = H) (hM : ms.length = M)
    (hall : ∀ ss ∈ hs, ss ≠ [] ∧ ss.length ≤ 3)
    (hfit : 3 * H + M + 1 < 4294967296) :
    populate H M s prior raygen (canonicalHits 0 hs ++ canonicalMisses 0 ms) =
      .ok (expectedState (Initialize H M s prior) raygen hs 0 ms 0) := by
  have htot := stageTotal_le hs hall
  have hstart : ({ Initialize H M s prior with
      _Stages := [raygen], _Groups := [raygenGroup] } : RTXHelper) =
      expectedState (Initialize H M s prior) raygen [] hs.length [] ms.length := by
    simp [expectedState, Initialize, expectedHitGroups, expectedMissGroups, hH, hM,
      vectorResize_clear _ _ hclear.1, vectorResize_clear _ _ hclear.2]
  unfold populate
  rw [SetRaygenStage_Initialize, hstart]
  show register (canonicalHits 0 hs ++ canonicalMisses 0 ms)
    (expectedState (Initialize H M s prior) raygen [] hs.length [] ms.length) = _
  rw [register_append]
  have hhits := register_canonicalHits (Initialize H M s prior) raygen ms.length hs []
    hall (by rw [List.nil_append]; omega)
  rw [List.length_nil, List.nil_append] at hhits
  rw [hhits]
  show register (canonicalMisses 0 ms)
    (expectedState (Initialize H M s prior) raygen hs 0 [] ms.length) = _
  have hmiss := register_canonicalMisses (Initialize H M s prior) raygen hs hH.symm ms []
    (by rw [List.nil_append]; omega) (by rw [List.nil_append]; omega)
  rw [List.length_nil, List.nil_append] at hmiss
  exact hmiss

theorem getElem?_expectedHitGroups :
    ∀ (hs : List (List VkPipelineShaderStageCreateInfo)) (offset k : Nat)
      (ss : List VkPipelineShaderStageCreateInfo), hs[k]? = some ss →
      (expectedHitGroups offset hs)[k]? =
        some (hitGroupInfo (offset + stageTotal (hs.take k)) ss) := by
  intro hs
  induction hs with
  | nil => intro offset k ss hk; simp at hk
  | cons x rest ih =>
    intro offset k ss hk
    cases k with
    | zero =>
      simp only [List.getElem?_cons_zero, Option.some.injEq] at hk
      simp [expectedHitGroups, stageTotal, hk]
    | succ k' =>
      simp only [List.getElem?_cons_succ] at hk
      have := ih (offset + x.length) k' ss hk
      simp only [expectedHitGroups, List.getElem?_cons_succ, this, List.take_succ_cons,
        stageTotal, List.map_cons, List.sum_cons, Nat.add_assoc]

theorem getElem?_expectedMissGroups :
    ∀ (ms : List VkPipelineShaderStageCreateInfo) (offset j : Nat), j < ms.length →
      (expectedMissGroups offset ms)[j]? = some (missGroupInfo (offset + j)) := by
  intro ms
  induction ms with
  | nil => intro offset j hj; simp at hj
  | cons x rest ih =>
    intro offset j hj
    cases j with
    | zero => simp [expectedMissGroups]
    | succ j' =>
      simp only [List.length_cons] at hj
      have := ih (offset + 1) j' (by omega)
      simp only [expectedMissGroups, List.getElem?_cons_succ, this]
      congr 2
      omega

/-! ## The group list after all slots are registered -/

/-- C4, as stated, fails: (a) with `H = 2` and `M = 0`, registering every hit slot once in
the order slot 1, slot 0 does not produce a group list: the first call inserts its group at
position `1 + 1 = 2` of a group list of length 1, which is beyond its end; (b) when
`Initialize(2, 2, 32)` is called on a helper that still holds the counters of two registered
hit groups, the first registration aborts on the assertion that its slot is free, and the
group list holds only the raygen group. -/
theorem C4_counterexample :
    AddStageToHitGroup [sampleShadowChit] 1
      { Initialize 2 0 32 RTXHelper.new with
        _Stages := [sampleRaygen], _Groups := [raygenGroup] } = .undefinedBehaviour ∧
    populate 2 0 32 RTXHelper.new sampleRaygen
      [.hit [sampleShadowChit] 1, .hit [sampleChit] 0] = .undefinedBehaviour ∧
    populate 2 2 32 sampleTwoHits sampleRaygen
      (canonicalHits 0 [[sampleChit], [sampleShadowChit]] ++
        canonicalMisses 0 [sampleMiss, sampleShadowMiss]) =
      .assertFailed { sampleAfterRaygen with _NumHitShaders := [1, 1] } := by
  decide

/-- C4 (amended): for every configured `(H, M)` whose maximal stage count `3 * H + M + 1`
fits 32 bits, on a helper with clear counters, after `Initialize`, `SetRaygenStage` and one
registration of every hit slot and then of every miss slot in ascending slot order (hit
stage lists `hs`, each of 1 to 3 stages; miss stages `ms`), every call returns and the
group list holds exactly `1 + H + M` groups (equal to `GetNu_Groups()`); group 0 is the
raygen group (general type, `generalShader = 0`); the group at index `1 + k` is the
triangle-hit group created for the `k`-th registered stage list; the group at index
`1 + H + j` is the general group created for the `j`-th registered miss stage, and its
`generalShader` is the index of that stage in the stage list. -/
theorem C4_groups_in_registration_order (H M s : Nat) (prior : RTXHelper)
    (raygen : VkPipelineShaderStageCreateInfo)
    (hs : List (List VkPipelineShaderStageCreateInfo))
    (ms : List VkPipelineShaderStageCreateInfo)
    (hclear : CountersClear prior) (hH : hs.length = H) (hM : ms.length = M)
    (hall : ∀ ss ∈ hs, ss ≠ [] ∧ ss.length ≤ 3)
    (hfit : 3 * H + M + 1 < 4294967296) :
    ∃ h : RTXHelper,
      populate H M s prior raygen (canonicalHits 0 hs ++ canonicalMisses 0 ms) = .ok h ∧
      h._Groups.length = 1 + H + M ∧ GetNu_Groups h = 1 + H + M ∧
      h._Groups[0]? = some raygenGroup ∧
      raygenGroup.type = .GENERAL ∧ raygenGroup.generalShader = 0 ∧
      (∀ (k : Nat) (ss : List VkPipelineShaderStageCreateInfo), hs[k]? = some ss →
        ∃ grp : VkRayTracingShaderGroupCreateInfoNV,
          h._Groups[1 + k]? = some grp ∧ grp.type = .TRIANGLES_HIT_GROUP ∧
          grp = hitGroupInfo (1 + stageTotal (hs.take k)) ss) ∧
      (∀ (j : Nat) (m : VkPipelineShaderStageCreateInfo), ms[j]? = some m →
        ∃ grp : VkRayTracingShaderGroupCreateInfoNV,
          h._Groups[1 + H + j]? = some grp ∧ grp.type = .GENERAL ∧
          grp = missGroupInfo (1 + stageTotal hs + j) ∧
          h._Stages[grp.generalShader]? = some m) := by
  refine ⟨expectedState (Initialize H M s prior) raygen hs 0 ms 0,
    populate_canonical H M s prior raygen hs ms hclear hH hM hall hfit, ?_, ?_, ?_, rfl, rfl,
    ?_, ?_⟩
  · simp [expectedState, length_expectedHitGroups, length_expectedMissGroups, hH, hM]
    omega
  · exact GetNu_Groups_of_lt _ (by
      show 1 + H + M < 4294967296
      omega)
  · simp [expectedState]
  · intro k ss hk
    have hklt : k < hs.length := by
      by_contra hcon
      rw [List.getElem?_eq_none (by omega)] at hk
      exact absurd hk (by simp)
    refine ⟨hitGroupInfo (1 + stageTotal (hs.take k)) ss, ?_,
      (hitGroupLoop_fixed _ ss 0 emptyHitGroup).1, rfl⟩
    show (raygenGroup :: (expectedHitGroups 1 hs ++
      expectedMissGroups (1 + stageTotal hs) ms))[1 + k]? = _
    rw [Nat.add_comm 1 k, List.getElem?_cons_succ,
      List.getElem?_append_left (by rw [length_expectedHitGroups]; exact hklt)]
    exact getElem?_expectedHitGroups hs 1 k ss hk
  · intro j m hjm
    have hj : j < ms.length := by
      by_contra hcon
      rw [List.getElem?_eq_none (by omega)] at hjm
      exact absurd hjm (by simp)
    refine ⟨missGroupInfo (1 + stageTotal hs + j), ?_, rfl, rfl, ?_⟩
    · show (raygenGroup :: (expectedHitGroups 1 hs ++
        expectedMissGroups (1 + stageTotal hs) ms))[1 + H + j]? = _
      have hidx : 1 + H + j = (hs.length + j) + 1 := by omega
      rw [hidx, List.getElem?_cons_succ,
        List.getElem?_append_right (by rw [length_expectedHitGroups]; omega),
        length_expectedHitGroups, Nat.add_sub_cancel_left]
      exact getElem?_expectedMissGroups ms _ j hj
    · show (raygen :: (hs.flatten ++ ms))[1 + stageTotal hs + j]? = some m
      have hflat : hs.flatten.length = stageTotal hs := List.length_flatten hs
      have hidx : 1 + stageTotal hs + j = (hs.flatten.length + j) + 1 := by omega
      rw [hidx, List.getElem?_cons_succ, List.getElem?_append_right (by omega),
        Nat.add_sub_cancel_left]
      exact hjm

/-- C4 (amended) at the application's configuration: two hit groups and two miss groups
registered in ascending order give the five groups of `sampleTable`. -/
theorem C4_groups_in_registration_order_witness :
    populate 2 2 32 RTXHelper.new sampleRaygen
      (canonicalHits 0 [[sampleChit], [sampleShadowChit]] ++
        canonicalMisses 0 [sampleMiss, sampleShadowMiss]) = .ok sampleTable ∧
    sampleTable._Groups.length = 1 + 2 + 2 ∧ GetNu_Groups sampleTable = 1 + 2 + 2 ∧
    sampleTable._Groups[0]? = some raygenGroup ∧
    sampleTable._Groups[1 + 1]? = some (hitGroupInfo 2 [sampleShadowChit]) ∧
    sampleTable._Groups[1 + 2 + 1]? = some (missGroupInfo 4) ∧
    sampleTable._Stages[(missGroupInfo 4).generalShader]? = some sampleShadowMiss :=
  have hrun : populate 2 2 32 RTXHelper.new sampleRaygen
      (canonicalHits 0 [[sampleChit], [sampleShadowChit]] ++
        canonicalMisses 0 [sampleMiss, sampleShadowMiss]) = .ok sampleTable := by decide
  have hthm := C4_groups_in_registration_order 2 2 32 RTXHelper.new sampleRaygen
    [[sampleChit], [sampleShadowChit]] [sampleMiss, sampleShadowMiss]
    ⟨by decide, by decide⟩ rfl rfl (by decide) (by decide)
  hthm.elim fun h hh =>
    have heq : h = sampleTable := Outcome.ok.inj (hh.1.symm.trans hrun)
    ⟨hrun, heq ▸ hh.2.1, heq ▸ hh.2.2.1, heq ▸ hh.2.2.2.1, by decide, by decide, by decide⟩

/-! ## Registration out of slot order -/

/-- C6 (code at the failing inputs): registering each slot once but not in ascending slot
order with hit slots first does not reach a final state.  With `H = M = 1`, miss slot 0
before hit slot 0; with `H = M = 2`, hit slot 1 before hit slot 0, or miss slot 1 before
miss slot 0: each run ends in an insertion beyond the end of the group list, while the
ascending order returns the table of the application. -/
theorem C6_out_of_order_registration :
    populate 1 1 32 RTXHelper.new sampleRaygen
      [.miss sampleMiss 0, .hit [sampleChit] 0] = .undefinedBehaviour ∧
    populate 2 2 32 RTXHelper.new sampleRaygen
      [.hit [sampleShadowChit] 1, .hit [sampleChit] 0, .miss sampleMiss 0,
        .miss sampleShadowMiss 1] = .undefinedBehaviour ∧
    populate 2 2 32 RTXHelper.new sampleRaygen
      [.hit [sampleChit] 0, .hit [sampleShadowChit] 1, .miss sampleShadowMiss 1,
        .miss sampleMiss 0] = .undefinedBehaviour ∧
    populate 2 2 32 RTXHelper.new sampleRaygen
      [.hit [sampleChit] 0, .miss sampleMiss 0, .hit [sampleShadowChit] 1,
        .miss sampleShadowMiss 1] = .undefinedBehaviour ∧
    populate 2 2 32 RTXHelper.new sampleRaygen
      [.hit [sampleChit] 0, .hit [sampleShadowChit] 1, .miss sampleMiss 0,
        .miss sampleShadowMiss 1] = .ok sampleTable := by
  decide

/-! ## Initialize, and the helper around CreateSBT -/

/-- C11 (code at the failing input): `Initialize` clears the stage list and the group
list and leaves exactly `H` hit counters and `M` miss counters, for every prior state; but
`resize` keeps the entries that are already there, so the counters are not all zero when
`Initialize` runs on a populated helper: `Initialize(2, 2, 32)` on the populated table
leaves the counters `[1, 1]` and `[1, 1]`, `Initialize(3, 1, 32)` leaves `[1, 1, 0]` and
`[1]`, and the next registration of hit slot 0 aborts on the assertion that the slot is
free. -/
theorem C11_Initialize_keeps_counters :
    (∀ (prior : RTXHelper) (H M s : Nat),
      (Initialize H M s prior)._Stages = [] ∧ (Initialize H M s prior)._Groups = [] ∧
      (Initialize H M s prior)._NumHitShaders.length = H ∧
      (Initialize H M s prior)._NumMissShaders.length = M) ∧
    (Initialize 2 2 32 sampleTable)._NumHitShaders = [1, 1] ∧
    (Initialize 2 2 32 sampleTable)._NumMissShaders = [1, 1] ∧
    (Initialize 3 1 32 sampleTable)._NumHitShaders = [1, 1, 0] ∧
    (Initialize 3 1 32 sampleTable)._NumMissShaders = [1] ∧
    populate 2 2 32 sampleTable sampleRaygen [.hit [sampleChit] 0] =
      .assertFailed { sampleAfterRaygen with
        _NumHitShaders := [1, 1], _NumMissShaders := [1, 1] } := by
  refine ⟨fun prior H M s => ⟨rfl, rfl, vectorResize_length _ _ _, vectorResize_length _ _ _⟩,
    ?_, ?_, ?_, ?_, ?_⟩ <;> decide

/-- C12, as stated, fails: a second `Initialize` without `Destroy` in between returns like
the first one and reconfigures the helper, here from `(2, 2, 32)` to `(3, 1, 16)`; so does
`Initialize` on the populated table. -/
theorem C12_counterexample :
    Initialize 3 1 16 (Initialize 2 2 32 RTXHelper.new) =
      { RTXHelper.new with
        _ShaderHeaderSize := 16, _NumHitGroups := 3, _NumMissGroups := 1,
        _NumHitShaders := [0, 0, 0], _NumMissShaders := [0] } ∧
    (Initialize 3 1 16 sampleTable)._NumHitGroups = 3 ∧
    (Initialize 3 1 16 sampleTable)._NumMissGroups = 1 ∧
    (Initialize 3 1 16 sampleTable)._ShaderHeaderSize = 16 ∧
    (Initialize 3 1 16 sampleTable)._Stages = [] := by
  decide

/-- C12 (amended): a second call of `Initialize`, with no `Destroy` in between and whatever
was registered after the first call, does not fail: it reconfigures the helper.  After it
the hit-group count, the miss-group count and the stride are those of the second call, the
stage list and the group list are empty, and there are as many hit and miss counters as the
second call asks for; the table buffer is not touched. -/
theorem C12_second_Initialize_reconfigures (prior : RTXHelper) (H M s H2 M2 s2 : Nat)
    (raygen : VkPipelineShaderStageCreateInfo) (regs : List Registration) :
    (Initialize H2 M2 s2 (Initialize H M s prior))._NumHitGroups = H2 ∧
    (Initialize H2 M2 s2 (Initialize H M s prior))._NumMissGroups = M2 ∧
    (Initialize H2 M2 s2 (Initialize H M s prior))._ShaderHeaderSize = s2 ∧
    (Initialize H2 M2 s2 (Initialize H M s prior))._Stages = [] ∧
    (Initialize H2 M2 s2 (Initialize H M s prior))._Groups = [] ∧
    (Initialize H2 M2 s2 (Initialize H M s prior))._NumHitShaders.length = H2 ∧
    (Initialize H2 M2 s2 (Initialize H M s prior))._NumMissShaders.length = M2 ∧
    (Initialize H2 M2 s2 (Initialize H M s prior)).rtxHelper = prior.rtxHelper ∧
    (∀ h : RTXHelper, populate H M s prior raygen regs = .ok h →
      GetNu_Groups (Initialize H2 M2 s2 h) = u32 (u32 (1 + H2) + M2) ∧
      GetGroupsStride (Initialize H2 M2 s2 h) = s2 ∧
      (Initialize H2 M2 s2 h)._Stages = [] ∧ (Initialize H2 M2 s2 h)._Groups = [] ∧
      (Initialize H2 M2 s2 h)._NumHitShaders.length = H2 ∧
      (Initialize H2 M2 s2 h)._NumMissShaders.length = M2) :=
  ⟨rfl, rfl, rfl, rfl, rfl, vectorResize_length _ _ _, vectorResize_length _ _ _, rfl,
    fun _ _ => ⟨rfl, rfl, rfl, rfl, vectorResize_length _ _ _, vectorResize_length _ _ _⟩⟩

/-- C12 (amended) at a concrete input: `Initialize(3, 1, 16)` after the application's table
was populated with `Initialize(2, 2, 32)`. -/
theorem C12_second_Initialize_reconfigures_witness :
    populate 2 2 32 RTXHelper.new sampleRaygen
      [.hit [sampleChit] 0, .hit [sampleShadowChit] 1, .miss sampleMiss 0,
        .miss sampleShadowMiss 1] = .ok sampleTable ∧
    GetNu_Groups (Initialize 3 1 16 sampleTable) = u32 (u32 (1 + 3) + 1) ∧
    GetGroupsStride (Initialize 3 1 16 sampleTable) = 16 ∧
    (Initialize 3 1 16 sampleTable)._Stages = [] ∧
    (Initialize 3 1 16 sampleTable)._Groups = [] :=
  have hrun : populate 2 2 32 RTXHelper.new sampleRaygen
      [.hit [sampleChit] 0, .hit [sampleShadowChit] 1, .miss sampleMiss 0,
        .miss sampleShadowMiss 1] = .ok sampleTable := by decide
  have hthm := (C12_second_Initialize_reconfigures RTXHelper.new 2 2 32 3 1 16 sampleRaygen
    [.hit [sampleChit] 0, .hit [sampleShadowChit] 1, .miss sampleMiss 0,
      .miss sampleShadowMiss 1]).2.2.2.2.2.2.2.2 sampleTable hrun
  ⟨hrun, hthm.1, hthm.2.1, hthm.2.2.1, hthm.2.2.2.1⟩

/-- `CreateSBT` changes nothing but the table buffer. -/
theorem CreateSBT_helper (checkAborts : Bool) (reply : BufferCreateReply) (handles : VkResult)
    (h : RTXHelper) :
    (CreateSBT checkAborts reply handles h).helper =
      h.withBuffer (h.rtxHelper.Create (GetSBTSize h) reply).2 := by
  unfold CreateSBT
  simp only
  split <;> rfl

/-- `SetRaygenStage` does not look at the table buffer. -/
theorem SetRaygenStage_withBuffer (stage : VkPipelineShaderStageCreateInfo) (b : Buffer)
    (h : RTXHelper) :
    SetRaygenStage stage (h.withBuffer b) =
      (SetRaygenStage stage h).map (RTXHelper.withBuffer b) := by
  unfold SetRaygenStage
  by_cases hs : h._Stages ≠ []
  · have hs' : (h.withBuffer b)._Stages ≠ [] := hs
    rw [if_pos hs, if_pos hs']
    rfl
  · have hs' : ¬ (h.withBuffer b)._Stages ≠ [] := hs
    rw [if_neg hs, if_neg hs']
    rfl

/-- A registration call does not look at the table buffer. -/
theorem call_withBuffer (r : Registration) (b : Buffer) (h : RTXHelper) :
    r.call (h.withBuffer b) = (r.call h).map (RTXHelper.withBuffer b) := by
  cases r with
  | hit stages g =>
    show AddStageToHitGroup stages g (h.withBuffer b) =
      (AddStageToHitGroup stages g h).map (RTXHelper.withBuffer b)
    unfold AddStageToHitGroup
    simp only [RTXHelper.withBuffer, hitStageOffset]
    split_ifs <;> try rfl
    cases vectorInsert h._Stages (addAllU32 1 (List.take (g + 1) h._NumHitShaders)) stages with
    | none => rfl
    | some stages1 =>
      show (match vectorInsert h._Groups (1 + g)
          [hitGroupInfo (addAllU32 1 (List.take (g + 1) h._NumHitShaders)) stages] with
        | none => Outcome.undefinedBehaviour
        | some groups1 => Outcome.ok _) = Outcome.map _ (match vectorInsert h._Groups (1 + g)
          [hitGroupInfo (addAllU32 1 (List.take (g + 1) h._NumHitShaders)) stages] with
        | none => Outcome.undefinedBehaviour
        | some groups1 => Outcome.ok _)
      cases vectorInsert h._Groups (1 + g)
        [hitGroupInfo (addAllU32 1 (List.take (g + 1) h._NumHitShaders)) stages] with
      | none => rfl
      | some groups1 => rfl
  | miss stage g =>
    show AddStageToMissGroup stage g (h.withBuffer b) =
      (AddStageToMissGroup stage g h).map (RTXHelper.withBuffer b)
    unfold AddStageToMissGroup
    simp only [RTXHelper.withBuffer, missStageOffset]
    split_ifs <;> try rfl
    cases vectorInsert h._Stages
      (addAllU32 (addAllU32 1 h._NumHitShaders) (List.take (g + 1) h._NumMissShaders))
      [stage] with
    | none => rfl
    | some stages1 =>
      show (match vectorInsert h._Groups (u32 (u32 (g + 1) + h._NumHitGroups))
          [missGroupInfo (addAllU32 (addAllU32 1 h._NumHitShaders)
            (List.take (g + 1) h._NumMissShaders))] with
        | none => Outcome.undefinedBehaviour
        | some groups1 => Outcome.ok _) = Outcome.map _
          (match vectorInsert h._Groups (u32 (u32 (g + 1) + h._NumHitGroups))
          [missGroupInfo (addAllU32 (addAllU32 1 h._NumHitShaders)
            (List.take (g + 1) h._NumMissShaders))] with
        | none => Outcome.undefinedBehaviour
        | some groups1 => Outcome.ok _)
      cases vectorInsert h._Groups (u32 (u32 (g + 1) + h._NumHitGroups))
        [missGroupInfo (addAllU32 (addAllU32 1 h._NumHitShaders)
          (List.take (g + 1) h._NumMissShaders))] with
      | none => rfl
      | some groups1 => rfl

/-- With every slot registered, every registration call aborts on an assertion. -/
theorem call_all_registered (r : Registration) (h : RTXHelper) (hfull : AllSlotsRegistered h) :
    r.call h = .assertFailed h := by
  cases r with
  | hit stages g =>
    by_cases hg : g < h._NumHitShaders.length
    · apply AddStageToHitGroup_populated
      rw [List.getD_eq_getElem?_getD, List.getElem?_eq_getElem hg]
      exact hfull.1 _ (List.getElem_mem hg)
    · show AddStageToHitGroup stages g h = .assertFailed h
      simp [AddStageToHitGroup, hg]
  | miss stage g =>
    by_cases hg : g < h._NumMissShaders.length
    · apply AddStageToMissGroup_populated
      rw [List.getD_eq_getElem?_getD, List.getElem?_eq_getElem hg]
      exact hfull.2 _ (List.getElem_mem hg)
    · show AddStageToMissGroup stage g h = .assertFailed h
      simp [AddStageToMissGroup, hg]

/-- C13, as stated, fails: (a) after a successful `CreateSBT` on a helper with hit slot 1
still free, `AddStageToHitGroup({shadow chit}, 1)` returns and the stage and group lists
grow; (b) after a successful `CreateSBT` right after `Initialize`, `SetRaygenStage`
returns. -/
theorem C13_counterexample :
    (CreateSBT false sampleBufferReply 0 sampleOneHit).ret = some true ∧
    AddStageToHitGroup [sampleShadowChit] 1
        (CreateSBT false sampleBufferReply 0 sampleOneHit).helper =
      .ok (sampleTwoHits.withBuffer { _Buffer := 7, _Memory := 9, _Size := 160 }) ∧
    (sampleTwoHits.withBuffer { _Buffer := 7, _Memory := 9, _Size := 160 })._Stages ≠
      (CreateSBT false sampleBufferReply 0 sampleOneHit).helper._Stages ∧
    (CreateSBT false sampleBufferReply 0 (Initialize 2 2 32 RTXHelper.new)).ret = some true ∧
    SetRaygenStage sampleRaygen
        (CreateSBT false sampleBufferReply 0 (Initialize 2 2 32 RTXHelper.new)).helper =
      .ok (sampleAfterRaygen.withBuffer { _Buffer := 7, _Memory := 9, _Size := 160 }) := by
  decide

/-- After `Destroy` the stage list is empty, so `SetRaygenStage` returns. -/
theorem SetRaygenStage_Destroy (h : RTXHelper) (raygen : VkPipelineShaderStageCreateInfo) :
    SetRaygenStage raygen (Destroy h) =
      .ok { Destroy h with _Stages := [raygen], _Groups := [raygenGroup] } := by
  simp [SetRaygenStage, Destroy]

/-- C13 (amended): `CreateSBT` changes only the table buffer and installs no guard: after
it, `SetRaygenStage` and the registration calls behave on every helper exactly as before it.
When the raygen stage and every hit and miss slot are registered (the state in which the
application calls `CreateSBT`), then after `CreateSBT`, whatever its result, every call of
`SetRaygenStage`, `AddStageToHitGroup` and `AddStageToMissGroup` aborts on an assertion,
every run of registration calls aborts at its first call, and the stage list, group list
and counters are those from before `CreateSBT`.  This lasts until the next `Initialize` or
`Destroy`: each of them empties the stage list, and `SetRaygenStage` returns again after
either. -/
theorem C13_after_CreateSBT (h : RTXHelper) (checkAborts : Bool) (reply : BufferCreateReply)
    (handles : VkResult) (hraygen : h._Stages ≠ []) (hfull : AllSlotsRegistered h) :
    (CreateSBT checkAborts reply handles h).helper._Stages = h._Stages ∧
    (CreateSBT checkAborts reply handles h).helper._Groups = h._Groups ∧
    (CreateSBT checkAborts reply handles h).helper._NumHitShaders = h._NumHitShaders ∧
    (CreateSBT checkAborts reply handles h).helper._NumMissShaders = h._NumMissShaders ∧
    (∀ stage : VkPipelineShaderStageCreateInfo,
      SetRaygenStage stage (CreateSBT checkAborts reply handles h).helper =
        .assertFailed (CreateSBT checkAborts reply handles h).helper) ∧
    (∀ r : Registration,
      r.call (CreateSBT checkAborts reply handles h).helper =
        .assertFailed (CreateSBT checkAborts reply handles h).helper) ∧
    (∀ (h0 : RTXHelper) (stage : VkPipelineShaderStageCreateInfo),
      SetRaygenStage stage (CreateSBT checkAborts reply handles h0).helper =
        (SetRaygenStage stage h0).map
          (RTXHelper.withBuffer (CreateSBT checkAborts reply handles h0).helper.rtxHelper)) ∧
    (∀ (h0 : RTXHelper) (r : Registration),
      r.call (CreateSBT checkAborts reply handles h0).helper =
        (r.call h0).map
          (RTXHelper.withBuffer (CreateSBT checkAborts reply handles h0).helper.rtxHelper)) ∧
    (∀ (r : Registration) (rest : List Registration),
      register (r :: rest) (CreateSBT checkAborts reply handles h).helper =
        .assertFailed (CreateSBT checkAborts reply handles h).helper) ∧
    (∀ (H2 M2 s2 : Nat) (stage : VkPipelineShaderStageCreateInfo),
      SetRaygenStage stage (Initialize H2 M2 s2 (CreateSBT checkAborts reply handles h).helper) =
        .ok { Initialize H2 M2 s2 (CreateSBT checkAborts reply handles h).helper with
          _Stages := [stage], _Groups := [raygenGroup] }) ∧
    (∀ stage : VkPipelineShaderStageCreateInfo,
      SetRaygenStage stage (Destroy (CreateSBT checkAborts reply handles h).helper) =
        .ok { Destroy (CreateSBT checkAborts reply handles h).helper with
          _Stages := [stage], _Groups := [raygenGroup] }) := by
  have hh := CreateSBT_helper checkAborts reply handles h
  have hfull' : AllSlotsRegistered (CreateSBT checkAborts reply handles h).helper := by
    rw [hh]
    exact hfull
  have hraygen' : (CreateSBT checkAborts reply handles h).helper._Stages ≠ [] := by
    rw [hh]
    exact hraygen
  refine ⟨by rw [hh]; rfl, by rw [hh]; rfl, by rw [hh]; rfl, by rw [hh]; rfl, ?_, ?_, ?_, ?_,
    ?_, ?_, ?_⟩
  · intro stage
    simp [SetRaygenStage, hraygen']
  · intro r
    exact call_all_registered r _ hfull'
  · intro h0 stage
    rw [CreateSBT_helper]
    exact SetRaygenStage_withBuffer stage _ h0
  · intro h0 r
    rw [CreateSBT_helper]
    exact call_withBuffer r _ h0
  · intro r rest
    show (r.call _).andThen (register rest) = _
    rw [call_all_registered r _ hfull']
    rfl
  · intro H2 M2 s2 stage
    exact SetRaygenStage_Initialize H2 M2 s2 _ stage
  · intro stage
    exact SetRaygenStage_Destroy _ stage

/-- C13 (amended) at the application's table: after `CreateSBT` on the populated table a
further registration and a further `SetRaygenStage` abort, and the lists are unchanged;
after a further `Initialize(2, 2, 32)`, which leaves the table buffer in place,
`SetRaygenStage` returns. -/
theorem C13_after_CreateSBT_witness :
    sampleTable._Stages ≠ [] ∧ AllSlotsRegistered sampleTable ∧
    (CreateSBT false sampleBufferReply 0 sampleTable).ret = some true ∧
    (CreateSBT false sampleBufferReply 0 sampleTable).helper._Stages = sampleTable._Stages ∧
    (CreateSBT false sampleBufferReply 0 sampleTable).helper._Groups = sampleTable._Groups ∧
    SetRaygenStage sampleRaygen (CreateSBT false sampleBufferReply 0 sampleTable).helper =
      .assertFailed (CreateSBT false sampleBufferReply 0 sampleTable).helper ∧
    (Registration.hit [sampleAhit] 1).call
        (CreateSBT false sampleBufferReply 0 sampleTable).helper =
      .assertFailed (CreateSBT false sampleBufferReply 0 sampleTable).helper ∧
    register [.miss sampleMiss 0, .hit [sampleChit] 0]
        (CreateSBT false sampleBufferReply 0 sampleTable).helper =
      .assertFailed (CreateSBT false sampleBufferReply 0 sampleTable).helper ∧
    SetRaygenStage sampleRaygen
        (Initialize 2 2 32 (CreateSBT false sampleBufferReply 0 sampleTable).helper) =
      .ok { Initialize 2 2 32 (CreateSBT false sampleBufferReply 0 sampleTable).helper with
        _Stages := [sampleRaygen], _Groups := [raygenGroup] } ∧
    (Initialize 2 2 32 (CreateSBT false sampleBufferReply 0 sampleTable).helper).rtxHelper =
      { _Buffer := 7, _Memory := 9, _Size := 160 } :=
  have hs : sampleTable._Stages ≠ [] := by decide
  have hf : AllSlotsRegistered sampleTable := ⟨by decide, by decide⟩
  have hthm := C13_after_CreateSBT sampleTable false sampleBufferReply 0 hs hf
  ⟨hs, hf, by decide, hthm.1, hthm.2.1, hthm.2.2.2.2.1 sampleRaygen,
    hthm.2.2.2.2.2.1 (.hit [sampleAhit] 1),
    hthm.2.2.2.2.2.2.2.2.1 (.miss sampleMiss 0) [.hit [sampleChit] 0],
    hthm.2.2.2.2.2.2.2.2.2.1 2 2 32 sampleRaygen, by decide⟩

/-- A successful `Buffer::Create` stores the handles the driver returned. -/
theorem Buffer.Create_success (size : Nat) (reply : BufferCreateReply) (b : Buffer)
    (hok : (b.Create size reply).1 = VK_SUCCESS) :
    (b.Create size reply).2 = { _Buffer := reply.buffer, _Memory := reply.memory, _Size := size } := by
  unfold Buffer.Create at hok ⊢
  simp only at hok ⊢
  split_ifs at hok ⊢ with c1 c2 c3
  · exact absurd hok c2
  · exact absurd hok c3
  · rfl
  · exact absurd hok c1

/-- C14, as stated, fails: when the buffer is created (handle 7) and the handle retrieval
reports an error, `CreateSBT` returns `false` but `GetSBTBuffer()` is still 7, not the null
handle: the buffer has not been released. -/
theorem C14_counterexample :
    (CreateSBT false sampleBufferReply (-1) (Initialize 2 2 32 RTXHelper.new)).ret =
      some false ∧
    (CreateSBT false sampleBufferReply (-1) (Initialize 2 2 32 RTXHelper.new)).calls =
      [.createBuffer 160, .getGroupHandles 0 5 160] ∧
    GetSBTBuffer
      (CreateSBT false sampleBufferReply (-1) (Initialize 2 2 32 RTXHelper.new)).helper = 7 ∧
    GetSBTBuffer
      (CreateSBT false sampleBufferReply (-1) (Initialize 2 2 32 RTXHelper.new)).helper ≠
        VK_NULL_HANDLE := by
  decide

/-- C14 (amended): when the table buffer has been created and the group-handle retrieval
reports an error, `CreateSBT` returns `false` if `CHECK_VK_ERROR` lets execution continue
(and does not return if the macro ends the program); in both cases the table buffer it
allocated is kept: `GetSBTBuffer()` is the handle of the created buffer and its memory
handle is the allocated one.  The buffer is released by `Destroy`, after which
`GetSBTBuffer()` is the null handle. -/
theorem C14_handle_retrieval_failure (h : RTXHelper) (reply : BufferCreateReply)
    (handles : VkResult)
    (hcreate : (h.rtxHelper.Create (GetSBTSize h) reply).1 = VK_SUCCESS)
    (herr : handles ≠ VK_SUCCESS) :
    (CreateSBT false reply handles h).ret = some false ∧
    (CreateSBT true reply handles h).ret = none ∧
    (∀ checkAborts : Bool,
      GetSBTBuffer (CreateSBT checkAborts reply handles h).helper = reply.buffer ∧
      (CreateSBT checkAborts reply handles h).helper.rtxHelper._Memory = reply.memory ∧
      GetSBTBuffer (Destroy (CreateSBT checkAborts reply handles h).helper) =
        VK_NULL_HANDLE) := by
  have hne : VK_SUCCESS ≠ handles := fun e => herr e.symm
  refine ⟨?_, ?_, ?_⟩
  · unfold CreateSBT
    simp [hcreate, hne]
  · unfold CreateSBT
    simp [hcreate, hne]
  · intro checkAborts
    rw [CreateSBT_helper, Buffer.Create_success _ _ _ hcreate]
    exact ⟨rfl, rfl, rfl⟩

/-- C14 (amended) at a concrete input: buffer 7 with memory 9 is created, the handle
retrieval fails. -/
theorem C14_handle_retrieval_failure_witness :
    ((Initialize 2 2 32 RTXHelper.new).rtxHelper.Create
      (GetSBTSize (Initialize 2 2 32 RTXHelper.new)) sampleBufferReply).1 = VK_SUCCESS ∧
    (-1 : VkResult) ≠ VK_SUCCESS ∧
    (CreateSBT false sampleBufferReply (-1) (Initialize 2 2 32 RTXHelper.new)).ret =
      some false ∧
    (CreateSBT true sampleBufferReply (-1) (Initialize 2 2 32 RTXHelper.new)).ret = none ∧
    GetSBTBuffer
      (CreateSBT false sampleBufferReply (-1) (Initialize 2 2 32 RTXHelper.new)).helper =
        sampleBufferReply.buffer ∧
    GetSBTBuffer (Destroy
      (CreateSBT false sampleBufferReply (-1) (Initialize 2 2 32 RTXHelper.new)).helper) =
        VK_NULL_HANDLE :=
  have hthm := C14_handle_retrieval_failure (Initialize 2 2 32 RTXHelper.new)
    sampleBufferReply (-1) (by decide) (by decide)
  ⟨by decide, by decide, hthm.1, hthm.2.1, (hthm.2.2 false).1, (hthm.2.2 false).2.2⟩

/-! ## The scene set-up: acceleration structures, scratch size and build commands -/

/-- `CreateAS` stores the structure info it was called with, whatever the driver answers. -/
theorem CreateAS_info (c : Bool) (type : VkAccelerationStructureTypeNV) (g : Nat)
    (p : Option Nat) (n : Nat) (reply : CreateASReply) (as : RTAccelerationStructure) :
    (CreateAS c type g p n reply as).as.accelerationStructureInfo =
      { type := type, flags := VK_BUILD_ACCELERATION_STRUCTURE_PREFER_FAST_TRACE_BIT_NV,
        instanceCount := n, geometryCount := g, pGeometries := p } := by
  unfold CreateAS
  simp only
  split_ifs <;> rfl

/-- The first Vulkan call of `CreateAS` creates the structure with the info it was called
with. -/
theorem CreateAS_first_call (c : Bool) (type : VkAccelerationStructureTypeNV) (g : Nat)
    (p : Option Nat) (n : Nat) (reply : CreateASReply) (as : RTAccelerationStructure) :
    (CreateAS c type g p n reply as).calls.head? =
      some (.createAccelerationStructure
        { type := type, flags := VK_BUILD_ACCELERATION_STRUCTURE_PREFER_FAST_TRACE_BIT_NV,
          instanceCount := n, geometryCount := g, pGeometries := p }) := by
  unfold CreateAS
  simp only
  split_ifs <;> rfl

/-- When `CHECK_VK_ERROR` lets execution continue, `CreateAS` returns. -/
theorem CreateAS_continue (type : VkAccelerationStructureTypeNV) (g : Nat)
    (p : Option Nat) (n : Nat) (reply : CreateASReply) (as : RTAccelerationStructure) :
    (CreateAS false type g p n reply as).ret ≠ none := by
  unfold CreateAS
  simp only [Bool.false_eq_true, if_false]
  split_ifs <;> simp

/-- The first loop of `CreateScene` keeps the number of meshes. -/
theorem createBottomLevel_length (c : Bool) (d : SceneDriver) (i : Nat) (ms : List RTMesh) :
    (createBottomLevel c d i ms).meshes.length = ms.length := by
  induction ms generalizing i with
  | nil => rfl
  | cons m rest ih =>
    simp only [createBottomLevel]
    split
    · rfl
    · simp only [List.length_cons, ih]

/-- When `CHECK_VK_ERROR` lets execution continue, the first loop of `CreateScene` runs to
its end. -/
theorem createBottomLevel_continue (d : SceneDriver) (i : Nat) (ms : List RTMesh) :
    (createBottomLevel false d i ms).aborted = false := by
  induction ms generalizing i with
  | nil => rfl
  | cons m rest ih =>
    simp only [createBottomLevel]
    split
    · next hr => exact absurd hr (CreateAS_continue _ _ _ _ _ _)
    · exact ih _

/-- After the first loop of `CreateScene` has run to its end, every mesh has a bottom-level
structure info. -/
theorem createBottomLevel_type (c : Bool) (d : SceneDriver) (i : Nat) (ms : List RTMesh)
    (hrun : (createBottomLevel c d i ms).aborted = false) :
    ∀ m ∈ (createBottomLevel c d i ms).meshes,
      m.blas.accelerationStructureInfo.type = .BOTTOM_LEVEL := by
  induction ms generalizing i with
  | nil => intro m hm; simp [createBottomLevel] at hm
  | cons m rest ih =>
    simp only [createBottomLevel] at hrun ⊢
    split at hrun
    · simp at hrun
    · intro m1 hm1
      simp only [List.mem_cons] at hm1
      rcases hm1 with rfl | hm1
      · simp only [CreateAS_info]
      · exact ih _ hrun m1 hm1

/-- The recording loop of `CreateScene` records two commands per mesh. -/
theorem recordBottomLevel_length (s i : Nat) (ms : List RTMesh) :
    (recordBottomLevel s i ms).length = 2 * ms.length := by
  induction ms generalizing i with
  | nil => rfl
  | cons m rest ih =>
    simp only [recordBottomLevel, List.length_cons, ih]
    omega

/-- Command `2 * j` of the recording loop is the build of mesh `j`. -/
theorem recordBottomLevel_build (s i : Nat) (ms : List RTMesh) (j : Nat) (m : RTMesh)
    (hm : ms[j]? = some m) :
    (recordBottomLevel s i ms)[2 * j]? =
      some (.buildAccelerationStructure (bottomLevelBuildInfo (i + j) m) VK_NULL_HANDLE 0 false
        m.blas.accelerationStructure VK_NULL_HANDLE s 0) := by
  induction ms generalizing i j with
  | nil => simp at hm
  | cons m0 rest ih =>
    cases j with
    | zero =>
      simp only [List.getElem?_cons_zero, Option.some.injEq] at hm
      subst hm
      rfl
    | succ k =>
      simp only [List.getElem?_cons_succ] at hm
      have h2 : 2 * (k + 1) = (2 * k + 1) + 1 := by omega
      rw [h2]
      simp only [recordBottomLevel, List.getElem?_cons_succ]
      rw [ih (i + 1) k hm]
      have h3 : i + 1 + k = i + (k + 1) := by omega
      rw [h3]

/-- Command `2 * j + 1` of the recording loop is the barrier after the build of mesh `j`. -/
theorem recordBottomLevel_barrier (s i : Nat) (ms : List RTMesh) (j : Nat)
    (hj : j < ms.length) :
    (recordBottomLevel s i ms)[2 * j + 1]? = some buildBarrier := by
  induction ms generalizing i j with
  | nil => simp at hj
  | cons m0 rest ih =>
    cases j with
    | zero => simp [recordBottomLevel]
    | succ k =>
      simp only [List.length_cons, Nat.add_lt_add_iff_right] at hj
      have h2 : 2 * (k + 1) + 1 = (2 * k + 1 + 1) + 1 := by omega
      rw [h2]
      simp only [recordBottomLevel, List.getElem?_cons_succ]
      exact ih (i + 1) k hj

/-- The recording loop records one bottom-level build per mesh whose info is bottom-level. -/
theorem recordBottomLevel_count (s i : Nat) (ms : List RTMesh)
    (htype : ∀ m ∈ ms, m.blas.accelerationStructureInfo.type = .BOTTOM_LEVEL) :
    (recordBottomLevel s i ms).countP (Command.isBuildOf .BOTTOM_LEVEL) = ms.length ∧
    (recordBottomLevel s i ms).countP (Command.isBuildOf .TOP_LEVEL) = 0 := by
  induction ms generalizing i with
  | nil => exact ⟨rfl, rfl⟩
  | cons m rest ih =>
    have hm := htype m (List.mem_cons_self _ _)
    have hrest := ih (i + 1) (fun x hx => htype x (List.mem_cons_of_mem _ hx))
    have hb : Command.isBuildOf .BOTTOM_LEVEL buildBarrier = false := rfl
    have ht : Command.isBuildOf .TOP_LEVEL buildBarrier = false := rfl
    have h1 : Command.isBuildOf .BOTTOM_LEVEL
        (.buildAccelerationStructure (bottomLevelBuildInfo i m) VK_NULL_HANDLE 0 false
          m.blas.accelerationStructure VK_NULL_HANDLE s 0) = true := by
      simp [Command.isBuildOf, Command.buildInfo?, bottomLevelBuildInfo, hm]
    have h2 : Command.isBuildOf .TOP_LEVEL
        (.buildAccelerationStructure (bottomLevelBuildInfo i m) VK_NULL_HANDLE 0 false
          m.blas.accelerationStructure VK_NULL_HANDLE s 0) = false := by
      simp [Command.isBuildOf, Command.buildInfo?, bottomLevelBuildInfo, hm]
    simp only [recordBottomLevel, List.countP_cons, hb, ht, h1, h2, hrest.1, hrest.2,
      List.length_cons]
    simp

/-- Every build recorded by the recording loop has one geometry and no instance, and uses
the scratch buffer `s` at offset 0. -/
theorem recordBottomLevel_mem (s i : Nat) (ms : List RTMesh) (cmd : Command)
    (hcmd : cmd ∈ recordBottomLevel s i ms) :
    cmd = buildBarrier ∨
    ∃ info instanceData dst,
      cmd = .buildAccelerationStructure info instanceData 0 false dst VK_NULL_HANDLE s 0 ∧
      info.geometryCount = 1 ∧ info.instanceCount = 0 := by
  induction ms generalizing i with
  | nil => simp [recordBottomLevel] at hcmd
  | cons m rest ih =>
    simp only [recordBottomLevel, List.mem_cons] at hcmd
    rcases hcmd with rfl | rfl | hrest
    · exact Or.inr ⟨_, _, _, rfl, rfl, rfl⟩
    · exact Or.inl rfl
    · exact ih _ hrest

/-- The result of a `CreateScene` that ran to its end. -/
theorem CreateScene_run (c : Bool) (d : SceneDriver) (ms : List RTMesh)
    (t : RTAccelerationStructure) (hrun : (CreateScene c d ms t).aborted = false) :
    (createBottomLevel c d 0 ms).aborted = false ∧
    CreateScene c d ms t =
      { aborted := false
        meshes := recordedMeshes 0 (createBottomLevel c d 0 ms).meshes
        topLevelAS :=
          { (CreateAS c .TOP_LEVEL 0 none 1 d.tlas t).as with
            accelerationStructureInfo :=
              topLevelBuildInfo ms.length (CreateAS c .TOP_LEVEL 0 none 1 d.tlas t).as }
        geometries := (createBottomLevel c d 0 ms).geometries
        instances := (createBottomLevel c d 0 ms).instances
        calls := (createBottomLevel c d 0 ms).calls ++
          (CreateAS c .TOP_LEVEL 0 none 1 d.tlas t).calls
        instancesBuffer :=
          (Buffer.new.Create (ms.length * sizeofVkGeometryInstance) d.instancesBuffer).2
        scratchBufferSize :=
          scratchBufferSize ((List.range ms.length).map d.blasScratch) d.tlasScratch
        scratchBuffer :=
          (Buffer.new.Create
            (scratchBufferSize ((List.range ms.length).map d.blasScratch) d.tlasScratch)
            d.scratchBuffer).2
        commands :=
          recordBottomLevel
              (Buffer.new.Create
                (scratchBufferSize ((List.range ms.length).map d.blasScratch) d.tlasScratch)
                d.scratchBuffer).2.GetBuffer 0 (createBottomLevel c d 0 ms).meshes ++
            [.buildAccelerationStructure
                (topLevelBuildInfo ms.length (CreateAS c .TOP_LEVEL 0 none 1 d.tlas t).as)
                (Buffer.new.Create (ms.length * sizeofVkGeometryInstance)
                  d.instancesBuffer).2.GetBuffer 0 false
                (CreateAS c .TOP_LEVEL 0 none 1 d.tlas t).as.accelerationStructure
                VK_NULL_HANDLE
                (Buffer.new.Create
                  (scratchBufferSize ((List.range ms.length).map d.blasScratch) d.tlasScratch)
                  d.scratchBuffer).2.GetBuffer 0,
              buildBarrier]
        submitted := true } := by
  unfold CreateScene at hrun ⊢
  simp only at hrun ⊢
  split_ifs at hrun ⊢ with h1 h2 h3 h4 h5
  all_goals first
    | exact absurd hrun (by decide)
    | exact ⟨by simpa using h1, rfl⟩

/-- `UploadData` returns `true` whatever `Map` returns. -/
theorem Buffer.UploadData_fst (size : Nat) (mapMemory : VkResult) (b : Buffer) :
    (b.UploadData size mapMemory).1 = true := by
  unfold Buffer.UploadData
  cases b.Map size mapMemory <;> rfl

/-- When `CHECK_VK_ERROR` lets execution continue, `CreateScene` runs to its end. -/
theorem CreateScene_continue (d : SceneDriver) (ms : List RTMesh)
    (t : RTAccelerationStructure) : (CreateScene false d ms t).aborted = false := by
  unfold CreateScene
  simp only [createBottomLevel_continue, Buffer.UploadData_fst]
  have h := CreateAS_continue .TOP_LEVEL 0 none 1 d.tlas t
  simp [h]

/-- `Max` returns the larger of its arguments. -/
theorem Max_eq_max (a b : Nat) : Max a b = max a b := by
  unfold Max
  split_ifs <;> omega

/-- The loop over the meshes started from `a` computes the maximum of `a` and the
requirements. -/
theorem foldl_Max (sizes : List Nat) (a : Nat) :
    sizes.foldl Max a = max a (sizes.foldr max 0) := by
  induction sizes generalizing a with
  | nil => simp
  | cons b rest ih =>
    simp only [List.foldl_cons, List.foldr_cons, ih, Max_eq_max]
    omega

/-- The scratch size is the maximum of the requirements. -/
theorem scratchBufferSize_eq (sizes : List Nat) (t : Nat) :
    scratchBufferSize sizes t = max (sizes.foldr max 0) t := by
  unfold scratchBufferSize maximumBlasSize
  rw [Max_eq_max, foldl_Max]
  omega

/-- Every element of a list is at most the maximum of the list. -/
theorem le_foldr_max (sizes : List Nat) (b : Nat) (hb : b ∈ sizes) :
    b ≤ sizes.foldr max 0 := by
  induction sizes with
  | nil => simp at hb
  | cons x rest ih =>
    simp only [List.mem_cons] at hb
    simp only [List.foldr_cons]
    rcases hb with rfl | hb
    · omega
    · have := ih hb
      omega

/-- The maximum of a list is 0 or one of its elements. -/
theorem foldr_max_mem (sizes : List Nat) :
    sizes.foldr max 0 = 0 ∨ sizes.foldr max 0 ∈ sizes := by
  induction sizes with
  | nil => exact Or.inl rfl
  | cons x rest ih =>
    simp only [List.foldr_cons, List.mem_cons]
    rcases Nat.le_total x (rest.foldr max 0) with h | h
    · rw [Nat.max_eq_right h]
      rcases ih with h0 | hm
      · have hx : x = 0 := by omega
        exact Or.inr (Or.inl (by rw [h0, hx]))
      · exact Or.inr (Or.inr hm)
    · rw [Nat.max_eq_left h]
      exact Or.inr (Or.inl rfl)

/-- The maximum of a list is monotone in the set of its elements. -/
theorem foldr_max_mono (small large : List Nat) (hsub : ∀ b ∈ small, b ∈ large) :
    small.foldr max 0 ≤ large.foldr max 0 := by
  induction small with
  | nil => simp
  | cons x rest ih =>
    simp only [List.foldr_cons]
    have h1 := le_foldr_max large x (hsub x (List.mem_cons_self _ _))
    have h2 := ih (fun b hb => hsub b (List.mem_cons_of_mem _ hb))
    omega

/-- C17: for every scene and every driver, that is for every list `b_0, .., b_(N-1)` of
build-scratch requirements of the meshes and every requirement `t` of the top-level
structure, a `CreateScene` that runs to its end computes the scratch size
`max(b_0, .., b_(N-1), t)`: it is at least every requirement, it is one of the requirements
(so it is their least upper bound), it is `t` when there is no mesh, and it is the size the
scratch buffer is created with. -/
theorem C17_scratch_size_is_maximum (c : Bool) (d : SceneDriver) (ms : List RTMesh)
    (t : RTAccelerationStructure) (hrun : (CreateScene c d ms t).aborted = false) :
    (CreateScene c d ms t).scratchBufferSize =
      max (((List.range ms.length).map d.blasScratch).foldr max 0) d.tlasScratch ∧
    (∀ i, i < ms.length → d.blasScratch i ≤ (CreateScene c d ms t).scratchBufferSize) ∧
    d.tlasScratch ≤ (CreateScene c d ms t).scratchBufferSize ∧
    ((CreateScene c d ms t).scratchBufferSize = d.tlasScratch ∨
      ∃ i, i < ms.length ∧ (CreateScene c d ms t).scratchBufferSize = d.blasScratch i) ∧
    (ms.length = 0 → (CreateScene c d ms t).scratchBufferSize = d.tlasScratch) ∧
    (CreateScene c d ms t).scratchBuffer._Size = (CreateScene c d ms t).scratchBufferSize := by
  rw [(CreateScene_run c d ms t hrun).2]
  simp only [scratchBufferSize_eq]
  refine ⟨trivial, ?_, ?_, ?_, ?_, ?_⟩
  · intro i hi
    have hmem : d.blasScratch i ∈ (List.range ms.length).map d.blasScratch :=
      List.mem_map.mpr ⟨i, List.mem_range.mpr hi, rfl⟩
    have := le_foldr_max _ _ hmem
    omega
  · omega
  · rcases foldr_max_mem ((List.range ms.length).map d.blasScratch) with h0 | hm
    · left
      rw [h0]
      omega
    · rcases Nat.le_total (((List.range ms.length).map d.blasScratch).foldr max 0)
        d.tlasScratch with h | h
      · left
        omega
      · right
        rcases List.mem_map.mp hm with ⟨i, hi, hieq⟩
        refine ⟨i, List.mem_range.mp hi, ?_⟩
        rw [hieq]
        omega
  · intro h0
    rw [h0]
    simp
  · unfold Buffer.Create
    simp only
    split_ifs <;> rfl

/-- C17 at a concrete input: two meshes needing 1000 and 2000 bytes and a top-level
structure needing 512 give a scratch size of 2000; no mesh and a top-level requirement of
512 give 512. -/
theorem C17_scratch_size_is_maximum_witness :
    (CreateScene true sampleDriver sampleScene sampleNoAS).aborted = false ∧
    (CreateScene true sampleDriver sampleScene sampleNoAS).scratchBufferSize = 2000 ∧
    sampleDriver.blasScratch 0 = 1000 ∧ sampleDriver.blasScratch 1 = 2000 ∧
    sampleDriver.tlasScratch = 512 ∧
    (CreateScene true sampleDriver [] sampleNoAS).scratchBufferSize =
      sampleDriver.tlasScratch :=
  have hthm := C17_scratch_size_is_maximum true sampleDriver sampleScene sampleNoAS
    (by decide)
  have hempty := C17_scratch_size_is_maximum true sampleDriver [] sampleNoAS (by decide)
  ⟨by decide, hthm.1.trans (by decide), by decide, by decide, by decide,
    hempty.2.2.2.2.1 rfl⟩

/-- C18: the scratch size is monotone in the set of meshes.  Of two scenes whose `CreateScene`
runs to its end with the same top-level requirement, the one whose meshes' build-scratch
requirements all occur among the requirements of the other one (as after removing meshes
from the other one; the other one is the result of adding meshes) has the smaller or equal
scratch size. -/
theorem C18_scratch_size_monotone (c1 c2 : Bool) (d1 d2 : SceneDriver)
    (small large : List RTMesh) (t1 t2 : RTAccelerationStructure)
    (hrun1 : (CreateScene c1 d1 small t1).aborted = false)
    (hrun2 : (CreateScene c2 d2 large t2).aborted = false)
    (htlas : d1.tlasScratch = d2.tlasScratch)
    (hsub : ∀ b ∈ (List.range small.length).map d1.blasScratch,
      b ∈ (List.range large.length).map d2.blasScratch) :
    (CreateScene c1 d1 small t1).scratchBufferSize ≤
      (CreateScene c2 d2 large t2).scratchBufferSize := by
  rw [(CreateScene_run c1 d1 small t1 hrun1).2, (CreateScene_run c2 d2 large t2 hrun2).2]
  simp only [scratchBufferSize_eq]
  have := foldr_max_mono _ _ hsub
  omega

/-- C18 at a concrete input: the scene with the first sample mesh only needs 1000 bytes of
scratch, the scene with both sample meshes 2000. -/
theorem C18_scratch_size_monotone_witness :
    (CreateScene true sampleDriver [sampleMesh 3 20 22] sampleNoAS).aborted = false ∧
    (CreateScene true sampleDriver sampleScene sampleNoAS).aborted = false ∧
    (CreateScene true sampleDriver [sampleMesh 3 20 22] sampleNoAS).scratchBufferSize ≤
      (CreateScene true sampleDriver sampleScene sampleNoAS).scratchBufferSize ∧
    (CreateScene true sampleDriver [sampleMesh 3 20 22] sampleNoAS).scratchBufferSize = 1000 ∧
    (CreateScene true sampleDriver sampleScene sampleNoAS).scratchBufferSize = 2000 :=
  ⟨by decide, by decide,
    C18_scratch_size_monotone true true sampleDriver sampleDriver [sampleMesh 3 20 22]
      sampleScene sampleNoAS sampleNoAS (by decide) (by decide) rfl (by decide),
    by decide, by decide⟩

/-- Every build recorded by the recording loop for meshes with bottom-level infos is a
bottom-level build. -/
theorem recordBottomLevel_mem_type (s i : Nat) (ms : List RTMesh)
    (htype : ∀ m ∈ ms, m.blas.accelerationStructureInfo.type = .BOTTOM_LEVEL)
    (cmd : Command) (hcmd : cmd ∈ recordBottomLevel s i ms)
    (info : VkAccelerationStructureInfoNV) (hinfo : cmd.buildInfo? = some info) :
    info.type = .BOTTOM_LEVEL := by
  induction ms generalizing i with
  | nil => simp [recordBottomLevel] at hcmd
  | cons m rest ih =>
    simp only [recordBottomLevel, List.mem_cons] at hcmd
    rcases hcmd with rfl | rfl | hrest
    · simp only [Command.buildInfo?, Option.some.injEq] at hinfo
      rw [← hinfo]
      exact htype m (List.mem_cons_self _ _)
    · simp [buildBarrier, Command.buildInfo?] at hinfo
    · exact ih (i + 1) (fun x hx => htype x (List.mem_cons_of_mem _ hx)) hrest

/-- The recording loop keeps the number of meshes. -/
theorem recordedMeshes_length (i : Nat) (ms : List RTMesh) :
    (recordedMeshes i ms).length = ms.length := by
  induction ms generalizing i with
  | nil => rfl
  | cons m rest ih => simp only [recordedMeshes, List.length_cons, ih]

/-- Mesh `j` after the recording loop is mesh `j` before it, with the build info set. -/
theorem recordedMeshes_get (i : Nat) (ms : List RTMesh) (j : Nat) (m1 : RTMesh)
    (hm1 : (recordedMeshes i ms)[j]? = some m1) :
    ∃ m, ms[j]? = some m ∧
      m1.blas.accelerationStructureInfo = bottomLevelBuildInfo (i + j) m ∧
      m1.blas.accelerationStructure = m.blas.accelerationStructure := by
  induction ms generalizing i j with
  | nil => simp [recordedMeshes] at hm1
  | cons m0 rest ih =>
    cases j with
    | zero =>
      simp only [recordedMeshes, List.getElem?_cons_zero, Option.some.injEq] at hm1
      subst hm1
      exact ⟨m0, by simp, rfl, rfl⟩
    | succ k =>
      simp only [recordedMeshes, List.getElem?_cons_succ] at hm1
      rcases ih (i + 1) k hm1 with ⟨m, hm, h1, h2⟩
      refine ⟨m, by simpa using hm, ?_, h2⟩
      rw [h1]
      have h3 : i + 1 + k = i + (k + 1) := by omega
      rw [h3]

/-- In the commands of `CreateScene`, every command at an odd position is the barrier. -/
theorem sceneCommands_barrier (s : Nat) (ms : List RTMesh) (top : Command) (j : Nat)
    (hj : j ≤ ms.length) :
    (recordBottomLevel s 0 ms ++ [top, buildBarrier])[2 * j + 1]? = some buildBarrier := by
  rcases Nat.lt_or_ge j ms.length with hlt | hge
  · rw [List.getElem?_append_left (by rw [recordBottomLevel_length]; omega)]
    exact recordBottomLevel_barrier s 0 ms j hlt
  · have hje : j = ms.length := by omega
    rw [List.getElem?_append_right (by rw [recordBottomLevel_length]; omega),
      recordBottomLevel_length, hje]
    have h1 : 2 * ms.length + 1 - 2 * ms.length = 1 := by omega
    rw [h1]
    rfl

/-- C15: for every number `N` of meshes (below `2^32`, the range of the instance count), a
`CreateScene` that runs to its end records exactly `N` bottom-level build commands, each
with `geometryCount = 1` and `instanceCount = 0`, and exactly one top-level build command,
whose `instanceCount` is `N` (and whose `geometryCount` is 0); these are all the build
commands. -/
theorem C15_one_build_per_mesh (c : Bool) (d : SceneDriver) (ms : List RTMesh)
    (t : RTAccelerationStructure) (hrun : (CreateScene c d ms t).aborted = false)
    (hN : ms.length < 4294967296) :
    (CreateScene c d ms t).commands.countP (Command.isBuildOf .BOTTOM_LEVEL) = ms.length ∧
    (∀ cmd ∈ (CreateScene c d ms t).commands, ∀ info, cmd.buildInfo? = some info →
      info.type = .BOTTOM_LEVEL → info.geometryCount = 1 ∧ info.instanceCount = 0) ∧
    (CreateScene c d ms t).commands.countP (Command.isBuildOf .TOP_LEVEL) = 1 ∧
    (∀ cmd ∈ (CreateScene c d ms t).commands, ∀ info, cmd.buildInfo? = some info →
      info.type = .TOP_LEVEL → info.instanceCount = ms.length ∧ info.geometryCount = 0) ∧
    (CreateScene c d ms t).commands.countP Command.isBuild = ms.length + 1 := by
  have hphase := (CreateScene_run c d ms t hrun).1
  have htype := createBottomLevel_type c d 0 ms hphase
  have hlen := createBottomLevel_length c d 0 ms
  have hu : u32 ms.length = ms.length := Nat.mod_eq_of_lt hN
  rw [(CreateScene_run c d ms t hrun).2]
  simp only
  generalize (Buffer.new.Create
    (scratchBufferSize ((List.range ms.length).map d.blasScratch) d.tlasScratch)
    d.scratchBuffer).2.GetBuffer = s
  generalize (Buffer.new.Create (ms.length * sizeofVkGeometryInstance)
    d.instancesBuffer).2.GetBuffer = ib
  have hcount := recordBottomLevel_count s 0 _ htype
  have htop : (topLevelBuildInfo ms.length (CreateAS c .TOP_LEVEL 0 none 1 d.tlas t).as).type =
      .TOP_LEVEL := by
    simp only [topLevelBuildInfo, CreateAS_info]
  have hb : Command.isBuildOf .BOTTOM_LEVEL buildBarrier = false := rfl
  have ht : Command.isBuildOf .TOP_LEVEL buildBarrier = false := rfl
  refine ⟨?_, ?_, ?_, ?_, ?_⟩
  · rw [List.countP_append, hcount.1, hlen]
    simp [List.countP_cons, Command.isBuildOf, Command.buildInfo?, htop, buildBarrier]
  · intro cmd hcmd info hinfo hbottom
    rcases List.mem_append.mp hcmd with hl | hr
    · rcases recordBottomLevel_mem s 0 _ cmd hl with rfl | ⟨info1, idata, dst, rfl, hg, hi⟩
      · simp [buildBarrier, Command.buildInfo?] at hinfo
      · simp only [Command.buildInfo?, Option.some.injEq] at hinfo
        rw [← hinfo]
        exact ⟨hg, hi⟩
    · simp only [List.mem_cons, List.mem_singleton, List.not_mem_nil, or_false] at hr
      rcases hr with rfl | rfl
      · simp only [Command.buildInfo?, Option.some.injEq] at hinfo
        rw [← hinfo, htop] at hbottom
        exact absurd hbottom (by decide)
      · simp [buildBarrier, Command.buildInfo?] at hinfo
  · rw [List.countP_append, hcount.2]
    simp [List.countP_cons, Command.isBuildOf, Command.buildInfo?, htop, buildBarrier]
  · intro cmd hcmd info hinfo htoplevel
    rcases List.mem_append.mp hcmd with hl | hr
    · have := recordBottomLevel_mem_type s 0 _ htype cmd hl info hinfo
      rw [this] at htoplevel
      exact absurd htoplevel (by decide)
    · simp only [List.mem_cons, List.mem_singleton, List.not_mem_nil, or_false] at hr
      rcases hr with rfl | rfl
      · simp only [Command.buildInfo?, Option.some.injEq] at hinfo
        rw [← hinfo]
        exact ⟨hu, rfl⟩
      · simp [buildBarrier, Command.buildInfo?] at hinfo
  · have hall : ∀ (l : List Command),
        l.countP Command.isBuild =
          l.countP (Command.isBuildOf .BOTTOM_LEVEL) + l.countP (Command.isBuildOf .TOP_LEVEL) := by
      intro l
      induction l with
      | nil => rfl
      | cons x rest ih =>
        simp only [List.countP_cons, ih]
        cases x with
        | buildAccelerationStructure info a b u dd ss sc so =>
          cases hty : info.type <;>
            simp [Command.isBuild, Command.isBuildOf, Command.buildInfo?, hty] <;> omega
        | pipelineBarrier a b e f =>
          simp [Command.isBuild, Command.isBuildOf, Command.buildInfo?]
    rw [hall, List.countP_append, List.countP_append, hcount.1, hcount.2, hlen]
    simp [List.countP_cons, Command.isBuildOf, Command.buildInfo?, htop, buildBarrier]

/-- C15 at a concrete input: the scene of two meshes, every driver call succeeding. -/
theorem C15_one_build_per_mesh_witness :
    (CreateScene true sampleDriver sampleScene sampleNoAS).aborted = false ∧
    sampleScene.length = 2 ∧
    (CreateScene true sampleDriver sampleScene sampleNoAS).commands.countP
      (Command.isBuildOf .BOTTOM_LEVEL) = 2 ∧
    (CreateScene true sampleDriver sampleScene sampleNoAS).commands.countP
      (Command.isBuildOf .TOP_LEVEL) = 1 ∧
    (CreateScene true sampleDriver sampleScene sampleNoAS).commands.countP
      Command.isBuild = 3 :=
  have hthm := C15_one_build_per_mesh true sampleDriver sampleScene sampleNoAS
    (by decide) (by decide)
  ⟨by decide, rfl, hthm.1, hthm.2.2.1, hthm.2.2.2.2⟩

/-- C19: the commands recorded by a `CreateScene` that runs to its end are exactly, for
each mesh `j` in mesh order, the build of the bottom-level structure of mesh `j` (command
`2 * j`) and then a barrier whose source and destination access masks are both
acceleration-structure read and write (command `2 * j + 1`); then the build of the top-level
structure from the instance buffer (command `2 * N`); then the same barrier (command
`2 * N + 1`), and nothing more.  No two build commands are adjacent, and every build
command uses the scratch buffer at offset 0. -/
theorem C19_command_sequence (c : Bool) (d : SceneDriver) (ms : List RTMesh)
    (t : RTAccelerationStructure) (hrun : (CreateScene c d ms t).aborted = false) :
    (CreateScene c d ms t).meshes.length = ms.length ∧
    (CreateScene c d ms t).commands.length = 2 * ms.length + 2 ∧
    (∀ j m, (CreateScene c d ms t).meshes[j]? = some m →
      (CreateScene c d ms t).commands[2 * j]? =
        some (.buildAccelerationStructure m.blas.accelerationStructureInfo VK_NULL_HANDLE 0
          false m.blas.accelerationStructure VK_NULL_HANDLE
          (CreateScene c d ms t).scratchBuffer.GetBuffer 0) ∧
      m.blas.accelerationStructureInfo.type = .BOTTOM_LEVEL ∧
      m.blas.accelerationStructureInfo.pGeometries = some j) ∧
    (∀ j, j < ms.length → (CreateScene c d ms t).commands[2 * j + 1]? = some buildBarrier) ∧
    (CreateScene c d ms t).commands[2 * ms.length]? =
      some (.buildAccelerationStructure
        (CreateScene c d ms t).topLevelAS.accelerationStructureInfo
        (CreateScene c d ms t).instancesBuffer.GetBuffer 0 false
        (CreateScene c d ms t).topLevelAS.accelerationStructure VK_NULL_HANDLE
        (CreateScene c d ms t).scratchBuffer.GetBuffer 0) ∧
    (CreateScene c d ms t).topLevelAS.accelerationStructureInfo.type = .TOP_LEVEL ∧
    (CreateScene c d ms t).commands[2 * ms.length + 1]? = some buildBarrier ∧
    buildBarrier =
      .pipelineBarrier VK_PIPELINE_STAGE_RAY_TRACING_SHADER_BIT_NV
        VK_PIPELINE_STAGE_RAY_TRACING_SHADER_BIT_NV
        (VK_ACCESS_ACCELERATION_STRUCTURE_READ_BIT_NV |||
          VK_ACCESS_ACCELERATION_STRUCTURE_WRITE_BIT_NV)
        (VK_ACCESS_ACCELERATION_STRUCTURE_READ_BIT_NV |||
          VK_ACCESS_ACCELERATION_STRUCTURE_WRITE_BIT_NV) ∧
    (∀ k c1 c2, (CreateScene c d ms t).commands[k]? = some c1 →
      (CreateScene c d ms t).commands[k + 1]? = some c2 →
      ¬ (c1.isBuild = true ∧ c2.isBuild = true)) ∧
    (∀ cmd ∈ (CreateScene c d ms t).commands, ∀ p, cmd.scratch? = some p →
      p = ((CreateScene c d ms t).scratchBuffer.GetBuffer, 0)) := by
  have hphase := (CreateScene_run c d ms t hrun).1
  have htype := createBottomLevel_type c d 0 ms hphase
  have hlen := createBottomLevel_length c d 0 ms
  rw [(CreateScene_run c d ms t hrun).2]
  simp only
  generalize (Buffer.new.Create
    (scratchBufferSize ((List.range ms.length).map d.blasScratch) d.tlasScratch)
    d.scratchBuffer).2.GetBuffer = s
  generalize (Buffer.new.Create (ms.length * sizeofVkGeometryInstance)
    d.instancesBuffer).2.GetBuffer = ib
  have hLlen := recordBottomLevel_length s 0 (createBottomLevel c d 0 ms).meshes
  rw [hlen] at hLlen
  have hodd : ∀ j, j ≤ ms.length → ∀ top : Command,
      (recordBottomLevel s 0 (createBottomLevel c d 0 ms).meshes ++
        [top, buildBarrier])[2 * j + 1]? = some buildBarrier := by
    intro j hj top
    exact sceneCommands_barrier s _ top j (by rw [hlen]; exact hj)
  have hbar : buildBarrier.isBuild = false := rfl
  refine ⟨?_, ?_, ?_, ?_, ?_, ?_, ?_, ?_, ?_, ?_⟩
  · rw [recordedMeshes_length, hlen]
  · rw [List.length_append, hLlen]
    rfl
  · intro j m1 hm1
    rcases recordedMeshes_get 0 _ j m1 hm1 with ⟨m, hm, hinfo, hdst⟩
    have hj : j < ms.length := by
      have := (List.getElem?_eq_some_iff.mp hm).1
      omega
    refine ⟨?_, ?_, ?_⟩
    · rw [List.getElem?_append_left (by omega), recordBottomLevel_build s 0 _ j m hm,
        hinfo, hdst]
    · rw [hinfo]
      exact htype m (List.mem_iff_getElem?.mpr ⟨j, hm⟩)
    · rw [hinfo]
      simp [bottomLevelBuildInfo]
  · intro j hj
    exact hodd j (Nat.le_of_lt hj) _
  · rw [List.getElem?_append_right (by omega), hLlen, Nat.sub_self]
    rfl
  · simp only [topLevelBuildInfo, CreateAS_info]
  · exact hodd ms.length (Nat.le_refl _) _
  · decide
  · intro k c1 c2 h1 h2 hboth
    have hk : k + 1 < 2 * ms.length + 2 := by
      have := (List.getElem?_eq_some_iff.mp h2).1
      rw [List.length_append, hLlen] at this
      simpa using this
    rcases Nat.even_or_odd' k with ⟨j, hj | hj⟩
    · have h3 := hodd j (by omega) (.buildAccelerationStructure
        (topLevelBuildInfo ms.length (CreateAS c .TOP_LEVEL 0 none 1 d.tlas t).as) ib 0 false
        (CreateAS c .TOP_LEVEL 0 none 1 d.tlas t).as.accelerationStructure VK_NULL_HANDLE s 0)
      rw [hj, h3] at h2
      have h4 : c2 = buildBarrier := (Option.some.inj h2).symm
      rw [h4, hbar] at hboth
      exact absurd hboth.2 (by decide)
    · have h3 := hodd j (by omega) (.buildAccelerationStructure
        (topLevelBuildInfo ms.length (CreateAS c .TOP_LEVEL 0 none 1 d.tlas t).as) ib 0 false
        (CreateAS c .TOP_LEVEL 0 none 1 d.tlas t).as.accelerationStructure VK_NULL_HANDLE s 0)
      rw [hj, h3] at h1
      have h4 : c1 = buildBarrier := (Option.some.inj h1).symm
      rw [h4, hbar] at hboth
      exact absurd hboth.1 (by decide)
  · intro cmd hcmd p hp
    rcases List.mem_append.mp hcmd with hl | hr
    · rcases recordBottomLevel_mem s 0 _ cmd hl with rfl | ⟨info1, idata, dst, rfl, _, _⟩
      · simp [buildBarrier, Command.scratch?] at hp
      · simp only [Command.scratch?, Option.some.injEq] at hp
        exact hp.symm
    · simp only [List.mem_cons, List.mem_singleton, List.not_mem_nil, or_false] at hr
      rcases hr with rfl | rfl
      · simp only [Command.scratch?, Option.some.injEq] at hp
        exact hp.symm
      · simp [buildBarrier, Command.scratch?] at hp

/-- C19 at a concrete input: the scene of two meshes records six commands; commands 0 and 2
build the bottom-level structures 100 and 101, command 4 builds the top-level structure 150
from the instance buffer 7, commands 1, 3 and 5 are barriers, and every build uses scratch
buffer 8 at offset 0. -/
theorem C19_command_sequence_witness :
    (CreateScene true sampleDriver sampleScene sampleNoAS).aborted = false ∧
    (CreateScene true sampleDriver sampleScene sampleNoAS).commands.length = 6 ∧
    (CreateScene true sampleDriver sampleScene sampleNoAS).commands[1]? = some buildBarrier ∧
    (CreateScene true sampleDriver sampleScene sampleNoAS).commands[3]? = some buildBarrier ∧
    (CreateScene true sampleDriver sampleScene sampleNoAS).commands[5]? = some buildBarrier ∧
    (CreateScene true sampleDriver sampleScene sampleNoAS).commands[4]? =
      some (.buildAccelerationStructure
        { type := .TOP_LEVEL, flags := 4, instanceCount := 2, geometryCount := 0,
          pGeometries := none } 7 0 false 150 0 8 0) :=
  have hthm := C19_command_sequence true sampleDriver sampleScene sampleNoAS (by decide)
  ⟨by decide, hthm.2.1, hthm.2.2.2.1 0 (by decide), hthm.2.2.2.1 1 (by decide),
    hthm.2.2.2.2.2.2.1, hthm.2.2.2.2.1.trans (by decide)⟩

/-- A creation call of `CreateAS` carries the info `CreateAS` was called with. -/
theorem CreateAS_calls_create (c : Bool) (type : VkAccelerationStructureTypeNV) (g : Nat)
    (p : Option Nat) (n : Nat) (reply : CreateASReply) (as : RTAccelerationStructure)
    (info : VkAccelerationStructureInfoNV)
    (hmem : ASCall.createAccelerationStructure info ∈ (CreateAS c type g p n reply as).calls) :
    info =
      { type := type, flags := VK_BUILD_ACCELERATION_STRUCTURE_PREFER_FAST_TRACE_BIT_NV,
        instanceCount := n, geometryCount := g, pGeometries := p } := by
  unfold CreateAS at hmem
  simp only at hmem
  split_ifs at hmem <;> simpa using hmem

/-- Every creation call of the first loop of `CreateScene` is for a bottom-level
structure. -/
theorem createBottomLevel_calls (c : Bool) (d : SceneDriver) (i : Nat) (ms : List RTMesh)
    (info : VkAccelerationStructureInfoNV)
    (hmem : ASCall.createAccelerationStructure info ∈ (createBottomLevel c d i ms).calls) :
    info.type = .BOTTOM_LEVEL := by
  induction ms generalizing i with
  | nil => simp [createBottomLevel] at hmem
  | cons m rest ih =>
    simp only [createBottomLevel] at hmem
    split at hmem
    · rw [CreateAS_calls_create _ _ _ _ _ _ _ _ hmem]
    · rcases List.mem_append.mp hmem with h | h
      · rw [CreateAS_calls_create _ _ _ _ _ _ _ _ h]
      · exact ih _ h

/-- C16, as the code behaves: `CreateScene` creates the top-level structure with
`instanceCount = 1` whatever the number `N` of meshes is, whereas the build command it
records for that structure has `instanceCount = N`.  Every top-level creation call of
`CreateScene` has `instanceCount = 1`; the call is made for every scene (here with
`CHECK_VK_ERROR` letting execution continue); and for the scene of two meshes the
top-level structure is created for 1 instance and built with 2, for the empty scene it is
created for 1 instance and built with 0. -/
theorem C16_top_level_created_for_one_instance :
    (∀ (c : Bool) (d : SceneDriver) (ms : List RTMesh) (t : RTAccelerationStructure)
      (info : VkAccelerationStructureInfoNV),
      ASCall.createAccelerationStructure info ∈ (CreateScene c d ms t).calls →
      info.type = .TOP_LEVEL → info.instanceCount = 1) ∧
    (∀ (d : SceneDriver) (ms : List RTMesh) (t : RTAccelerationStructure),
      ASCall.createAccelerationStructure
        { type := .TOP_LEVEL, flags := VK_BUILD_ACCELERATION_STRUCTURE_PREFER_FAST_TRACE_BIT_NV,
          instanceCount := 1, geometryCount := 0, pGeometries := none } ∈
        (CreateScene false d ms t).calls) ∧
    (sampleScene.length = 2 ∧
      (CreateScene true sampleDriver sampleScene sampleNoAS).aborted = false ∧
      (CreateScene true sampleDriver sampleScene sampleNoAS).calls[8]? =
        some (.createAccelerationStructure
          { type := .TOP_LEVEL, flags := 4, instanceCount := 1, geometryCount := 0,
            pGeometries := none }) ∧
      (CreateScene true sampleDriver sampleScene sampleNoAS).commands[4]? =
        some (.buildAccelerationStructure
          { type := .TOP_LEVEL, flags := 4, instanceCount := 2, geometryCount := 0,
            pGeometries := none } 7 0 false 150 0 8 0)) ∧
    ((CreateScene true sampleDriver [] sampleNoAS).aborted = false ∧
      (CreateScene true sampleDriver [] sampleNoAS).calls[0]? =
        some (.createAccelerationStructure
          { type := .TOP_LEVEL, flags := 4, instanceCount := 1, geometryCount := 0,
            pGeometries := none }) ∧
      (CreateScene true sampleDriver [] sampleNoAS).commands[0]? =
        some (.buildAccelerationStructure
          { type := .TOP_LEVEL, flags := 4, instanceCount := 0, geometryCount := 0,
            pGeometries := none } 7 0 false 150 0 8 0)) := by
  refine ⟨?_, ?_, by decide, by decide⟩
  · intro c d ms t info hmem htop
    have hcases : ASCall.createAccelerationStructure info ∈ (createBottomLevel c d 0 ms).calls ∨
        ASCall.createAccelerationStructure info ∈
          (CreateAS c .TOP_LEVEL 0 none 1 d.tlas t).calls := by
      unfold CreateScene at hmem
      simp only at hmem
      split_ifs at hmem
      all_goals first
        | exact Or.inl hmem
        | exact List.mem_append.mp hmem
    rcases hcases with h | h
    · rw [createBottomLevel_calls c d 0 ms info h] at htop
      exact absurd htop (by decide)
    · rw [CreateAS_calls_create _ _ _ _ _ _ _ _ h]
  · intro d ms t
    rw [(CreateScene_run false d ms t (CreateScene_continue d ms t)).2]
    simp only
    apply List.mem_append_right
    have h := CreateAS_first_call false .TOP_LEVEL 0 none 1 d.tlas t
    exact List.mem_of_mem_head? h

/-! ## Memory type selection and buffer upload -/

/-- For an index below 32 the test of `GetMemoryType` is the test of bit `i`. -/
theorem memoryTypeBitSet_eq (bits i : Nat) (hi : i < 32) :
    memoryTypeBitSet bits i = bits.testBit i := by
  have hpow : 2 ^ i < 4294967296 := by
    have h32 : (4294967296 : Nat) = 2 ^ 32 := by norm_num
    rw [h32]
    exact Nat.pow_lt_pow_right (by norm_num) hi
  unfold memoryTypeBitSet
  rw [Nat.one_shiftLeft, u32_of_lt hpow, Nat.and_two_pow]
  have hpos : 0 < 2 ^ i := Nat.two_pow_pos i
  cases bits.testBit i
  · simp
  · simp

/-- The flags `f` contain every bit of `p` exactly when `f & p == p`. -/
theorem and_eq_iff_bits (f p : Nat) :
    f &&& p = p ↔ ∀ b, p.testBit b = true → f.testBit b = true := by
  constructor
  · intro h b hb
    have h1 : (f &&& p).testBit b = p.testBit b := by rw [h]
    rw [Nat.testBit_and, hb] at h1
    simpa using h1
  · intro h
    apply Nat.eq_of_testBit_eq
    intro i
    rw [Nat.testBit_and]
    cases hp : p.testBit i
    · simp
    · simp [h i hp]

/-- The loop of `GetMemoryType` from index `i` on returns the first suitable index at or
after `i`, and 0 when there is none. -/
theorem getMemoryTypeLoop_spec (mt : Nat → Nat) (bits props : Nat) :
    ∀ (fuel i : Nat), i + fuel = 32 →
      (∃ j, i ≤ j ∧ j < 32 ∧ MemoryTypeSuits mt bits props j ∧
        (∀ k, i ≤ k → k < j → ¬ MemoryTypeSuits mt bits props k) ∧
        getMemoryTypeLoop mt bits props fuel i = j) ∨
      ((∀ k, i ≤ k → k < 32 → ¬ MemoryTypeSuits mt bits props k) ∧
        getMemoryTypeLoop mt bits props fuel i = 0) := by
  intro fuel
  induction fuel with
  | zero =>
    intro i hi
    right
    exact ⟨fun k hk hk32 => by omega, rfl⟩
  | succ n ih =>
    intro i hi
    have hi32 : i < 32 := by omega
    unfold getMemoryTypeLoop
    rw [memoryTypeBitSet_eq bits i hi32]
    by_cases hs : MemoryTypeSuits mt bits props i
    · left
      have hs' := hs
      unfold MemoryTypeSuits at hs'
      rw [if_pos hs']
      exact ⟨i, Nat.le_refl _, hi32, hs, fun k h1 h2 => by omega, rfl⟩
    · have hs' := hs
      unfold MemoryTypeSuits at hs'
      rw [if_neg hs']
      rcases ih (i + 1) (by omega) with ⟨j, h1, h2, h3, h4, h5⟩ | ⟨h1, h2⟩
      · left
        refine ⟨j, by omega, h2, h3, ?_, h5⟩
        intro k hk1 hk2
        rcases Nat.eq_or_lt_of_le hk1 with heq | hlt
        · rw [← heq]
          exact hs
        · exact h4 k hlt hk2
      · right
        refine ⟨?_, h2⟩
        intro k hk1 hk2
        rcases Nat.eq_or_lt_of_le hk1 with heq | hlt
        · rw [← heq]
          exact hs
        · exact h1 k hlt hk2

/-- C28: `GetMemoryType` returns the smallest index `i` below 32 such that bit `i` of
`memoryTypeBits` is set and the property flags of memory type `i` contain every bit of the
requested properties, whenever there is one; when there is none it returns 0, the same
value as for a match at index 0.  The result is always below 32. -/
theorem C28_GetMemoryType_first_match (mt : Nat → Nat) (bits props : Nat) :
    (∀ i, i < 32 → MemoryTypeSuits mt bits props i →
      (∀ k, k < i → ¬ MemoryTypeSuits mt bits props k) →
      GetMemoryType mt bits props = i) ∧
    ((∀ i, i < 32 → ¬ MemoryTypeSuits mt bits props i) → GetMemoryType mt bits props = 0) ∧
    (MemoryTypeSuits mt bits props 0 → GetMemoryType mt bits props = 0) ∧
    GetMemoryType mt bits props < 32 ∧
    (∀ i, MemoryTypeSuits mt bits props i ↔
      (bits.testBit i = true ∧ ∀ b, props.testBit b = true → (mt i).testBit b = true)) := by
  have hspec := getMemoryTypeLoop_spec mt bits props 32 0 rfl
  have hfirst : ∀ i, i < 32 → MemoryTypeSuits mt bits props i →
      (∀ k, k < i → ¬ MemoryTypeSuits mt bits props k) →
      GetMemoryType mt bits props = i := by
    intro i hi hs hmin
    unfold GetMemoryType VK_MAX_MEMORY_TYPES
    rcases hspec with ⟨j, _, h2, h3, h4, h5⟩ | ⟨h1, _⟩
    · rw [h5]
      rcases Nat.lt_trichotomy i j with hlt | heq | hgt
      · exact absurd hs (h4 i (Nat.zero_le _) hlt)
      · exact heq.symm
      · exact absurd h3 (hmin j hgt)
    · exact absurd hs (h1 i (Nat.zero_le _) hi)
  refine ⟨hfirst, ?_, ?_, ?_, ?_⟩
  · intro hnone
    unfold GetMemoryType VK_MAX_MEMORY_TYPES
    rcases hspec with ⟨j, _, h2, h3, _, _⟩ | ⟨_, h2⟩
    · exact absurd h3 (hnone j h2)
    · exact h2
  · intro h0
    exact hfirst 0 (by norm_num) h0 (fun k hk => by omega)
  · unfold GetMemoryType VK_MAX_MEMORY_TYPES
    rcases hspec with ⟨j, _, h2, _, _, h5⟩ | ⟨_, h2⟩
    · rw [h5]
      exact h2
    · rw [h2]
      norm_num
  · intro i
    unfold MemoryTypeSuits
    rw [and_eq_iff_bits]

/-- C28 at concrete inputs: with memory types `0x1`, `0x6`, `0xe` all allowed, asking for
host-visible and host-coherent memory (`0x6`) gives index 1; asking for device-local memory
(`0x1`) gives index 0; asking for a property no type has (`0x10`) also gives 0. -/
theorem C28_GetMemoryType_first_match_witness :
    GetMemoryType sampleMemoryTypes 7 6 = 1 ∧
    GetMemoryType sampleMemoryTypes 7 1 = 0 ∧
    GetMemoryType sampleMemoryTypes 7 0x10 = 0 ∧
    ¬ MemoryTypeSuits sampleMemoryTypes 7 0x10 0 :=
  ⟨(C28_GetMemoryType_first_match sampleMemoryTypes 7 6).1 1 (by decide) (by decide)
      (fun k hk => by
        have hk0 : k = 0 := by omega
        rw [hk0]
        decide),
    (C28_GetMemoryType_first_match sampleMemoryTypes 7 1).2.2.1 (by decide),
    (C28_GetMemoryType_first_match sampleMemoryTypes 7 0x10).2.1 (fun i hi => by
      unfold MemoryTypeSuits
      intro h
      have h2 := (and_eq_iff_bits _ _).mp h.2 4 (by decide)
      have h3 : sampleMemoryTypes i ≤ 14 := by
        unfold sampleMemoryTypes
        split <;> omega
      have h4 : (sampleMemoryTypes i).testBit 4 = false :=
        Nat.testBit_lt_two_pow (by omega)
      rw [h4] at h2
      exact absurd h2 (by decide)),
    by decide⟩

/-- The first loop of `CreateScene` uses only the driver's replies to the `CreateAS` calls
of the meshes. -/
theorem createBottomLevel_congr (c : Bool) (d1 d2 : SceneDriver) (hblas : d1.blas = d2.blas) :
    ∀ (ms : List RTMesh) (i : Nat),
      createBottomLevel c d1 i ms = createBottomLevel c d2 i ms := by
  intro ms
  induction ms with
  | nil => intro i; rfl
  | cons m rest ih =>
    intro i
    simp only [createBottomLevel, hblas, ih]

/-- C29: `UploadData` returns `true` for every input.  When mapping the buffer memory fails,
`Map` returns the null pointer and no byte is copied, and `UploadData` still returns `true`.
So the failure check of `CreateScene` (the assertion on a `false` result) is never taken:
`CreateScene` gives the same result whatever the outcome of mapping the instance buffer. -/
theorem C29_UploadData_returns_true (size : Nat) (mapMemory : VkResult) (b : Buffer) :
    (b.UploadData size mapMemory).1 = true ∧
    (mapMemory ≠ VK_SUCCESS →
      b.Map size mapMemory = none ∧ b.UploadData size mapMemory = (true, 0)) ∧
    (mapMemory = VK_SUCCESS → b.UploadData size mapMemory = (true, size)) ∧
    (∀ (c : Bool) (d : SceneDriver) (ms : List RTMesh) (t : RTAccelerationStructure),
      CreateScene c { d with mapInstancesBuffer := mapMemory } ms t = CreateScene c d ms t) := by
  refine ⟨Buffer.UploadData_fst size mapMemory b, ?_, ?_, ?_⟩
  · intro hfail
    have hne : VK_SUCCESS ≠ mapMemory := fun e => hfail e.symm
    have hmap : b.Map size mapMemory = none := by
      unfold Buffer.Map
      simp only [if_pos hne]
    refine ⟨hmap, ?_⟩
    unfold Buffer.UploadData
    rw [hmap]
  · intro hok
    unfold Buffer.UploadData Buffer.Map
    simp [hok]
  · intro c d ms t
    have hphase := createBottomLevel_congr c { d with mapInstancesBuffer := mapMemory } d rfl
      ms 0
    unfold CreateScene
    simp only [Buffer.UploadData_fst, hphase]

/-- C29 at a concrete input: mapping fails with result `-1` for a buffer of 128 bytes; and
`CreateScene` on the sample scene runs to its end when mapping the instance buffer fails. -/
theorem C29_UploadData_returns_true_witness :
    (-1 : VkResult) ≠ VK_SUCCESS ∧
    Buffer.UploadData 128 (-1) { _Buffer := 7, _Memory := 9, _Size := 128 } = (true, 0) ∧
    Buffer.Map 128 (-1) { _Buffer := 7, _Memory := 9, _Size := 128 } = none ∧
    CreateScene true { sampleDriver with mapInstancesBuffer := -1 } sampleScene sampleNoAS =
      CreateScene true sampleDriver sampleScene sampleNoAS :=
  have hthm := C29_UploadData_returns_true 128 (-1) { _Buffer := 7, _Memory := 9, _Size := 128 }
  ⟨by decide, (hthm.2.1 (by decide)).2, (hthm.2.1 (by decide)).1,
    hthm.2.2.2 true sampleDriver sampleScene sampleNoAS⟩

/-! ## Queue family selection -/

/-- The test `queueFlags & bit` of the code, for the three queue bits. -/
theorem queue_bit_tests (q : Nat) :
    decide (q &&& VK_QUEUE_GRAPHICS_BIT ≠ 0) = hasGraphics q ∧
    decide (q &&& VK_QUEUE_COMPUTE_BIT ≠ 0) = hasCompute q ∧
    decide (q &&& VK_QUEUE_TRANSFER_BIT ≠ 0) = hasTransfer q := by
  have h0 := Nat.and_two_pow q 0
  have h1 := Nat.and_two_pow q 1
  have h2 := Nat.and_two_pow q 2
  simp only [pow_zero, pow_one] at h0 h1
  have h22 : (2 : Nat) ^ 2 = 4 := by norm_num
  rw [h22] at h2
  unfold VK_QUEUE_GRAPHICS_BIT VK_QUEUE_COMPUTE_BIT VK_QUEUE_TRANSFER_BIT hasGraphics
    hasCompute hasTransfer
  rw [h0, h1, h2]
  refine ⟨?_, ?_, ?_⟩
  · cases q.testBit 0 <;> simp
  · cases q.testBit 1 <;> simp
  · cases q.testBit 2 <;> simp

/-- A search loop either finds the first family satisfying the condition, or no family
satisfies it and the index keeps its value. -/
theorem findQueueFamily_spec (cond : Nat → Bool) :
    ∀ (families : List Nat) (j queueIdx : Nat),
      (∃ k, IsFirstFamily cond families k ∧
        findQueueFamily cond j families queueIdx = j + k) ∨
      ((∀ q ∈ families, cond q = false) ∧
        findQueueFamily cond j families queueIdx = queueIdx) := by
  intro families
  induction families with
  | nil =>
    intro j queueIdx
    right
    exact ⟨fun q hq => by simp at hq, rfl⟩
  | cons q0 rest ih =>
    intro j queueIdx
    unfold findQueueFamily
    cases hc : cond q0
    · simp only [Bool.false_eq_true, if_false]
      rcases ih (j + 1) queueIdx with ⟨k, ⟨⟨q, hq, hcq⟩, hmin⟩, hres⟩ | ⟨hnone, hres⟩
      · left
        refine ⟨k + 1, ⟨⟨q, by simpa using hq, hcq⟩, ?_⟩, by rw [hres]; omega⟩
        intro k1 q1 hk1 hq1
        cases k1 with
        | zero =>
          simp only [List.getElem?_cons_zero, Option.some.injEq] at hq1
          rw [← hq1]
          exact hc
        | succ k2 =>
          simp only [List.getElem?_cons_succ] at hq1
          exact hmin k2 q1 (by omega) hq1
      · right
        refine ⟨?_, hres⟩
        intro q hq
        simp only [List.mem_cons] at hq
        rcases hq with rfl | hq
        · exact hc
        · exact hnone q hq
    · simp only [if_true]
      left
      exact ⟨0, ⟨⟨q0, by simp, hc⟩, fun k q hk _ => by omega⟩, rfl⟩

/-- The first family satisfying a condition has an index below the number of families. -/
theorem IsFirstFamily_lt {cond : Nat → Bool} {families : List Nat} {j : Nat}
    (h : IsFirstFamily cond families j) : j < families.length := by
  rcases h.1 with ⟨q, hq, _⟩
  exact (List.getElem?_eq_some_iff.mp hq).1

/-- A family satisfying the condition rules out that none does. -/
theorem IsFirstFamily_mem {cond : Nat → Bool} {families : List Nat} {j : Nat}
    (h : IsFirstFamily cond families j) : ∃ q ∈ families, cond q = true := by
  rcases h.1 with ⟨q, hq, hc⟩
  exact ⟨q, List.mem_iff_getElem?.mpr ⟨j, hq⟩, hc⟩

/-- A search for one condition from index 0: the result is the first family satisfying it,
or the sentinel when there is none; the sentinel is no family index. -/
theorem findQueueFamily_one (cond : Nat → Bool) (families : List Nat)
    (hlen : families.length < 4294967296) :
    (IsFirstFamily cond families (findQueueFamily cond 0 families noQueueFamily) ∧
      findQueueFamily cond 0 families noQueueFamily ≠ noQueueFamily) ∨
    ((∀ q ∈ families, cond q = false) ∧
      findQueueFamily cond 0 families noQueueFamily = noQueueFamily) := by
  rcases findQueueFamily_spec cond families 0 noQueueFamily with ⟨k, hk, hres⟩ | ⟨hnone, hres⟩
  · left
    rw [hres, Nat.zero_add]
    have := IsFirstFamily_lt hk
    exact ⟨hk, by unfold noQueueFamily; omega⟩
  · right
    exact ⟨hnone, hres⟩

/-- The two-stage search of the compute and transfer rounds: first a family satisfying the
narrow condition, else the first satisfying the wide one, else the sentinel. -/
theorem findQueueFamily_two (narrow wide : Nat → Bool) (families : List Nat)
    (hlen : families.length < 4294967296)
    (himp : ∀ q, narrow q = true → wide q = true) (r : Nat)
    (hr : r = if findQueueFamily narrow 0 families noQueueFamily = noQueueFamily then
        findQueueFamily wide 0 families (findQueueFamily narrow 0 families noQueueFamily)
      else findQueueFamily narrow 0 families noQueueFamily) :
    (IsFirstFamily narrow families r ∨
      ((∀ q ∈ families, narrow q = false) ∧ IsFirstFamily wide families r) ∨
      ((∀ q ∈ families, wide q = false) ∧ r = noQueueFamily)) ∧
    (r = noQueueFamily ↔ ∀ q ∈ families, wide q = false) := by
  rcases findQueueFamily_one narrow families hlen with ⟨hfirst, hne⟩ | ⟨hnone, hres⟩
  · rw [if_neg hne] at hr
    rw [hr]
    refine ⟨Or.inl hfirst, ?_⟩
    constructor
    · intro h
      exact absurd h hne
    · intro hall
      rcases IsFirstFamily_mem hfirst with ⟨q, hq, hc⟩
      have := hall q hq
      rw [himp q hc] at this
      exact absurd this (by decide)
  · rw [if_pos hres, hres] at hr
    rcases findQueueFamily_one wide families hlen with ⟨hfirst, hne⟩ | ⟨hnone2, hres2⟩
    · rw [hr]
      refine ⟨Or.inr (Or.inl ⟨hnone, hfirst⟩), ?_⟩
      constructor
      · intro h
        exact absurd h hne
      · intro hall
        rcases IsFirstFamily_mem hfirst with ⟨q, hq, hc⟩
        have := hall q hq
        rw [hc] at this
        exact absurd this (by decide)
    · rw [hr, hres2]
      exact ⟨Or.inr (Or.inr ⟨hnone2, rfl⟩), fun _ => hnone2, fun _ => rfl⟩

/-- The graphics round is one search for the graphics bit. -/
theorem selectQueueFamily_graphics (families : List Nat) :
    selectQueueFamily VK_QUEUE_GRAPHICS_BIT families =
      findQueueFamily hasGraphics 0 families noQueueFamily := by
  have hfun : (fun q => decide (q &&& VK_QUEUE_GRAPHICS_BIT ≠ 0)) = hasGraphics :=
    funext fun q => (queue_bit_tests q).1
  unfold selectQueueFamily
  have h1 : ¬ VK_QUEUE_GRAPHICS_BIT = VK_QUEUE_COMPUTE_BIT := by decide
  have h2 : ¬ VK_QUEUE_GRAPHICS_BIT = VK_QUEUE_TRANSFER_BIT := by decide
  simp only [if_neg h1, if_neg h2, if_true, hfun]

/-- The compute round searches a compute family without the graphics bit, then any compute
family. -/
theorem selectQueueFamily_compute (families : List Nat) :
    selectQueueFamily VK_QUEUE_COMPUTE_BIT families =
      if findQueueFamily (fun q => hasCompute q && !hasGraphics q) 0 families noQueueFamily =
          noQueueFamily then
        findQueueFamily hasCompute 0 families
          (findQueueFamily (fun q => hasCompute q && !hasGraphics q) 0 families noQueueFamily)
      else findQueueFamily (fun q => hasCompute q && !hasGraphics q) 0 families
        noQueueFamily := by
  have hfun : (fun q => decide (q &&& VK_QUEUE_COMPUTE_BIT ≠ 0)) = hasCompute :=
    funext fun q => (queue_bit_tests q).2.1
  have hfun2 : (fun q => decide (q &&& VK_QUEUE_COMPUTE_BIT ≠ 0) &&
      !decide (q &&& VK_QUEUE_GRAPHICS_BIT ≠ 0)) = fun q => hasCompute q && !hasGraphics q :=
    funext fun q => by rw [(queue_bit_tests q).1, (queue_bit_tests q).2.1]
  unfold selectQueueFamily
  simp only [if_true, hfun, hfun2]

/-- The transfer round searches a transfer family without the graphics and compute bits,
then any transfer family. -/
theorem selectQueueFamily_transfer (families : List Nat) :
    selectQueueFamily VK_QUEUE_TRANSFER_BIT families =
      if findQueueFamily (fun q => hasTransfer q && !hasGraphics q && !hasCompute q) 0
          families noQueueFamily = noQueueFamily then
        findQueueFamily hasTransfer 0 families
          (findQueueFamily (fun q => hasTransfer q && !hasGraphics q && !hasCompute q) 0
            families noQueueFamily)
      else findQueueFamily (fun q => hasTransfer q && !hasGraphics q && !hasCompute q) 0
        families noQueueFamily := by
  have hfun : (fun q => decide (q &&& VK_QUEUE_TRANSFER_BIT ≠ 0)) = hasTransfer :=
    funext fun q => (queue_bit_tests q).2.2
  have hfun2 : (fun q => decide (q &&& VK_QUEUE_TRANSFER_BIT ≠ 0) &&
      !decide (q &&& VK_QUEUE_GRAPHICS_BIT ≠ 0) && !decide (q &&& VK_QUEUE_COMPUTE_BIT ≠ 0)) =
      fun q => hasTransfer q && !hasGraphics q && !hasCompute q :=
    funext fun q => by
      rw [(queue_bit_tests q).1, (queue_bit_tests q).2.1, (queue_bit_tests q).2.2]
  have h1 : ¬ VK_QUEUE_TRANSFER_BIT = VK_QUEUE_COMPUTE_BIT := by decide
  unfold selectQueueFamily
  simp only [if_neg h1, if_true, hfun, hfun2]

/-- The create infos list the three indices without repetition. -/
theorem deviceQueueCreateInfos_spec (families : List Nat) :
    (selectQueues families).deviceQueueCreateInfos.Nodup ∧
    ∀ x, x ∈ (selectQueues families).deviceQueueCreateInfos ↔
      (x = (selectQueues families)._GraphicsQueueFamilyIndex ∨
        x = (selectQueues families)._ComputeQueueFamilyIndex ∨
        x = (selectQueues families)._TransferQueueFamilyIndex) := by
  unfold selectQueues
  simp only
  generalize selectQueueFamily VK_QUEUE_GRAPHICS_BIT families = g
  generalize selectQueueFamily VK_QUEUE_COMPUTE_BIT families = c
  generalize selectQueueFamily VK_QUEUE_TRANSFER_BIT families = t
  by_cases h1 : c = g
  · by_cases h2 : t = g
    · rw [if_neg (not_not.mpr h1), if_neg (fun h => h.1 h2)]
      exact ⟨List.nodup_singleton g, fun x => by rw [List.mem_singleton]; omega⟩
    · rw [if_neg (not_not.mpr h1), if_pos ⟨h2, fun h => h2 (h.trans h1)⟩]
      refine ⟨?_, fun x => ?_⟩
      · simp only [List.singleton_append, List.nodup_cons, List.mem_singleton,
          List.not_mem_nil, not_false_eq_true, List.nodup_nil, and_true]
        omega
      · simp only [List.singleton_append, List.mem_cons, List.mem_singleton,
          List.not_mem_nil, or_false]
        omega
  · by_cases h2 : t = g
    · rw [if_pos h1, if_neg (fun h => h.1 h2)]
      refine ⟨?_, fun x => ?_⟩
      · simp only [List.singleton_append, List.nodup_cons, List.mem_singleton,
          List.not_mem_nil, not_false_eq_true, List.nodup_nil, and_true]
        omega
      · simp only [List.singleton_append, List.mem_cons, List.mem_singleton,
          List.not_mem_nil, or_false]
        omega
    · by_cases h3 : t = c
      · rw [if_pos h1, if_neg (fun h => h.2 h3)]
        refine ⟨?_, fun x => ?_⟩
        · simp only [List.singleton_append, List.nodup_cons, List.mem_singleton,
            List.not_mem_nil, not_false_eq_true, List.nodup_nil, and_true]
          omega
        · simp only [List.singleton_append, List.mem_cons, List.mem_singleton,
            List.not_mem_nil, or_false]
          omega
      · rw [if_pos h1, if_pos ⟨h2, h3⟩]
        refine ⟨?_, fun x => ?_⟩
        · simp only [List.singleton_append, List.cons_append, List.nil_append,
            List.nodup_cons, List.mem_cons, List.mem_singleton,
            List.not_mem_nil, not_false_eq_true, List.nodup_nil, and_true, or_false]
          omega
        · simp only [List.singleton_append, List.cons_append, List.nil_append,
            List.mem_cons, List.mem_singleton, List.not_mem_nil, or_false]

/-- C30: for every list of queue-family flag sets (its length is a 32-bit count), the queue
selection of `InitializeDevicesAndQueues` picks as graphics index the first family with the
graphics bit; as compute index the first family with the compute bit and without the
graphics bit, else the first family with the compute bit; as transfer index the first
family with the transfer bit and without the graphics and compute bits, else the first
family with the transfer bit.  An index is the sentinel `0xFFFFFFFF` exactly when no family
has the requested bit.  The device-queue create infos hold each distinct selected index
exactly once. -/
theorem C30_queue_selection (families : List Nat) (hlen : families.length < 4294967296) :
    (IsFirstFamily hasGraphics families (selectQueues families)._GraphicsQueueFamilyIndex ∨
      ((∀ q ∈ families, hasGraphics q = false) ∧
        (selectQueues families)._GraphicsQueueFamilyIndex = noQueueFamily)) ∧
    (IsFirstFamily (fun q => hasCompute q && !hasGraphics q) families
        (selectQueues families)._ComputeQueueFamilyIndex ∨
      ((∀ q ∈ families, (hasCompute q && !hasGraphics q) = false) ∧
        IsFirstFamily hasCompute families (selectQueues families)._ComputeQueueFamilyIndex) ∨
      ((∀ q ∈ families, hasCompute q = false) ∧
        (selectQueues families)._ComputeQueueFamilyIndex = noQueueFamily)) ∧
    (IsFirstFamily (fun q => hasTransfer q && !hasGraphics q && !hasCompute q) families
        (selectQueues families)._TransferQueueFamilyIndex ∨
      ((∀ q ∈ families, (hasTransfer q && !hasGraphics q && !hasCompute q) = false) ∧
        IsFirstFamily hasTransfer families
          (selectQueues families)._TransferQueueFamilyIndex) ∨
      ((∀ q ∈ families, hasTransfer q = false) ∧
        (selectQueues families)._TransferQueueFamilyIndex = noQueueFamily)) ∧
    ((selectQueues families)._GraphicsQueueFamilyIndex = noQueueFamily ↔
      ∀ q ∈ families, hasGraphics q = false) ∧
    ((selectQueues families)._ComputeQueueFamilyIndex = noQueueFamily ↔
      ∀ q ∈ families, hasCompute q = false) ∧
    ((selectQueues families)._TransferQueueFamilyIndex = noQueueFamily ↔
      ∀ q ∈ families, hasTransfer q = false) ∧
    (selectQueues families).deviceQueueCreateInfos.Nodup ∧
    (∀ x, x ∈ (selectQueues families).deviceQueueCreateInfos ↔
      (x = (selectQueues families)._GraphicsQueueFamilyIndex ∨
        x = (selectQueues families)._ComputeQueueFamilyIndex ∨
        x = (selectQueues families)._TransferQueueFamilyIndex)) := by
  have hinfos := deviceQueueCreateInfos_spec families
  have hg : (selectQueues families)._GraphicsQueueFamilyIndex =
      findQueueFamily hasGraphics 0 families noQueueFamily :=
    selectQueueFamily_graphics families
  have hc := findQueueFamily_two (fun q => hasCompute q && !hasGraphics q) hasCompute families
    hlen (fun q hq => by
      simp only [Bool.and_eq_true] at hq
      exact hq.1)
    (selectQueues families)._ComputeQueueFamilyIndex (selectQueueFamily_compute families)
  have ht := findQueueFamily_two (fun q => hasTransfer q && !hasGraphics q && !hasCompute q)
    hasTransfer families hlen (fun q hq => by
      simp only [Bool.and_eq_true] at hq
      exact hq.1.1)
    (selectQueues families)._TransferQueueFamilyIndex (selectQueueFamily_transfer families)
  refine ⟨?_, hc.1, ht.1, ?_, hc.2, ht.2, hinfos.1, hinfos.2⟩
  · rw [hg]
    rcases findQueueFamily_one hasGraphics families hlen with ⟨h1, _⟩ | h2
    · exact Or.inl h1
    · exact Or.inr h2
  · rw [hg]
    rcases findQueueFamily_one hasGraphics families hlen with ⟨h1, hne⟩ | ⟨h2, hres⟩
    · constructor
      · intro h
        exact absurd h hne
      · intro hall
        rcases IsFirstFamily_mem h1 with ⟨q, hq, hcq⟩
        have := hall q hq
        rw [hcq] at this
        exact absurd this (by decide)
    · exact ⟨fun _ => h2, fun _ => hres⟩

/-- C30 at concrete inputs: a device with an all-purpose family, a compute and transfer
family and a transfer-only family gets the indices 0, 1, 2 and three create infos; a device
with one all-purpose family gets index 0 three times and one create info. -/
theorem C30_queue_selection_witness :
    selectQueues [0xf, 0x6, 0x4] =
      { _GraphicsQueueFamilyIndex := 0, _ComputeQueueFamilyIndex := 1,
        _TransferQueueFamilyIndex := 2, deviceQueueCreateInfos := [0, 1, 2] } ∧
    (selectQueues [0xf, 0x6, 0x4]).deviceQueueCreateInfos.Nodup ∧
    ((selectQueues [0xf, 0x6, 0x4])._GraphicsQueueFamilyIndex = noQueueFamily ↔
      ∀ q ∈ [0xf, 0x6, 0x4], hasGraphics q = false) ∧
    selectQueues [0x7] =
      { _GraphicsQueueFamilyIndex := 0, _ComputeQueueFamilyIndex := 0,
        _TransferQueueFamilyIndex := 0, deviceQueueCreateInfos := [0] } ∧
    (selectQueues [0x7]).deviceQueueCreateInfos.Nodup :=
  have hthm := C30_queue_selection [0xf, 0x6, 0x4] (by decide)
  have hone := C30_queue_selection [0x7] (by decide)
  ⟨by decide, hthm.2.2.2.2.2.2.1, hthm.2.2.2.1, by decide, hone.2.2.2.2.2.2.1⟩

/-! ## Failure of CreateAS, instance records and mesh counts -/

/-- After the first loop of `CreateScene` has run to its end, mesh `j` is the given mesh
with the structure record left by `CreateAS`, and geometry `j` and instance record `j` are
those of that mesh. -/
theorem createBottomLevel_get (c : Bool) (d : SceneDriver) :
    ∀ (ms : List RTMesh) (i : Nat), (createBottomLevel c d i ms).aborted = false →
      ∀ (j : Nat) (m : RTMesh), ms[j]? = some m →
        (createBottomLevel c d i ms).meshes[j]? =
          some { m with blas :=
            (CreateAS c .BOTTOM_LEVEL 1 (some (i + j)) 0 (d.blas (i + j)) m.blas).as } ∧
        (createBottomLevel c d i ms).geometries[j]? = some (geometryOf m) ∧
        (createBottomLevel c d i ms).instances[j]? =
          some (instanceOf (i + j) { m with blas :=
            (CreateAS c .BOTTOM_LEVEL 1 (some (i + j)) 0 (d.blas (i + j)) m.blas).as }) := by
  intro ms
  induction ms with
  | nil => intro i _ j m hm; simp at hm
  | cons m0 rest ih =>
    intro i hrun j m hm
    simp only [createBottomLevel] at hrun ⊢
    split at hrun
    · simp at hrun
    · cases j with
      | zero =>
        simp only [List.getElem?_cons_zero, Option.some.injEq] at hm
        subst hm
        simp only [List.getElem?_cons_zero, Nat.add_zero, and_self]
      | succ k =>
        simp only [List.getElem?_cons_succ] at hm
        have h3 : i + (k + 1) = i + 1 + k := by omega
        rw [h3]
        simp only [List.getElem?_cons_succ]
        exact ih (i + 1) hrun k m hm

/-- The instance list has one record per mesh. -/
theorem createBottomLevel_instances_length (c : Bool) (d : SceneDriver) :
    ∀ (ms : List RTMesh) (i : Nat), (createBottomLevel c d i ms).aborted = false →
      (createBottomLevel c d i ms).instances.length = ms.length ∧
      (createBottomLevel c d i ms).geometries.length = ms.length := by
  intro ms
  induction ms with
  | nil => intro i _; exact ⟨rfl, rfl⟩
  | cons m0 rest ih =>
    intro i hrun
    simp only [createBottomLevel] at hrun ⊢
    split at hrun
    · simp at hrun
    · have := ih (i + 1) hrun
      simp only [List.length_cons, this.1, this.2, and_self]

/-- Mesh `j` after the recording loop is mesh `j` before it with the build info set. -/
theorem recordedMeshes_getElem (i : Nat) (ms : List RTMesh) (j : Nat) (m : RTMesh)
    (hm : ms[j]? = some m) :
    (recordedMeshes i ms)[j]? =
      some { m with blas :=
        { m.blas with accelerationStructureInfo := bottomLevelBuildInfo (i + j) m } } := by
  induction ms generalizing i j with
  | nil => simp at hm
  | cons m0 rest ih =>
    cases j with
    | zero =>
      simp only [List.getElem?_cons_zero, Option.some.injEq] at hm
      subst hm
      simp only [recordedMeshes, List.getElem?_cons_zero, Nat.add_zero]
    | succ k =>
      simp only [List.getElem?_cons_succ] at hm
      have h3 : i + (k + 1) = i + 1 + k := by omega
      rw [h3]
      simp only [recordedMeshes, List.getElem?_cons_succ]
      exact ih (i + 1) k hm

/-- C23: for every scene with `N` meshes, `N` at most `2^24`, a `CreateScene` that runs to
its end produces exactly one instance record per mesh; record `i` has `instanceId = i`,
`mask = 0xFF`, `instanceOffset = 0`, the identity 3x4 transform (rows `1 0 0 0`,
`0 1 0 0`, `0 0 1 0`, each `float` given by its bit pattern: `0x3F800000` is `1.0f` and `0`
is `0.0f`) and the handle of the bottom-level structure of mesh `i`.  Mesh `i` keeps its
buffers, and entry `i` of each
per-mesh descriptor array filled by `LoadSceneGeometry` describes a buffer of mesh `i`, so
instance ids index the meshes in the order of the descriptor arrays. -/
theorem C23_one_instance_per_mesh (c : Bool) (d : SceneDriver) (ms : List RTMesh)
    (t : RTAccelerationStructure) (hrun : (CreateScene c d ms t).aborted = false)
    (hN : ms.length ≤ 16777216) :
    (CreateScene c d ms t).instances.length = ms.length ∧
    (CreateScene c d ms t).meshes.length = ms.length ∧
    (bufferInfos RTMesh.matIDs ms).length = ms.length ∧
    ∀ (i : Nat) (m : RTMesh), ms[i]? = some m →
      ∃ m1 : RTMesh, (CreateScene c d ms t).meshes[i]? = some m1 ∧
        (CreateScene c d ms t).instances[i]? =
          some { transform :=
                   [0x3F800000, 0, 0, 0, 0, 0x3F800000, 0, 0, 0, 0, 0x3F800000, 0],
                 instanceId := i, mask := 0xff,
                 instanceOffset := 0,
                 flags := VK_GEOMETRY_INSTANCE_TRIANGLE_CULL_DISABLE_BIT_NV,
                 accelerationStructureHandle := m1.blas.handle } ∧
        m1.matIDs = m.matIDs ∧ m1.attribs = m.attribs ∧ m1.faces = m.faces ∧
        (bufferInfos RTMesh.matIDs ms)[i]? =
          some { buffer := m1.matIDs.GetBuffer, offset := 0, range := m1.matIDs.GetSize } ∧
        (bufferInfos RTMesh.attribs ms)[i]? =
          some { buffer := m1.attribs.GetBuffer, offset := 0, range := m1.attribs.GetSize } ∧
        (bufferInfos RTMesh.faces ms)[i]? =
          some { buffer := m1.faces.GetBuffer, offset := 0, range := m1.faces.GetSize } := by
  have hphase := (CreateScene_run c d ms t hrun).1
  rw [(CreateScene_run c d ms t hrun).2]
  simp only
  refine ⟨(createBottomLevel_instances_length c d ms 0 hphase).1, ?_, ?_, ?_⟩
  · rw [recordedMeshes_length, createBottomLevel_length]
  · simp [bufferInfos]
  · intro i m hm
    have hi : i < ms.length := (List.getElem?_eq_some_iff.mp hm).1
    have hget := createBottomLevel_get c d ms 0 hphase i m hm
    rw [Nat.zero_add] at hget
    have hid : u32 i % 16777216 = i := by
      unfold u32
      omega
    refine ⟨_, recordedMeshes_getElem 0 _ i _ hget.1, ?_, rfl, rfl, rfl, ?_, ?_, ?_⟩
    · rw [hget.2.2]
      simp only [instanceOf, hid]
      rfl
    · simp [bufferInfos, hm]
    · simp [bufferInfos, hm]
    · simp [bufferInfos, hm]

/-- C23 at a concrete input: the scene of two meshes gets the instance records 0 and 1 with
the identity transform and the handles 300 and 301 of the two bottom-level structures. -/
theorem C23_one_instance_per_mesh_witness :
    (CreateScene true sampleDriver sampleScene sampleNoAS).aborted = false ∧
    sampleScene.length ≤ 16777216 ∧
    (CreateScene true sampleDriver sampleScene sampleNoAS).instances.length = 2 ∧
    (CreateScene true sampleDriver sampleScene sampleNoAS).instances =
      [{ transform := [0x3F800000, 0, 0, 0, 0, 0x3F800000, 0, 0, 0, 0, 0x3F800000, 0],
         instanceId := 0, mask := 255, instanceOffset := 0,
         flags := 1, accelerationStructureHandle := 300 },
       { transform := [0x3F800000, 0, 0, 0, 0, 0x3F800000, 0, 0, 0, 0, 0x3F800000, 0],
         instanceId := 1, mask := 255, instanceOffset := 0,
         flags := 1, accelerationStructureHandle := 301 }] :=
  have hthm := C23_one_instance_per_mesh true sampleDriver sampleScene sampleNoAS
    (by decide) (by decide)
  ⟨by decide, by decide, hthm.1, by decide⟩

/-- Truncating a `size_t` value to 32 bits is truncating the value itself. -/
theorem u32_u64 (n : Nat) : u32 (u64 n) = u32 n := by
  unfold u32 u64
  omega

/-- The counts of a loaded mesh are set from the number of faces of the shape, whatever
happens afterwards. -/
theorem loadMesh_counts (c : Bool) (sva : Nat) (reply : MeshBuffersReply) (shape : Shape)
    (mesh : RTMesh) :
    (loadMesh c sva reply shape mesh).mesh.numFaces = u32 shape.num_face_vertices.length ∧
    (loadMesh c sva reply shape mesh).mesh.numVertices =
      u32 (shape.num_face_vertices.length * 3) := by
  unfold loadMesh
  simp only [u32_u64]
  split_ifs <;> exact ⟨rfl, rfl⟩

/-- When no mesh load ended the program, mesh `i` is the one loaded from shape `i`. -/
theorem loadMeshes_get (c : Bool) (sva : Nat) (replies : Nat → MeshBuffersReply) :
    ∀ (shapes : List Shape) (k : Nat),
      (loadMeshes c sva replies k shapes).any LoadedMesh.aborted = false →
      ∀ (i : Nat) (shape : Shape), shapes[i]? = some shape →
        (loadMeshes c sva replies k shapes)[i]? =
          some (loadMesh c sva (replies (k + i)) shape RTMesh.empty) := by
  intro shapes
  induction shapes with
  | nil => intro k _ i shape hs; simp at hs
  | cons s0 rest ih =>
    intro k hrun i shape hs
    simp only [loadMeshes] at hrun ⊢
    split_ifs at hrun ⊢ with hab
    · simp [hab] at hrun
    · simp only [List.any_cons, Bool.or_eq_false_iff] at hrun
      cases i with
      | zero =>
        simp only [List.getElem?_cons_zero, Option.some.injEq] at hs
        subst hs
        simp only [List.getElem?_cons_zero, Nat.add_zero]
      | succ j =>
        simp only [List.getElem?_cons_succ] at hs
        have h3 : k + (j + 1) = k + 1 + j := by omega
        rw [h3]
        simp only [List.getElem?_cons_succ]
        exact ih (k + 1) hrun.2 j shape hs

/-- `loadMeshes` yields one entry per shape. -/
theorem loadMeshes_length (c : Bool) (sva : Nat) (replies : Nat → MeshBuffersReply) :
    ∀ (shapes : List Shape) (k : Nat),
      (loadMeshes c sva replies k shapes).length = shapes.length := by
  intro shapes
  induction shapes with
  | nil => intro k; rfl
  | cons s0 rest ih =>
    intro k
    simp only [loadMeshes]
    split_ifs
    · simp
    · simp [ih]

/-- C24: for every mesh that `LoadSceneGeometry` produces from a shape with `F` faces,
`numFaces` is `F` and `numVertices` is `3 * F` as 32-bit values, so
`numVertices == 3 * numFaces` in 32-bit arithmetic; the counts are taken from the number
of faces alone, also when the conversion loop skips faces that are no triangles.  The
geometry `CreateScene` declares for the bottom-level structure of the mesh has
`vertexCount = numVertices` and `indexCount = 3 * numFaces`. -/
theorem C24_vertex_count (c : Bool) (sva : Nat) (replies : Nat → MeshBuffersReply)
    (shapes : List Shape)
    (hrun : (LoadSceneGeometry c sva replies shapes).aborted = false) :
    (LoadSceneGeometry c sva replies shapes).meshes.length = shapes.length ∧
    ∀ (i : Nat) (shape : Shape), shapes[i]? = some shape →
      ∃ m : RTMesh, (LoadSceneGeometry c sva replies shapes).meshes[i]? = some m ∧
        m.numFaces = u32 shape.num_face_vertices.length ∧
        m.numVertices = u32 (3 * shape.num_face_vertices.length) ∧
        m.numVertices = u32 (3 * m.numFaces) ∧
        (geometryOf m).vertexCount = m.numVertices ∧
        (geometryOf m).indexCount = u32 (3 * m.numFaces) ∧
        ∀ (c2 : Bool) (d : SceneDriver) (t : RTAccelerationStructure),
          (CreateScene c2 d (LoadSceneGeometry c sva replies shapes).meshes t).aborted = false →
          (CreateScene c2 d (LoadSceneGeometry c sva replies shapes).meshes t).geometries[i]? =
            some (geometryOf m) := by
  have hany : (loadMeshes c sva replies 0 shapes).any LoadedMesh.aborted = false := by
    unfold LoadSceneGeometry at hrun
    simp only at hrun
    by_cases h : (loadMeshes c sva replies 0 shapes).any LoadedMesh.aborted = true
    · rw [if_pos h] at hrun
      simp at hrun
    · exact Bool.eq_false_iff.mpr h
  have hmeshes : (LoadSceneGeometry c sva replies shapes).meshes =
      (loadMeshes c sva replies 0 shapes).map LoadedMesh.mesh := by
    unfold LoadSceneGeometry
    simp only
    split_ifs <;> rfl
  rw [hmeshes]
  refine ⟨by rw [List.length_map, loadMeshes_length], ?_⟩
  intro i shape hs
  have hget := loadMeshes_get c sva replies shapes 0 hany i shape hs
  have hcounts := loadMesh_counts c sva (replies (0 + i)) shape RTMesh.empty
  have hm : ((loadMeshes c sva replies 0 shapes).map LoadedMesh.mesh)[i]? =
      some (loadMesh c sva (replies (0 + i)) shape RTMesh.empty).mesh := by
    rw [List.getElem?_map, hget]
    rfl
  refine ⟨_, hm, hcounts.1, ?_, ?_, rfl, ?_, ?_⟩
  · rw [hcounts.2, Nat.mul_comm]
  · rw [hcounts.2, hcounts.1]
    unfold u32
    omega
  · unfold geometryOf
    simp only
    rw [Nat.mul_comm]
  · intro c2 d t hscene
    have hphase := (CreateScene_run c2 d _ t hscene).1
    rw [(CreateScene_run c2 d _ t hscene).2]
    exact (createBottomLevel_get c2 d _ 0 hphase i _ hm).2.1

/-- C24 at a concrete input: a shape of three triangles gives `numFaces = 3` and
`numVertices = 9`; a shape of three triangles and one four-sided face gives `numFaces = 4`
and `numVertices = 12`, although the conversion loop skips face 1 and converts 9
vertices. -/
theorem C24_vertex_count_witness :
    (LoadSceneGeometry true 32 (fun i => sampleMeshReply (20 + 10 * i)) sampleShapes).aborted =
      false ∧
    (LoadSceneGeometry true 32 (fun i => sampleMeshReply (20 + 10 * i))
      sampleShapes).meshes.length = 2 ∧
    (LoadSceneGeometry true 32 (fun i => sampleMeshReply (20 + 10 * i)) sampleShapes).meshes.map
      (fun m => (m.numFaces, m.numVertices)) = [(3, 9), (4, 12)] ∧
    (loadMeshes true 32 (fun i => sampleMeshReply (20 + 10 * i)) 0 sampleShapes).map
      (fun lm => (lm.conversion.vIdx, lm.conversion.skipped)) = [(9, []), (9, [1])] :=
  have hthm := C24_vertex_count true 32 (fun i => sampleMeshReply (20 + 10 * i)) sampleShapes
    (by decide)
  ⟨by decide, hthm.1, by decide, by decide⟩

/-! ## The ray dispatch of a frame -/

/-- C25, as stated, fails: for the helper configured by `Initialize(1, 0, 2^31)` the miss
region offset passed to the ray dispatch is `GetMissGroupsOffset() = 0`, not
`(1 + H) * stride = 2^32`. -/
theorem C25_counterexample :
    FillCommandBuffer (sampleApp (Initialize 1 0 2147483648 RTXHelper.new)) =
      [.bindPipeline VK_PIPELINE_BIND_POINT_RAY_TRACING_NV 41,
       .bindDescriptorSets VK_PIPELINE_BIND_POINT_RAY_TRACING_NV 40 0 3 [50, 51, 52] 0,
       .traceRays 0 0 0 0 2147483648 0 2147483648 2147483648 0 0 0 1280 720 1] ∧
    (1 + 1) * 2147483648 ≠ 0 := by
  decide

/-- C25 (amended): `FillCommandBuffer` records exactly one ray dispatch, after binding the
pipeline and the descriptor sets.  The dispatch uses the table buffer `GetSBTBuffer()` for
all three regions, the raygen region at offset 0, the miss region at
`GetMissGroupsOffset()` and the hit region at `GetHitGroupsOffset()`, both with stride
`GetGroupsStride()`, no callable region, and the extent `(resolutionX, resolutionY, 1)`.
When `(1 + H) * stride` fits 32 bits, the miss offset is `(1 + H) * stride` and the hit
offset is `stride`; in general they are these products modulo `2^32`. -/
theorem C25_one_ray_dispatch (app : RtxApp) (H s : Nat)
    (hH : app.rtxHelper._NumHitGroups = H) (hs : app.rtxHelper._ShaderHeaderSize = s) :
    (FillCommandBuffer app).countP FrameCommand.isTraceRays = 1 ∧
    (FillCommandBuffer app)[2]? =
      some (.traceRays
        app.rtxHelper.GetSBTBuffer 0
        app.rtxHelper.GetSBTBuffer app.rtxHelper.GetMissGroupsOffset
          app.rtxHelper.GetGroupsStride
        app.rtxHelper.GetSBTBuffer app.rtxHelper.GetHitGroupsOffset
          app.rtxHelper.GetGroupsStride
        VK_NULL_HANDLE 0 0 app.resolutionX app.resolutionY 1) ∧
    (FillCommandBuffer app).length = 3 ∧
    app.rtxHelper.GetGroupsStride = s ∧
    app.rtxHelper.GetHitGroupsOffset = s % 4294967296 ∧
    app.rtxHelper.GetMissGroupsOffset = (1 + H) * s % 4294967296 ∧
    ((1 + H) * s < 4294967296 →
      app.rtxHelper.GetHitGroupsOffset = s ∧
      app.rtxHelper.GetMissGroupsOffset = (1 + H) * s) := by
  have hhit : app.rtxHelper.GetHitGroupsOffset = s % 4294967296 := by
    unfold GetHitGroupsOffset u32
    rw [hs, Nat.one_mul]
  have hmiss : app.rtxHelper.GetMissGroupsOffset = (1 + H) * s % 4294967296 := by
    unfold GetMissGroupsOffset u32
    rw [hs, hH, Nat.mod_mul_mod]
  refine ⟨rfl, rfl, rfl, hs, hhit, hmiss, ?_⟩
  intro hfit
  rw [hhit, hmiss]
  refine ⟨Nat.mod_eq_of_lt ?_, Nat.mod_eq_of_lt hfit⟩
  have : s ≤ (1 + H) * s := Nat.le_mul_of_pos_left s (by omega)
  omega

/-- C25 (amended) at the application's table: 2 hit groups, 2 miss groups and stride 32
give the hit offset 32 and the miss offset 96. -/
theorem C25_one_ray_dispatch_witness :
    sampleTable._NumHitGroups = 2 ∧ sampleTable._ShaderHeaderSize = 32 ∧
    (FillCommandBuffer (sampleApp sampleTable)).countP FrameCommand.isTraceRays = 1 ∧
    (FillCommandBuffer (sampleApp sampleTable))[2]? =
      some (.traceRays 0 0 0 96 32 0 32 32 0 0 0 1280 720 1) :=
  have hthm := C25_one_ray_dispatch (sampleApp sampleTable) 2 32 rfl rfl
  ⟨rfl, rfl, hthm.1, hthm.2.1.trans (by decide)⟩
/-! ## The stage list and the shader indices after registration in ascending order -/

/-- The stages of the `k`-th list lie in the flattened list from position
`stageTotal (hs.take k)` on. -/
theorem flatten_getElem (hs : List (List VkPipelineShaderStageCreateInfo)) :
    ∀ (k : Nat) (ss : List VkPipelineShaderStageCreateInfo) (j : Nat),
      hs[k]? = some ss → j < ss.length →
      hs.flatten[stageTotal (hs.take k) + j]? = ss[j]? := by
  induction hs with
  | nil => intro k ss j hk; simp at hk
  | cons x rest ih =>
    intro k ss j hk hj
    cases k with
    | zero =>
      simp only [List.getElem?_cons_zero, Option.some.injEq] at hk
      subst hk
      simp only [List.take_zero, stageTotal, List.map_nil, List.sum_nil, Nat.zero_add,
        List.flatten_cons]
      rw [List.getElem?_append_left hj]
    | succ k1 =>
      simp only [List.getElem?_cons_succ] at hk
      have h1 : stageTotal ((x :: rest).take (k1 + 1)) = x.length + stageTotal (rest.take k1) := by
        simp [stageTotal]
      rw [h1, List.flatten_cons, Nat.add_assoc,
        List.getElem?_append_right (by omega), Nat.add_sub_cancel_left]
      exact ih k1 ss j hk hj

/-- The stage total up to and including list `k`. -/
theorem stageTotal_take_succ (hs : List (List VkPipelineShaderStageCreateInfo)) :
    ∀ (k : Nat) (ss : List VkPipelineShaderStageCreateInfo), hs[k]? = some ss →
      stageTotal (hs.take (k + 1)) = stageTotal (hs.take k) + ss.length := by
  induction hs with
  | nil => intro k ss hk; simp at hk
  | cons x rest ih =>
    intro k ss hk
    cases k with
    | zero =>
      simp only [List.getElem?_cons_zero, Option.some.injEq] at hk
      subst hk
      simp [stageTotal]
    | succ k1 =>
      simp only [List.getElem?_cons_succ] at hk
      have h := ih k1 ss hk
      simp only [stageTotal, List.take_succ_cons, List.map_cons, List.sum_cons] at h ⊢
      omega

/-- The stage total of an initial part is at most the stage total. -/
theorem stageTotal_take_le (hs : List (List VkPipelineShaderStageCreateInfo)) (k : Nat) :
    stageTotal (hs.take k) ≤ stageTotal hs := by
  induction hs generalizing k with
  | nil => simp [stageTotal]
  | cons x rest ih =>
    cases k with
    | zero => simp [stageTotal]
    | succ k1 =>
      have h := ih k1
      simp only [stageTotal, List.take_succ_cons, List.map_cons, List.sum_cons] at h ⊢
      omega

/-- The shader index the loop of `AddStageToHitGroup` writes for one kind is unused, or the
position in the final stage list of a stage of that kind from the stage list of the
group. -/
theorem hit_index_in_range (raygen : VkPipelineShaderStageCreateInfo)
    (hs : List (List VkPipelineShaderStageCreateInfo))
    (ms : List VkPipelineShaderStageCreateInfo) (k : Nat)
    (ss : List VkPipelineShaderStageCreateInfo) (hk : hs[k]? = some ss)
    (hfit : 1 + stageTotal hs < 4294967296) (kind idx : Nat)
    (hloop : (∀ st ∈ ss, st.stage ≠ kind) ∧ idx = VK_SHADER_UNUSED_NV ∨
      ∃ j st, ss[j]? = some st ∧ st.stage = kind ∧
        idx = u32 (1 + stageTotal (hs.take k) + (0 + j))) :
    (∀ st ∈ ss, st.stage ≠ kind) ∧ idx = VK_SHADER_UNUSED_NV ∨
    ∃ j st, ss[j]? = some st ∧ st.stage = kind ∧
      idx = 1 + stageTotal (hs.take k) + j ∧
      1 + stageTotal (hs.take k) ≤ idx ∧ idx < 1 + stageTotal (hs.take (k + 1)) ∧
      (raygen :: (hs.flatten ++ ms))[idx]? = some st := by
  rcases hloop with h | ⟨j, st, hj, hst, hidx⟩
  · exact Or.inl h
  · right
    have hjlt : j < ss.length := (List.getElem?_eq_some_iff.mp hj).1
    have hsucc := stageTotal_take_succ hs k ss hk
    have hle := stageTotal_take_le hs (k + 1)
    have hidx2 : idx = 1 + stageTotal (hs.take k) + j := by
      rw [hidx, Nat.zero_add]
      exact u32_of_lt (by omega)
    refine ⟨j, st, hj, hst, hidx2, by omega, by omega, ?_⟩
    have hflat : hs.flatten.length = stageTotal hs := List.length_flatten hs
    have e : idx = (stageTotal (hs.take k) + j) + 1 := by omega
    rw [e, List.getElem?_cons_succ, List.getElem?_append_left (by omega),
      flatten_getElem hs k ss j hk hjlt]
    exact hj

/-- C26: for every `H` and `M` (with `3 * H + M + 1` below `2^32`), every hit stage lists
`s_0 .. s_(H-1)` of 1 to 3 stages each and every miss stages `m_0 .. m_(M-1)`: on a helper
with clear counters, `Initialize(H, M, stride)`, `SetRaygenStage(r)`,
`AddStageToHitGroup(s_k, k)` for ascending `k`, then `AddStageToMissGroup(m_j, j)` for
ascending `j` all return; the stage list is `[r] ++ s_0 ++ .. ++ s_(H-1) ++ [m_0, ..]`;
`GetNu_Stages()` is `1 + (sum of the |s_k|) + M`; each shader index of hit group `k` that is
not unused lies in `[1 + sum_(i<k) |s_i|, 1 + sum_(i<=k) |s_i|)` and is the position of a
stage of `s_k` of its kind; and the `generalShader` of miss group `j` is
`1 + (sum of the |s_k|) + j`, the position of `m_j`. -/
theorem C26_stage_list_and_indices (H M s : Nat) (prior : RTXHelper)
    (raygen : VkPipelineShaderStageCreateInfo)
    (hs : List (List VkPipelineShaderStageCreateInfo))
    (ms : List VkPipelineShaderStageCreateInfo)
    (hclear : CountersClear prior) (hH : hs.length = H) (hM : ms.length = M)
    (hall : ∀ ss ∈ hs, ss ≠ [] ∧ ss.length ≤ 3)
    (hfit : 3 * H + M + 1 < 4294967296) :
    ∃ h : RTXHelper,
      populate H M s prior raygen (canonicalHits 0 hs ++ canonicalMisses 0 ms) = .ok h ∧
      h._Stages = raygen :: (hs.flatten ++ ms) ∧
      GetNu_Stages h = 1 + stageTotal hs + M ∧
      (∀ (k : Nat) (ss : List VkPipelineShaderStageCreateInfo), hs[k]? = some ss →
        ∃ grp : VkRayTracingShaderGroupCreateInfoNV, h._Groups[1 + k]? = some grp ∧
          ((∀ st ∈ ss, st.stage ≠ VK_SHADER_STAGE_CLOSEST_HIT_BIT_NV) ∧
              grp.closestHitShader = VK_SHADER_UNUSED_NV ∨
            ∃ j st, ss[j]? = some st ∧ st.stage = VK_SHADER_STAGE_CLOSEST_HIT_BIT_NV ∧
              grp.closestHitShader = 1 + stageTotal (hs.take k) + j ∧
              1 + stageTotal (hs.take k) ≤ grp.closestHitShader ∧
              grp.closestHitShader < 1 + stageTotal (hs.take (k + 1)) ∧
              h._Stages[grp.closestHitShader]? = some st) ∧
          ((∀ st ∈ ss, st.stage ≠ VK_SHADER_STAGE_ANY_HIT_BIT_NV) ∧
              grp.anyHitShader = VK_SHADER_UNUSED_NV ∨
            ∃ j st, ss[j]? = some st ∧ st.stage = VK_SHADER_STAGE_ANY_HIT_BIT_NV ∧
              grp.anyHitShader = 1 + stageTotal (hs.take k) + j ∧
              1 + stageTotal (hs.take k) ≤ grp.anyHitShader ∧
              grp.anyHitShader < 1 + stageTotal (hs.take (k + 1)) ∧
              h._Stages[grp.anyHitShader]? = some st)) ∧
      (∀ (j : Nat) (m : VkPipelineShaderStageCreateInfo), ms[j]? = some m →
        ∃ grp : VkRayTracingShaderGroupCreateInfoNV, h._Groups[1 + H + j]? = some grp ∧
          grp.generalShader = 1 + stageTotal hs + j ∧
          h._Stages[grp.generalShader]? = some m) := by
  have htot := stageTotal_le hs hall
  have hflat : hs.flatten.length = stageTotal hs := List.length_flatten hs
  refine ⟨expectedState (Initialize H M s prior) raygen hs 0 ms 0,
    populate_canonical H M s prior raygen hs ms hclear hH hM hall hfit, rfl, ?_, ?_, ?_⟩
  · unfold GetNu_Stages
    have hlen : (expectedState (Initialize H M s prior) raygen hs 0 ms 0)._Stages.length =
        1 + stageTotal hs + M := by
      simp only [expectedState, List.length_cons, List.length_append, hflat, hM]
      omega
    rw [hlen]
    exact u32_of_lt (by omega)
  · intro k ss hk
    have hklt : k < hs.length := (List.getElem?_eq_some_iff.mp hk).1
    refine ⟨hitGroupInfo (1 + stageTotal (hs.take k)) ss, ?_, ?_, ?_⟩
    · show (raygenGroup :: (expectedHitGroups 1 hs ++
        expectedMissGroups (1 + stageTotal hs) ms))[1 + k]? = _
      rw [Nat.add_comm 1 k, List.getElem?_cons_succ,
        List.getElem?_append_left (by rw [length_expectedHitGroups]; exact hklt)]
      exact getElem?_expectedHitGroups hs 1 k ss hk
    · exact hit_index_in_range raygen hs ms k ss hk (by omega) _ _
        (hitGroupLoop_closest (1 + stageTotal (hs.take k)) ss 0 emptyHitGroup)
    · exact hit_index_in_range raygen hs ms k ss hk (by omega) _ _
        (hitGroupLoop_any (1 + stageTotal (hs.take k)) ss 0 emptyHitGroup)
  · intro j m hjm
    have hj : j < ms.length := (List.getElem?_eq_some_iff.mp hjm).1
    refine ⟨missGroupInfo (1 + stageTotal hs + j), ?_, rfl, ?_⟩
    · show (raygenGroup :: (expectedHitGroups 1 hs ++
        expectedMissGroups (1 + stageTotal hs) ms))[1 + H + j]? = _
      have hidx : 1 + H + j = (hs.length + j) + 1 := by omega
      rw [hidx, List.getElem?_cons_succ,
        List.getElem?_append_right (by rw [length_expectedHitGroups]; omega),
        length_expectedHitGroups, Nat.add_sub_cancel_left]
      exact getElem?_expectedMissGroups ms _ j hj
    · show (raygen :: (hs.flatten ++ ms))[1 + stageTotal hs + j]? = some m
      have hidx : 1 + stageTotal hs + j = (hs.flatten.length + j) + 1 := by omega
      rw [hidx, List.getElem?_cons_succ, List.getElem?_append_right (by omega),
        Nat.add_sub_cancel_left]
      exact hjm

/-- C26 at the application's configuration: two hit groups of one closest-hit stage each
and two miss groups give the five stages of `sampleTable` in the order raygen, hit stages,
miss stages, and `GetNu_Stages() = 5`. -/
theorem C26_stage_list_and_indices_witness :
    CountersClear RTXHelper.new ∧
    populate 2 2 32 RTXHelper.new sampleRaygen
      (canonicalHits 0 [[sampleChit], [sampleShadowChit]] ++
        canonicalMisses 0 [sampleMiss, sampleShadowMiss]) = .ok sampleTable ∧
    sampleTable._Stages =
      sampleRaygen :: ([[sampleChit], [sampleShadowChit]].flatten ++
        [sampleMiss, sampleShadowMiss]) ∧
    GetNu_Stages sampleTable = 1 + stageTotal [[sampleChit], [sampleShadowChit]] + 2 ∧
    sampleTable._Groups[1 + 1]? = some (hitGroupInfo 2 [sampleShadowChit]) ∧
    (hitGroupInfo 2 [sampleShadowChit]).closestHitShader = 2 ∧
    sampleTable._Stages[2]? = some sampleShadowChit :=
  have hclear : CountersClear RTXHelper.new := ⟨by decide, by decide⟩
  have hrun : populate 2 2 32 RTXHelper.new sampleRaygen
      (canonicalHits 0 [[sampleChit], [sampleShadowChit]] ++
        canonicalMisses 0 [sampleMiss, sampleShadowMiss]) = .ok sampleTable := by decide
  have hthm := C26_stage_list_and_indices 2 2 32 RTXHelper.new sampleRaygen
    [[sampleChit], [sampleShadowChit]] [sampleMiss, sampleShadowMiss]
    hclear rfl rfl (by decide) (by decide)
  hthm.elim fun h hh =>
    have heq : h = sampleTable := Outcome.ok.inj (hh.1.symm.trans hrun)
    ⟨hclear, hrun, heq ▸ hh.2.1, heq ▸ hh.2.2.1, by decide, by decide, by decide⟩

/-! ## Which registration orders stay within the group list -/

/-- Slot `k` of the canonical order is hit slot `k` for `k < H`. -/
theorem canonicalSlots_hit (H M k : Nat) (hk : k < H) :
    (canonicalSlots H M)[k]? = some (true, k) := by
  unfold canonicalSlots
  rw [List.getElem?_append_left (by simp; exact hk)]
  simp [hk]

/-- Slot `H + j` of the canonical order is miss slot `j` for `j < M`. -/
theorem canonicalSlots_miss (H M j : Nat) (hj : j < M) :
    (canonicalSlots H M)[H + j]? = some (false, j) := by
  unfold canonicalSlots
  rw [List.getElem?_append_right (by simp)]
  simp [hj]

/-- The canonical order has `H + M` slots. -/
theorem canonicalSlots_length (H M : Nat) : (canonicalSlots H M).length = H + M := by
  simp [canonicalSlots]

/-- The rest of a list from an index within the list on. -/
theorem drop_of_getElem? {α : Type} (l : List α) (n : Nat) (a : α) (h : l[n]? = some a) :
    l.drop n = a :: l.drop (n + 1) := by
  obtain ⟨hlt, heq⟩ := List.getElem?_eq_some_iff.mp h
  rw [List.drop_eq_getElem_cons hlt, heq]

/-- A counter beyond the registered ones is zero. -/
theorem getD_append_replicate (xs : List Nat) (n g : Nat) (hg : xs.length ≤ g) :
    (xs ++ List.replicate n 0).getD g 0 = 0 := by
  rw [List.getD_eq_getElem?_getD, List.getElem?_append_right hg]
  by_cases h : g - xs.length < n
  · rw [List.getElem?_replicate, if_pos h]
    rfl
  · rw [List.getElem?_eq_none (by simp; omega)]
    rfl

/-- The counters up to a slot beyond the registered ones sum to the registered total. -/
theorem sum_take_append_replicate (xs : List Nat) (n g : Nat) (hg : xs.length ≤ g) :
    ((xs ++ List.replicate n 0).take (g + 1)).sum = xs.sum := by
  rw [List.take_append_eq_append_take, List.take_of_length_le (by omega), List.sum_append,
    List.take_replicate, List.sum_replicate]
  simp

/-- `AddStageToHitGroup` has undefined behaviour when its assertions hold and the stages are
inserted, but the group-list position lies beyond the end of the group list. -/
theorem AddStageToHitGroup_beyond {stages : List VkPipelineShaderStageCreateInfo} {g : Nat}
    {h : RTXHelper} (h1 : h._Stages ≠ []) (h2 : g < h._NumHitShaders.length)
    (h3 : stages ≠ []) (h3' : stages.length ≤ 3) (h4 : h._NumHitShaders.getD g 0 = 0)
    (h5 : hitStageOffset h g ≤ h._Stages.length) (h6 : h._Groups.length < 1 + g) :
    AddStageToHitGroup stages g h = .undefinedBehaviour := by
  unfold AddStageToHitGroup
  rw [if_neg h1, if_neg (not_not.mpr h2), if_neg (not_not.mpr ⟨h3, h3'⟩),
    if_neg (not_not.mpr h4)]
  simp only [vectorInsert_of_le _ _ h5, vectorInsert_of_gt _ _ h6]

/-- The lengths of the lists of an expected state. -/
theorem expectedState_lengths (base : RTXHelper) (raygen : VkPipelineShaderStageCreateInfo)
    (hsDone : List (List VkPipelineShaderStageCreateInfo)) (nHit : Nat)
    (msDone : List VkPipelineShaderStageCreateInfo) (nMiss : Nat) :
    (expectedState base raygen hsDone nHit msDone nMiss)._Stages.length =
      1 + stageTotal hsDone + msDone.length ∧
    (expectedState base raygen hsDone nHit msDone nMiss)._Groups.length =
      1 + hsDone.length + msDone.length ∧
    (expectedState base raygen hsDone nHit msDone nMiss)._NumHitShaders.length =
      hsDone.length + nHit ∧
    (expectedState base raygen hsDone nHit msDone nMiss)._NumMissShaders.length =
      msDone.length + nMiss := by
  refine ⟨?_, ?_, ?_, ?_⟩
  · simp [expectedState, stageTotal, List.length_flatten]
    omega
  · simp [expectedState, length_expectedHitGroups, length_expectedMissGroups]
    omega
  · simp [expectedState]
  · simp [expectedState]

/-- The stage offsets computed on an expected state for slots that are not registered. -/
theorem expectedState_offsets (base : RTXHelper) (raygen : VkPipelineShaderStageCreateInfo)
    (hsDone : List (List VkPipelineShaderStageCreateInfo)) (nHit : Nat)
    (msDone : List VkPipelineShaderStageCreateInfo) (nMiss : Nat)
    (hfit : 1 + stageTotal hsDone + msDone.length < 4294967296) :
    (∀ g, hsDone.length ≤ g →
      hitStageOffset (expectedState base raygen hsDone nHit msDone nMiss) g =
        1 + stageTotal hsDone) ∧
    (∀ g, msDone.length ≤ g →
      missStageOffset (expectedState base raygen hsDone nHit msDone nMiss) g =
        1 + stageTotal hsDone + msDone.length) := by
  have hsum : (hsDone.map List.length ++ List.replicate nHit 0).sum = stageTotal hsDone := by
    simp [stageTotal]
  constructor
  · intro g hg
    unfold hitStageOffset expectedState
    simp only
    have htake := sum_take_append_replicate (hsDone.map List.length) nHit g
      (by rw [List.length_map]; exact hg)
    rw [addAllU32_eq_sum _ _ (by rw [htake]; unfold stageTotal at hfit; omega), htake]
    rfl
  · intro g hg
    unfold missStageOffset expectedState
    simp only
    have htake := sum_take_append_replicate (msDone.map (fun _ => 1)) nMiss g
      (by rw [List.length_map]; exact hg)
    rw [sum_map_one] at htake
    rw [addAllU32_eq_sum _ 1 (by rw [hsum]; omega), hsum,
      addAllU32_eq_sum _ _ (by rw [htake]; omega), htake]

/-- Registering a hit slot above the next free one inserts its group beyond the end of the
group list. -/
theorem hit_not_next (base : RTXHelper) (raygen : VkPipelineShaderStageCreateInfo)
    (hsDone : List (List VkPipelineShaderStageCreateInfo)) (nHit nMiss : Nat)
    (stages : List VkPipelineShaderStageCreateInfo) (g : Nat)
    (hne : stages ≠ []) (hle : stages.length ≤ 3)
    (hg1 : hsDone.length < g) (hg2 : g < hsDone.length + nHit)
    (hfit : 1 + stageTotal hsDone < 4294967296) :
    AddStageToHitGroup stages g (expectedState base raygen hsDone nHit [] nMiss) =
      .undefinedBehaviour := by
  have hlen := expectedState_lengths base raygen hsDone nHit [] nMiss
  have hoff := (expectedState_offsets base raygen hsDone nHit [] nMiss
    (by simpa using hfit)).1 g (by omega)
  refine AddStageToHitGroup_beyond (by simp [expectedState]) (by rw [hlen.2.2.1]; exact hg2)
    hne hle ?_ (by rw [hoff, hlen.1]; omega) (by rw [hlen.2.1]; simp; omega)
  have := getD_append_replicate (hsDone.map List.length) nHit g
    (by rw [List.length_map]; omega)
  exact this

/-- Registering a miss slot before all hit slots are registered, or a miss slot above the
next free one, inserts its group beyond the end of the group list. -/
theorem miss_not_next (base : RTXHelper) (raygen : VkPipelineShaderStageCreateInfo)
    (hsDone : List (List VkPipelineShaderStageCreateInfo)) (nHit : Nat)
    (msDone : List VkPipelineShaderStageCreateInfo) (nMiss : Nat)
    (stage : VkPipelineShaderStageCreateInfo) (g : Nat)
    (hbase : base._NumHitGroups = hsDone.length + nHit)
    (hg1 : msDone.length ≤ g) (hg2 : g < msDone.length + nMiss)
    (hnot : 0 < nHit ∨ msDone.length < g)
    (hfit : 1 + stageTotal hsDone + msDone.length < 4294967296)
    (hpos : g + 1 + (hsDone.length + nHit) < 4294967296) :
    AddStageToMissGroup stage g (expectedState base raygen hsDone nHit msDone nMiss) =
      .undefinedBehaviour := by
  have hlen := expectedState_lengths base raygen hsDone nHit msDone nMiss
  have hoff := (expectedState_offsets base raygen hsDone nHit msDone nMiss hfit).2 g hg1
  have hcfg : (expectedState base raygen hsDone nHit msDone nMiss)._NumHitGroups =
      hsDone.length + nHit := hbase
  have hgp : u32 (u32 (g + 1) +
      (expectedState base raygen hsDone nHit msDone nMiss)._NumHitGroups) =
      g + 1 + (hsDone.length + nHit) := by
    rw [hcfg, u32_of_lt (n := g + 1) (by omega), u32_of_lt hpos]
  refine AddStageToMissGroup_beyond (by simp [expectedState]) (by rw [hlen.2.2.2]; exact hg2)
    ?_ (by rw [hoff, hlen.1]) (by rw [hgp, hlen.2.1]; omega)
  have := getD_append_replicate (msDone.map (fun _ => 1)) nMiss g
    (by rw [List.length_map]; omega)
  exact this

/-- After the next hit slot is registered, the remaining calls of a run without repeated
slots address slots above it. -/
theorem fits_after_hit (H M nh nm : Nat) (stages : List VkPipelineShaderStageCreateInfo)
    (rest : List Registration)
    (hfits : ∀ r ∈ rest, r.fits H M nh nm)
    (hnodup : ((Registration.hit stages nh :: rest).map Registration.slot).Nodup) :
    ∀ r ∈ rest, r.fits H M (nh + 1) nm := by
  intro r hr
  have hnot : (true, nh) ∉ rest.map Registration.slot := (List.nodup_cons.mp hnodup).1
  have hf := hfits r hr
  cases r with
  | hit ss g =>
    obtain ⟨h1, h2, h3, h4⟩ := hf
    refine ⟨h1, h2, ?_, h4⟩
    rcases Nat.eq_or_lt_of_le h3 with heq | hlt
    · exfalso
      apply hnot
      exact List.mem_map.mpr ⟨.hit ss g, hr, by rw [heq]; rfl⟩
    · exact hlt
  | miss st g => exact hf

/-- After the next miss slot is registered, the remaining calls of a run without repeated
slots address slots above it. -/
theorem fits_after_miss (H M nh nm : Nat) (stage : VkPipelineShaderStageCreateInfo)
    (rest : List Registration)
    (hfits : ∀ r ∈ rest, r.fits H M nh nm)
    (hnodup : ((Registration.miss stage nm :: rest).map Registration.slot).Nodup) :
    ∀ r ∈ rest, r.fits H M nh (nm + 1) := by
  intro r hr
  have hnot : (false, nm) ∉ rest.map Registration.slot := (List.nodup_cons.mp hnodup).1
  have hf := hfits r hr
  cases r with
  | hit ss g => exact hf
  | miss st g =>
    obtain ⟨h3, h4⟩ := hf
    refine ⟨?_, h4⟩
    rcases Nat.eq_or_lt_of_le h3 with heq | hlt
    · exfalso
      apply hnot
      exact List.mem_map.mpr ⟨.miss st g, hr, by rw [heq]; rfl⟩
    · exact hlt

/-- A run whose first call has undefined behaviour has undefined behaviour. -/
theorem register_cons_undefined (r : Registration) (rest : List Registration) (h : RTXHelper)
    (hcall : r.call h = .undefinedBehaviour) :
    register (r :: rest) h = .undefinedBehaviour := by
  show (r.call h).andThen (register rest) = _
  rw [hcall]
  rfl

/-- A run whose first call returns continues from the state it returns. -/
theorem register_cons_ok (r : Registration) (rest : List Registration) (h h1 : RTXHelper)
    (hcall : r.call h = .ok h1) :
    register (r :: rest) h = register rest h1 := by
  show (r.call h).andThen (register rest) = _
  rw [hcall]
  rfl

/-- From an expected state, a run of calls that address free slots of the configuration,
no slot twice, returns exactly when its slots are an initial part of the rest of the
canonical order; otherwise it has undefined behaviour (a group is inserted beyond the end
of the group list). -/
theorem register_expected (base : RTXHelper) (raygen : VkPipelineShaderStageCreateInfo)
    (H M : Nat) (hbase : base._NumHitGroups = H) (hfit : 3 * H + M + 1 < 4294967296) :
    ∀ (regs : List Registration) (hsDone : List (List VkPipelineShaderStageCreateInfo))
      (msDone : List VkPipelineShaderStageCreateInfo) (nHit nMiss : Nat),
      hsDone.length + nHit = H → msDone.length + nMiss = M → (msDone ≠ [] → nHit = 0) →
      (∀ ss ∈ hsDone, ss ≠ [] ∧ ss.length ≤ 3) →
      (∀ r ∈ regs, r.fits H M hsDone.length msDone.length) →
      (regs.map Registration.slot).Nodup →
      (regs.map Registration.slot <+:
          (canonicalSlots H M).drop (hsDone.length + msDone.length) →
        ∃ h, register regs (expectedState base raygen hsDone nHit msDone nMiss) = .ok h) ∧
      (¬ regs.map Registration.slot <+:
          (canonicalSlots H M).drop (hsDone.length + msDone.length) →
        register regs (expectedState base raygen hsDone nHit msDone nMiss) =
          .undefinedBehaviour) := by
  intro regs
  induction regs with
  | nil =>
    intro hsDone msDone nHit nMiss _ _ _ _ _ _
    exact ⟨fun _ => ⟨_, rfl⟩, fun hn => absurd List.nil_prefix hn⟩
  | cons r rest ih =>
    intro hsDone msDone nHit nMiss hH hM hphase hall hfits hnodup
    have htot := stageTotal_le hsDone hall
    have hrfits := hfits r (List.mem_cons_self _ _)
    have hrest : ∀ x ∈ rest, x.fits H M hsDone.length msDone.length :=
      fun x hx => hfits x (List.mem_cons_of_mem _ hx)
    have hnodup' : (rest.map Registration.slot).Nodup := (List.nodup_cons.mp hnodup).2
    cases r with
    | hit stages g =>
      obtain ⟨hne, hle, hge, hlt⟩ := hrfits
      have hms : msDone = [] := by
        by_contra hcon
        have := hphase hcon
        omega
      subst hms
      have hdrop := drop_of_getElem? _ _ _ (canonicalSlots_hit H M hsDone.length (by omega))
      simp only [List.length_nil, Nat.add_zero] at hdrop ⊢
      rw [hdrop]
      rcases Nat.eq_or_lt_of_le hge with heq | hgt
      · subst heq
        obtain ⟨k, hk⟩ : ∃ k, nHit = k + 1 := ⟨nHit - 1, by omega⟩
        subst hk
        have hstep := hit_step base raygen hsDone k nMiss stages hne hle (by omega)
        have hreg := register_cons_ok (.hit stages hsDone.length) rest _ _ hstep
        rw [hreg]
        have hih := ih (hsDone ++ [stages]) [] k nMiss
          (by simp only [List.length_append, List.length_singleton]; omega) hM (fun h => absurd rfl h)
          (by
            intro ss hss
            rcases List.mem_append.mp hss with h1 | h1
            · exact hall ss h1
            · rw [List.mem_singleton.mp h1]
              exact ⟨hne, hle⟩)
          (by
            have := fits_after_hit H M hsDone.length 0 stages rest hrest hnodup
            simpa using this)
          hnodup'
        simp only [List.length_append, List.length_singleton, List.length_nil,
          Nat.add_zero] at hih
        simp only [List.map_cons, Registration.slot, List.cons_prefix_cons, true_and]
        exact hih
      · have hcall := hit_not_next base raygen hsDone nHit nMiss stages g hne hle hgt
          (by omega) (by omega)
        have hreg := register_cons_undefined (.hit stages g) rest _ hcall
        constructor
        · intro hpre
          simp only [List.map_cons, Registration.slot, List.cons_prefix_cons,
            Prod.mk.injEq, true_and] at hpre
          omega
        · intro _
          exact hreg
    | miss stage g =>
      obtain ⟨hge, hlt⟩ := hrfits
      by_cases hnext : nHit = 0 ∧ g = msDone.length
      · obtain ⟨hn0, hg⟩ := hnext
        subst hn0
        subst hg
        obtain ⟨k, hk⟩ : ∃ k, nMiss = k + 1 := ⟨nMiss - 1, by omega⟩
        subst hk
        have hHlen : hsDone.length = H := by omega
        have hdrop := drop_of_getElem? _ _ _ (canonicalSlots_miss H M msDone.length (by omega))
        rw [hHlen, hdrop]
        have hstep := miss_step base raygen hsDone msDone k stage (by rw [hbase, hHlen])
          (by omega) (by omega)
        have hreg := register_cons_ok (.miss stage msDone.length) rest _ _ hstep
        rw [hreg]
        have hih := ih hsDone (msDone ++ [stage]) 0 k (by omega)
          (by simp only [List.length_append, List.length_singleton]; omega) (fun _ => rfl) hall
          (by
            have := fits_after_miss H M hsDone.length msDone.length stage rest hrest hnodup
            simpa using this)
          hnodup'
        simp only [List.length_append, List.length_singleton] at hih
        rw [hHlen, ← Nat.add_assoc] at hih
        simp only [List.map_cons, Registration.slot, List.cons_prefix_cons, true_and]
        exact hih
      · have hnot : 0 < nHit ∨ msDone.length < g := by omega
        have hcall := miss_not_next base raygen hsDone nHit msDone nMiss stage g
          (by rw [hbase, hH]) hge (by omega) hnot (by omega) (by omega)
        have hreg := register_cons_undefined (.miss stage g) rest _ hcall
        constructor
        · intro hpre
          exfalso
          rcases Nat.eq_zero_or_pos nHit with hz | hp
          · have hHlen : hsDone.length = H := by omega
            have hdrop := drop_of_getElem? _ _ _
              (canonicalSlots_miss H M msDone.length (by omega))
            rw [hHlen, hdrop] at hpre
            simp only [List.map_cons, Registration.slot, List.cons_prefix_cons,
              Prod.mk.injEq, true_and] at hpre
            omega
          · have hms : msDone = [] := by
              by_contra hcon
              have := hphase hcon
              omega
            subst hms
            have hdrop := drop_of_getElem? _ _ _
              (canonicalSlots_hit H M hsDone.length (by omega))
            simp only [List.length_nil, Nat.add_zero] at hpre
            rw [hdrop] at hpre
            simp only [List.map_cons, Registration.slot, List.cons_prefix_cons,
              Prod.mk.injEq] at hpre
            exact absurd hpre.1.1 (by decide)
        · intro _
          exact hreg

/-- The calling sequence is a run of the registration calls from the state after
`SetRaygenStage`. -/
theorem populate_eq_register (H M s : Nat) (prior : RTXHelper)
    (raygen : VkPipelineShaderStageCreateInfo) (regs : List Registration) :
    populate H M s prior raygen regs =
      register regs
        { Initialize H M s prior with _Stages := [raygen], _Groups := [raygenGroup] } := by
  unfold populate
  rw [SetRaygenStage_Initialize]
  rfl

/-- On a helper with clear counters, the state after `SetRaygenStage` is the expected state
with nothing registered. -/
theorem start_expected (H M s : Nat) (prior : RTXHelper)
    (raygen : VkPipelineShaderStageCreateInfo) (hclear : CountersClear prior) :
    ({ Initialize H M s prior with _Stages := [raygen], _Groups := [raygenGroup] } :
      RTXHelper) = expectedState (Initialize H M s prior) raygen [] H [] M := by
  simp [expectedState, Initialize, expectedHitGroups, expectedMissGroups,
    vectorResize_clear _ _ hclear.1, vectorResize_clear _ _ hclear.2]

/-- A run with undefined behaviour has a first call with undefined behaviour. -/
theorem register_first_undefined :
    ∀ (regs : List Registration) (h0 : RTXHelper), register regs h0 = .undefinedBehaviour →
      ∃ pre r post h, regs = pre ++ r :: post ∧ register pre h0 = .ok h ∧
        r.call h = .undefinedBehaviour := by
  intro regs
  induction regs with
  | nil => intro h0 hrun; simp [register] at hrun
  | cons r rest ih =>
    intro h0 hrun
    cases hcall : r.call h0 with
    | ok h1 =>
      rw [register_cons_ok r rest h0 h1 hcall] at hrun
      obtain ⟨pre, r1, post, h, hsplit, hpre, hr1⟩ := ih h1 hrun
      refine ⟨r :: pre, r1, post, h, by rw [hsplit]; rfl, ?_, hr1⟩
      rw [register_cons_ok r pre h0 h1 hcall]
      exact hpre
    | assertFailed h1 =>
      have : register (r :: rest) h0 = .assertFailed h1 := by
        show (r.call h0).andThen (register rest) = _
        rw [hcall]
        rfl
      rw [this] at hrun
      exact absurd hrun (by simp)
    | undefinedBehaviour =>
      exact ⟨[], r, rest, h0, rfl, rfl, hcall⟩

/-- A call has undefined behaviour only when one of its two insertion positions lies beyond
the end of its list. -/
theorem call_undefined (r : Registration) (h : RTXHelper)
    (hcall : r.call h = .undefinedBehaviour) :
    h._Stages.length < r.stagePosition h ∨ h._Groups.length < r.groupPosition h := by
  cases r with
  | hit stages g =>
    by_contra hcon
    have h5 : hitStageOffset h g ≤ h._Stages.length := by
      have := hcon
      simp only [Registration.stagePosition, Registration.groupPosition, not_or,
        Nat.not_lt] at this
      exact this.1
    have h6 : 1 + g ≤ h._Groups.length := by
      have := hcon
      simp only [Registration.stagePosition, Registration.groupPosition, not_or,
        Nat.not_lt] at this
      exact this.2
    have hc : AddStageToHitGroup stages g h = .undefinedBehaviour := hcall
    unfold AddStageToHitGroup at hc
    simp only [vectorInsert_of_le _ _ h5, vectorInsert_of_le _ _ h6] at hc
    split_ifs at hc
  | miss stage g =>
    by_contra hcon
    have h5 : missStageOffset h g ≤ h._Stages.length := by
      have := hcon
      simp only [Registration.stagePosition, Registration.groupPosition, not_or,
        Nat.not_lt] at this
      exact this.1
    have h6 : u32 (u32 (g + 1) + h._NumHitGroups) ≤ h._Groups.length := by
      have := hcon
      simp only [Registration.stagePosition, Registration.groupPosition, not_or,
        Nat.not_lt] at this
      exact this.2
    have hc : AddStageToMissGroup stage g h = .undefinedBehaviour := hcall
    unfold AddStageToMissGroup at hc
    simp only [vectorInsert_of_le _ _ h5, vectorInsert_of_le _ _ h6] at hc
    split_ifs at hc

/-- A run that returns has inserted one group per call. -/
theorem register_groups_length :
    ∀ (regs : List Registration) (h h1 : RTXHelper), register regs h = .ok h1 →
      h1._Groups.length = h._Groups.length + regs.length := by
  intro regs
  induction regs with
  | nil =>
    intro h h1 hrun
    have : h = h1 := Outcome.ok.inj hrun
    rw [this]
    rfl
  | cons r rest ih =>
    intro h h1 hrun
    cases hcall : r.call h with
    | ok h2 =>
      rw [register_cons_ok r rest h h2 hcall] at hrun
      have hlen := ih h2 h1 hrun
      have h2len : h2._Groups.length = h._Groups.length + 1 := by
        cases r with
        | hit stages g =>
          obtain ⟨_, _, _, _, _, _, _, heq⟩ := AddStageToHitGroup_ok hcall
          rw [heq]
          simp only [length_insert, List.length_singleton]
        | miss stage g =>
          obtain ⟨_, _, _, _, _, heq⟩ := AddStageToMissGroup_ok hcall
          rw [heq]
          simp only [length_insert, List.length_singleton]
      rw [hlen, h2len, List.length_cons]
      omega
    | assertFailed h2 =>
      have : register (r :: rest) h = .assertFailed h2 := by
        show (r.call h).andThen (register rest) = _
        rw [hcall]
        rfl
      rw [this] at hrun
      exact absurd hrun (by simp)
    | undefinedBehaviour =>
      rw [register_cons_undefined r rest h hcall] at hrun
      exact absurd hrun (by simp)

/-- In every state reached by registration calls after `Initialize` on a helper with clear
counters, the stage-list position of any further call is within the stage list. -/
theorem stagePosition_le (H M s : Nat) (prior : RTXHelper)
    (raygen : VkPipelineShaderStageCreateInfo) (pre : List Registration) (h : RTXHelper)
    (hclear : CountersClear prior) (hfit : 3 * H + M + 1 < 4294967296)
    (hrun : populate H M s prior raygen pre = .ok h) (r : Registration) :
    r.stagePosition h ≤ h._Stages.length := by
  obtain ⟨_, _, _, hlenH, hlenM, _⟩ := populate_config hrun
  obtain ⟨_, _, t3⟩ := populate_totals hclear hrun
  have hin : CountersInRange h :=
    populate_CountersInRange (CountersInRange_of_clear hclear) hrun
  cases r with
  | hit stages g =>
    show hitStageOffset h g ≤ h._Stages.length
    rw [hitStageOffset_eq h g hin (by rw [hlenH, hlenM]; exact hfit), t3]
    have := sum_take_le_sum h._NumHitShaders (g + 1)
    omega
  | miss stage g =>
    show missStageOffset h g ≤ h._Stages.length
    rw [missStageOffset_eq h g hin (by rw [hlenH, hlenM]; exact hfit), t3]
    have := sum_take_le_sum h._NumMissShaders (g + 1)
    omega

/-- An element of an initial part of a list is the element of the list at that index. -/
theorem prefix_getElem? {α : Type} {l1 l2 : List α} (hpre : l1 <+: l2) (k : Nat) (x : α)
    (hk : l1[k]? = some x) : l2[k]? = some x := by
  obtain ⟨t, ht⟩ := hpre
  rw [← ht, List.getElem?_append_left (List.getElem?_eq_some_iff.mp hk).1]
  exact hk

/-- The group-list position of the call that addresses slot `k` of the canonical order is
`1 + k`. -/
theorem groupPosition_canonical (H M : Nat) (h : RTXHelper) (hcfg : h._NumHitGroups = H)
    (hfit : 3 * H + M + 1 < 4294967296) (r : Registration) (k : Nat)
    (hslot : (canonicalSlots H M)[k]? = some r.slot) :
    r.groupPosition h = 1 + k := by
  have hk : k < H + M := by
    have := (List.getElem?_eq_some_iff.mp hslot).1
    rw [canonicalSlots_length] at this
    exact this
  rcases Nat.lt_or_ge k H with hlt | hge
  · rw [canonicalSlots_hit H M k hlt] at hslot
    cases r with
    | hit stages g =>
      simp only [Registration.slot, Option.some.injEq, Prod.mk.injEq, true_and] at hslot
      simp only [Registration.groupPosition, hslot]
    | miss stage g =>
      simp [Registration.slot] at hslot
  · have hidx : k = H + (k - H) := by omega
    rw [hidx, canonicalSlots_miss H M (k - H) (by omega)] at hslot
    cases r with
    | hit stages g =>
      simp [Registration.slot] at hslot
    | miss stage g =>
      simp only [Registration.slot, Option.some.injEq, Prod.mk.injEq, true_and] at hslot
      simp only [Registration.groupPosition, hcfg]
      rw [u32_of_lt (n := g + 1) (by omega), u32_of_lt (by omega)]
      omega

/-- C27: for every sequence of slot registrations after `SetRaygenStage` (on a helper with
clear counters, configured for `H` and `M` with `3 * H + M + 1` below `2^32`) in which
every call addresses a slot of the configuration, a hit call passes 1 to 3 stages and no
slot is registered twice: every group-list insertion position that is reached is within
the current group list if and only if the sequence of slots is an initial part of the
canonical order (hit slots ascending, then miss slots ascending).  In that case every call
returns and every insertion is at the end of the group list; otherwise the run has
undefined behaviour.  The stage-list insertion position is always within the stage list. -/
theorem C27_group_insertions (H M s : Nat) (prior : RTXHelper)
    (raygen : VkPipelineShaderStageCreateInfo) (regs : List Registration)
    (hclear : CountersClear prior) (hfit : 3 * H + M + 1 < 4294967296)
    (hfits : ∀ r ∈ regs, r.fits H M 0 0)
    (hnodup : (regs.map Registration.slot).Nodup) :
    ((∀ pre r post h, regs = pre ++ r :: post → populate H M s prior raygen pre = .ok h →
        r.groupPosition h ≤ h._Groups.length) ↔
      regs.map Registration.slot <+: canonicalSlots H M) ∧
    (regs.map Registration.slot <+: canonicalSlots H M →
      (∃ h, populate H M s prior raygen regs = .ok h) ∧
      ∀ pre r post, regs = pre ++ r :: post →
        ∃ h, populate H M s prior raygen pre = .ok h ∧
          r.groupPosition h = h._Groups.length) ∧
    (¬ regs.map Registration.slot <+: canonicalSlots H M →
      populate H M s prior raygen regs = .undefinedBehaviour) ∧
    (∀ pre r post h, regs = pre ++ r :: post → populate H M s prior raygen pre = .ok h →
      r.stagePosition h ≤ h._Stages.length) := by
  have hrunEq : ∀ l : List Registration, populate H M s prior raygen l =
      register l (expectedState (Initialize H M s prior) raygen [] H [] M) := by
    intro l
    rw [populate_eq_register, start_expected H M s prior raygen hclear]
  have hsub : ∀ l : List Registration, (∀ r ∈ l, r.fits H M 0 0) →
      (l.map Registration.slot).Nodup →
      (l.map Registration.slot <+: canonicalSlots H M →
        ∃ h, populate H M s prior raygen l = .ok h) ∧
      (¬ l.map Registration.slot <+: canonicalSlots H M →
        populate H M s prior raygen l = .undefinedBehaviour) := by
    intro l hl hn
    have := register_expected (Initialize H M s prior) raygen H M rfl hfit l [] [] H M
      (by simp) (by simp) (fun hne => absurd rfl hne) (by simp) (by simpa using hl) hn
    simp only [List.length_nil, Nat.add_zero, List.drop_zero] at this
    rw [hrunEq]
    exact this
  have hmain := hsub regs hfits hnodup
  have hstage : ∀ pre r post h, regs = pre ++ r :: post →
      populate H M s prior raygen pre = .ok h → r.stagePosition h ≤ h._Stages.length :=
    fun pre r _ h _ hrun => stagePosition_le H M s prior raygen pre h hclear hfit hrun r
  have happend : regs.map Registration.slot <+: canonicalSlots H M →
      ∀ pre r post, regs = pre ++ r :: post →
        ∃ h, populate H M s prior raygen pre = .ok h ∧
          r.groupPosition h = h._Groups.length := by
    intro hpre pre r post hsplit
    have hslots : regs.map Registration.slot =
        pre.map Registration.slot ++ r.slot :: post.map Registration.slot := by
      rw [hsplit, List.map_append, List.map_cons]
    have hprefix : pre.map Registration.slot <+: canonicalSlots H M :=
      List.IsPrefix.trans ⟨_, hslots.symm⟩ hpre
    have hpreRun := (hsub pre
      (fun x hx => hfits x (by rw [hsplit]; exact List.mem_append_left _ hx))
      (by rw [hslots] at hnodup; exact List.Nodup.of_append_left hnodup)).1 hprefix
    obtain ⟨h, hh⟩ := hpreRun
    refine ⟨h, hh, ?_⟩
    have hcfg := (populate_config hh).1
    have hget : (regs.map Registration.slot)[pre.length]? = some r.slot := by
      rw [hslots, List.getElem?_append_right (by simp)]
      simp
    have hcan := prefix_getElem? hpre pre.length r.slot hget
    have hlen := register_groups_length pre _ h (by rw [← populate_eq_register]; exact hh)
    rw [groupPosition_canonical H M h hcfg hfit r pre.length hcan, hlen]
    simp only [List.length_singleton]
  refine ⟨⟨?_, ?_⟩, fun hpre => ⟨hmain.1 hpre, happend hpre⟩, hmain.2, hstage⟩
  · intro hall
    by_contra hnp
    have hub := hmain.2 hnp
    rw [populate_eq_register] at hub
    obtain ⟨pre, r, post, h, hsplit, hpreRun, hcall⟩ := register_first_undefined regs _ hub
    rw [← populate_eq_register] at hpreRun
    rcases call_undefined r h hcall with hst | hgr
    · have := hstage pre r post h hsplit hpreRun
      omega
    · have := hall pre r post h hsplit hpreRun
      omega
  · intro hpre pre r post h hsplit hrun
    obtain ⟨h1, hh1, hpos⟩ := happend hpre pre r post hsplit
    have heq : h1 = h := Outcome.ok.inj (hh1.symm.trans hrun)
    rw [← heq, hpos]

/-- C27 at concrete inputs, for `H = M = 2`: the application's order (hit 0, hit 1, miss 0,
miss 1) is the canonical order, the run returns, and the call for hit slot 1 inserts its
group at the end of the group list; the order hit 1, hit 0 is no initial part of the
canonical order and the run has undefined behaviour. -/
theorem C27_group_insertions_witness :
    CountersClear RTXHelper.new ∧
    [Registration.hit [sampleChit] 0, .hit [sampleShadowChit] 1, .miss sampleMiss 0,
      .miss sampleShadowMiss 1].map Registration.slot <+: canonicalSlots 2 2 ∧
    populate 2 2 32 RTXHelper.new sampleRaygen [.hit [sampleChit] 0] = .ok sampleOneHit ∧
    (Registration.hit [sampleShadowChit] 1).groupPosition sampleOneHit =
      sampleOneHit._Groups.length ∧
    ¬ [Registration.hit [sampleShadowChit] 1, .hit [sampleChit] 0].map Registration.slot <+:
      canonicalSlots 2 2 ∧
    populate 2 2 32 RTXHelper.new sampleRaygen
      [.hit [sampleShadowChit] 1, .hit [sampleChit] 0] = .undefinedBehaviour :=
  have hclear : CountersClear RTXHelper.new := ⟨by decide, by decide⟩
  have hpre : [Registration.hit [sampleChit] 0, .hit [sampleShadowChit] 1,
      .miss sampleMiss 0, .miss sampleShadowMiss 1].map Registration.slot <+:
      canonicalSlots 2 2 := by decide
  have hnot : ¬ [Registration.hit [sampleShadowChit] 1, .hit [sampleChit] 0].map
      Registration.slot <+: canonicalSlots 2 2 := by decide
  have hrun : populate 2 2 32 RTXHelper.new sampleRaygen [.hit [sampleChit] 0] =
      .ok sampleOneHit := by decide
  have hgood := C27_group_insertions 2 2 32 RTXHelper.new sampleRaygen
    [.hit [sampleChit] 0, .hit [sampleShadowChit] 1, .miss sampleMiss 0,
      .miss sampleShadowMiss 1] hclear (by decide) (by decide) (by decide)
  have hbad := C27_group_insertions 2 2 32 RTXHelper.new sampleRaygen
    [.hit [sampleShadowChit] 1, .hit [sampleChit] 0] hclear (by decide) (by decide)
    (by decide)
  ((hgood.2.1 hpre).2 [.hit [sampleChit] 0] (.hit [sampleShadowChit] 1)
      [.miss sampleMiss 0, .miss sampleShadowMiss 1] rfl).elim fun h hh =>
    have heq : h = sampleOneHit := Outcome.ok.inj (hh.1.symm.trans hrun)
    ⟨hclear, hpre, hrun, heq ▸ hh.2, hnot, hbad.2.2.1 hnot⟩

/-! ## Wrapping group positions -/

/-- Adding counters that are all zero leaves the 32-bit accumulator unchanged. -/
theorem addAllU32_replicate_zero (n offset : Nat) (h : offset < 4294967296) :
    addAllU32 offset (List.replicate n 0) = offset := by
  rw [addAllU32_eq_sum _ _ (by simp; exact h)]
  simp

/-- The 32-bit group position of `AddStageToMissGroup` wraps: when `1 + H` is a multiple
of `2^32`, then on a new helper the calls `Initialize(H, 1, s)`, `SetRaygenStage(raygen)`,
`AddStageToMissGroup(stage, 0)` all return, and the miss group is inserted at position 0,
in front of the raygen group. -/
theorem populate_miss_wraps (H s : Nat) (raygen stage : VkPipelineShaderStageCreateInfo)
    (hH : u32 (u32 (0 + 1) + H) = 0) :
    populate H 1 s RTXHelper.new raygen [.miss stage 0] =
      .ok { Initialize H 1 s RTXHelper.new with
        _Stages := [raygen, stage]
        _Groups := [missGroupInfo 1, raygenGroup]
        _NumMissShaders := [1] } := by
  rw [populate_eq_register]
  have hoff : missStageOffset
      { Initialize H 1 s RTXHelper.new with _Stages := [raygen], _Groups := [raygenGroup] } 0
      = 1 := by
    show addAllU32 (addAllU32 1 (vectorResize [] H 0)) ((vectorResize [] 1 0).take (0 + 1)) = 1
    have h1 : vectorResize [] H 0 = List.replicate H 0 := by simp [vectorResize]
    rw [h1, addAllU32_replicate_zero H 1 (by decide)]
    rfl
  show ((AddStageToMissGroup stage 0
      { Initialize H 1 s RTXHelper.new with _Stages := [raygen], _Groups := [raygenGroup] }
      ).andThen (register [])) = _
  rw [AddStageToMissGroup_of stage 0 _ (by simp) (by simp [Initialize, vectorResize, RTXHelper.new])
    (by simp [Initialize, vectorResize, RTXHelper.new]) (by rw [hoff]; simp)
    (by
      show u32 (u32 (0 + 1) + H) ≤ _
      rw [hH]
      exact Nat.zero_le _)]
  show Outcome.ok _ = Outcome.ok _
  congr 1
  show ({ Initialize H 1 s RTXHelper.new with
    _Stages := _, _Groups := _, _NumMissShaders := _ } : RTXHelper) = _
  simp only [hoff]
  have hg : u32 (u32 1 + H) = 0 := hH
  simp [hg, Initialize, vectorResize, RTXHelper.new]

/-- C9, as stated, fails: on a new helper, after `Initialize(0xFFFFFFFF, 1, 32)` and
`SetRaygenStage`, the call `AddStageToMissGroup(miss, 0)` succeeds and inserts the miss
group at the 32-bit position `0 + 1 + 0xFFFFFFFF = 0`, so element 0 of the group list is
the miss group (a group with `generalShader = 1`) and the raygen group is element 1. -/
theorem C9_counterexample :
    ∃ h : RTXHelper,
      populate 4294967295 1 32 RTXHelper.new sampleRaygen [.miss sampleMiss 0] = .ok h ∧
      h._Stages = [sampleRaygen, sampleMiss] ∧
      h._Groups = [missGroupInfo 1, raygenGroup] ∧
      h._Groups[0]? ≠ some raygenGroup ∧
      (missGroupInfo 1).generalShader = 1 :=
  ⟨_, populate_miss_wraps 4294967295 32 sampleRaygen sampleMiss (by decide), rfl, rfl,
    by decide, rfl⟩

/-- C27, as stated, fails in both of its parts.  (a) The stage position is not always within
bounds: on a helper whose two hit counters are still set (`sampleTwoHits`),
`Initialize(2, 2, 32)` keeps the counters `[1, 1]` and clears the stage list, so after
`SetRaygenStage` the call `AddStageToMissGroup(miss, 0)` computes the stage position 3 for a
stage list of length 1.  (b) The equivalence fails: with `H = 0xFFFFFFFF` and `M = 1` on a
new helper the single registration of miss slot 0 is not a prefix of the canonical order
(which starts with hit slot 0), yet its 32-bit group position is 0, within the group
list, and the call returns. -/
theorem C27_counterexample :
    (populate 2 2 32 sampleTwoHits sampleRaygen [] =
        .ok { Initialize 2 2 32 sampleTwoHits with
          _Stages := [sampleRaygen], _Groups := [raygenGroup] } ∧
      (Initialize 2 2 32 sampleTwoHits)._NumHitShaders = [1, 1] ∧
      (∀ r ∈ [Registration.miss sampleMiss 0], r.fits 2 2 0 0) ∧
      ([Registration.miss sampleMiss 0].map Registration.slot).Nodup ∧
      (Registration.miss sampleMiss 0).stagePosition
        { Initialize 2 2 32 sampleTwoHits with
          _Stages := [sampleRaygen], _Groups := [raygenGroup] } = 3 ∧
      ({ Initialize 2 2 32 sampleTwoHits with
          _Stages := [sampleRaygen], _Groups := [raygenGroup] } : RTXHelper)._Stages.length
        = 1 ∧
      populate 2 2 32 sampleTwoHits sampleRaygen [.miss sampleMiss 0] =
        .undefinedBehaviour) ∧
    ((∀ r ∈ [Registration.miss sampleMiss 0], r.fits 4294967295 1 0 0) ∧
      ([Registration.miss sampleMiss 0].map Registration.slot).Nodup ∧
      ¬ [Registration.miss sampleMiss 0].map Registration.slot <+:
        canonicalSlots 4294967295 1 ∧
      (Registration.miss sampleMiss 0).groupPosition
        { Initialize 4294967295 1 32 RTXHelper.new with
          _Stages := [sampleRaygen], _Groups := [raygenGroup] } = 0 ∧
      ∃ h : RTXHelper,
        populate 4294967295 1 32 RTXHelper.new sampleRaygen [.miss sampleMiss 0] = .ok h ∧
        h._Groups = [missGroupInfo 1, raygenGroup]) := by
  refine ⟨⟨by decide, by decide, by decide, by decide, by decide, by decide, by decide⟩,
    by decide, by decide, ?_, by decide,
    ⟨_, populate_miss_wraps 4294967295 32 sampleRaygen sampleMiss (by decide), rfl⟩⟩
  intro hp
  obtain ⟨rest, hrest⟩ := hp
  have h0 := canonicalSlots_hit 4294967295 1 0 (by decide)
  rw [← hrest] at h0
  simp [Registration.slot] at h0

/-! ## The instance record in memory -/

/-- A list of length 12 is a list of twelve elements. -/
theorem length12 (l : List Nat) (h : l.length = 12) :
    ∃ a0 a1 a2 a3 a4 a5 a6 a7 a8 a9 a10 a11, l = [a0, a1, a2, a3, a4, a5, a6, a7, a8, a9, a10, a11] := by
  match l, h with
  | [a0, a1, a2, a3, a4, a5, a6, a7, a8, a9, a10, a11], _ =>
    exact ⟨a0, a1, a2, a3, a4, a5, a6, a7, a8, a9, a10, a11, rfl⟩

/-- Four little-endian bytes of a 32-bit value give the value back. -/
theorem ofLeBytes_leBytes4 (n : Nat) (h : n < 4294967296) :
    n % 256 + 256 * (n / 256 % 256 + 256 * (n / 256 / 256 % 256 +
      256 * (n / 256 / 256 / 256 % 256 + 256 * 0))) = n := by
  omega

/-- Eight little-endian bytes of a 64-bit value give the value back. -/
theorem ofLeBytes_leBytes8 (n : Nat) (h : n < 18446744073709551616) :
    n % 256 + 256 * (n / 256 % 256 + 256 * (n / 256 / 256 % 256 +
      256 * (n / 256 / 256 / 256 % 256 + 256 * (n / 256 / 256 / 256 / 256 % 256 +
      256 * (n / 256 / 256 / 256 / 256 / 256 % 256 +
      256 * (n / 256 / 256 / 256 / 256 / 256 / 256 % 256 +
      256 * (n / 256 / 256 / 256 / 256 / 256 / 256 / 256 % 256 + 256 * 0))))))) = n := by
  omega

/-- Reading a packed well-formed record through the documented layout gives the record. -/
theorem pack_read (r : VkGeometryInstance) (h : r.WellFormed) :
    readDocumentedLayout r.pack = r := by
  obtain ⟨tr, id, mask, off, fl, hd⟩ := r
  obtain ⟨hlen, htr, hid, hmask, hoff, hfl, hhd⟩ := h
  simp only at hlen htr hid hmask hoff hfl hhd
  obtain ⟨a0, a1, a2, a3, a4, a5, a6, a7, a8, a9, a10, a11, rfl⟩ := length12 tr hlen
  have h0 := htr a0 (by simp)
  have h1 := htr a1 (by simp)
  have h2 := htr a2 (by simp)
  have h3 := htr a3 (by simp)
  have h4 := htr a4 (by simp)
  have h5 := htr a5 (by simp)
  have h6 := htr a6 (by simp)
  have h7 := htr a7 (by simp)
  have h8 := htr a8 (by simp)
  have h9 := htr a9 (by simp)
  have h10 := htr a10 (by simp)
  have h11 := htr a11 (by simp)
  show (_ : VkGeometryInstance) = _
  simp only [readDocumentedLayout, VkGeometryInstance.pack, leBytes, ofLeBytes, List.map,
    List.flatten, List.cons_append, List.nil_append, List.drop_succ_cons, List.drop_zero,
    List.take_succ_cons, List.take_zero, List.drop]
  have hw1 : id % 16777216 + 16777216 * (mask % 256) < 4294967296 := by omega
  have hw2 : off % 16777216 + 16777216 * (fl % 256) < 4294967296 := by omega
  simp only [ofLeBytes_leBytes4 _ h0, ofLeBytes_leBytes4 _ h1, ofLeBytes_leBytes4 _ h2,
    ofLeBytes_leBytes4 _ h3, ofLeBytes_leBytes4 _ h4, ofLeBytes_leBytes4 _ h5,
    ofLeBytes_leBytes4 _ h6, ofLeBytes_leBytes4 _ h7, ofLeBytes_leBytes4 _ h8,
    ofLeBytes_leBytes4 _ h9, ofLeBytes_leBytes4 _ h10, ofLeBytes_leBytes4 _ h11,
    ofLeBytes_leBytes4 _ hw1, ofLeBytes_leBytes4 _ hw2, ofLeBytes_leBytes8 _ hhd,
    VkGeometryInstance.mk.injEq, true_and, and_true]
  refine ⟨?_, ?_, ?_, ?_⟩ <;> omega

/-- A record with twelve transform entries is packed into 64 bytes. -/
theorem pack_length (r : VkGeometryInstance) (h : r.transform.length = 12) :
    r.pack.length = 64 := by
  obtain ⟨a0, a1, a2, a3, a4, a5, a6, a7, a8, a9, a10, a11, htr⟩ := length12 r.transform h
  simp [VkGeometryInstance.pack, htr, leBytes]

/-- Every element of a little-endian representation is a byte. -/
theorem leBytes_lt (w : Nat) : ∀ n, ∀ b ∈ leBytes w n, b < 256 := by
  induction w with
  | zero => intro n b hb; simp [leBytes] at hb
  | succ w ih =>
    intro n b hb
    simp only [leBytes, List.mem_cons] at hb
    rcases hb with rfl | hb
    · exact Nat.mod_lt _ (by decide)
    · exact ih _ b hb

/-- Every element of a packed record is a byte. -/
theorem pack_lt (r : VkGeometryInstance) : ∀ b ∈ r.pack, b < 256 := by
  intro b hb
  simp only [VkGeometryInstance.pack, List.mem_append, List.mem_flatten, List.mem_map] at hb
  rcases hb with ((⟨l, ⟨t, _, rfl⟩, hb⟩ | hb) | hb) | hb
  all_goals exact leBytes_lt _ _ b hb

/-- The records `CreateScene` builds have values that fit their members. -/
theorem instanceOf_WellFormed (i : Nat) (mesh : RTMesh)
    (h : mesh.blas.handle < 18446744073709551616) : (instanceOf i mesh).WellFormed := by
  refine ⟨rfl, ?_, ?_, ?_, ?_, ?_, h⟩
  · show ∀ t ∈ identityTransform, t < 4294967296
    decide
  · show u32 i % 16777216 < 16777216
    omega
  · show 0xff % 256 < 256
    decide
  · show 0 % 16777216 < 16777216
    decide
  · show VK_GEOMETRY_INSTANCE_TRIANGLE_CULL_DISABLE_BIT_NV % 256 < 256
    decide

/-- C20: packing an instance record (twelve 32-bit float patterns, 24-bit id, 8-bit mask,
24-bit shader-binding offset, 8-bit flags, 64-bit handle) into the bytes of a
`VkGeometryInstance` and reading it back through the documented layout (floats at bytes
0..47, id in bits 0..23 and mask in bits 24..31 of the word at byte 48, offset in bits
0..23 and flags in bits 24..31 of the word at byte 52, handle in the last 8 bytes, which
start at byte 56) reproduces every field, and the record is exactly 64 bytes, the size
`CreateScene` uses per instance.  The records `CreateScene` builds are of this kind. -/
theorem C20_pack_round_trip (r : VkGeometryInstance) (h : r.WellFormed) :
    readDocumentedLayout r.pack = r ∧
    (readDocumentedLayout r.pack).transform = r.transform ∧
    (readDocumentedLayout r.pack).instanceId = r.instanceId ∧
    (readDocumentedLayout r.pack).mask = r.mask ∧
    (readDocumentedLayout r.pack).instanceOffset = r.instanceOffset ∧
    (readDocumentedLayout r.pack).flags = r.flags ∧
    (readDocumentedLayout r.pack).accelerationStructureHandle =
      r.accelerationStructureHandle ∧
    r.pack.length = 64 ∧
    r.pack.length = sizeofVkGeometryInstance ∧
    r.pack.length - 8 = 56 ∧
    (∀ b ∈ r.pack, b < 256) ∧
    (∀ (i : Nat) (mesh : RTMesh), mesh.blas.handle < 18446744073709551616 →
      (instanceOf i mesh).WellFormed) := by
  have hread := pack_read r h
  have hlen := pack_length r h.1
  refine ⟨hread, by rw [hread], by rw [hread], by rw [hread], by rw [hread], by rw [hread],
    by rw [hread], hlen, hlen, by rw [hlen], pack_lt r, instanceOf_WellFormed⟩

/-- C20 at a concrete input: a record with a different value in every member is packed
into 64 bytes, the handle in bytes 56..63, and read back unchanged. -/
theorem C20_pack_round_trip_witness :
    sampleInstance.WellFormed ∧
    readDocumentedLayout sampleInstance.pack = sampleInstance ∧
    sampleInstance.pack.length = 64 ∧
    sampleInstance.pack.drop 48 =
      [0xEF, 0xCD, 0xAB, 0x12, 0x78, 0x56, 0x34, 0x9A,
       0xEF, 0xCD, 0xAB, 0x89, 0x67, 0x45, 0x23, 0x01] :=
  have hthm := C20_pack_round_trip sampleInstance (by decide)
  ⟨by decide, hthm.1, hthm.2.2.2.2.2.2.2.1, by decide⟩

/-- C21, as stated, fails: for the record with the identity transform, id 3, mask `0xFF`,
offset 0, flags 0 and handle `0x1122334455667788`, bytes 48..63 of the packed record are
`03 00 00 FF`, `00 00 00 00` (the two bit-field words) followed by the eight handle
bytes.  These sixteen bytes are not the handle in little-endian order, neither as the
eight bytes of the 64-bit handle nor as a sixteen-byte number, and the first eight of
them are not the handle either. -/
theorem C21_counterexample :
    (exampleInstance.pack.drop 48).take 16 =
      [0x03, 0x00, 0x00, 0xFF, 0x00, 0x00, 0x00, 0x00,
       0x88, 0x77, 0x66, 0x55, 0x44, 0x33, 0x22, 0x11] ∧
    exampleInstance.pack.length = 64 ∧
    (exampleInstance.pack.drop 48).take 16 ≠ leBytes 8 0x1122334455667788 ∧
    (exampleInstance.pack.drop 48).take 16 ≠ leBytes 16 0x1122334455667788 ∧
    (exampleInstance.pack.drop 48).take 8 ≠ leBytes 8 0x1122334455667788 ∧
    ofLeBytes ((exampleInstance.pack.drop 48).take 16) ≠ 0x1122334455667788 ∧
    ofLeBytes ((exampleInstance.pack.drop 48).take 8) ≠ 0x1122334455667788 := by
  decide

/-- C21 (amended): for the record with the identity transform, id 3, mask `0xFF`, offset 0,
flags 0 and handle `0x1122334455667788`, bytes 56..63 of the packed record equal the handle
in little-endian order (`88 77 66 55 44 33 22 11`); bytes 48..51 are the word of id and
mask (`03 00 00 FF`), bytes 52..55 the word of offset and flags (all zero), and bytes
0..47 the twelve floats of the identity transform. -/
theorem C21_handle_bytes :
    (exampleInstance.pack.drop 56).take 8 = leBytes 8 0x1122334455667788 ∧
    (exampleInstance.pack.drop 56).take 8 = [0x88, 0x77, 0x66, 0x55, 0x44, 0x33, 0x22, 0x11] ∧
    ofLeBytes ((exampleInstance.pack.drop 56).take 8) = 0x1122334455667788 ∧
    (exampleInstance.pack.drop 48).take 4 = [0x03, 0x00, 0x00, 0xFF] ∧
    (exampleInstance.pack.drop 52).take 4 = [0x00, 0x00, 0x00, 0x00] ∧
    exampleInstance.pack.take 48 =
      [0, 0, 0x80, 0x3F, 0, 0, 0, 0, 0, 0, 0, 0, 0, 0, 0, 0,
       0, 0, 0, 0, 0, 0, 0x80, 0x3F, 0, 0, 0, 0, 0, 0, 0, 0,
       0, 0, 0, 0, 0, 0, 0, 0, 0, 0, 0x80, 0x3F, 0, 0, 0, 0] ∧
    exampleInstance.pack.length = 64 ∧
    exampleInstance.transform = identityTransform := by
  decide

end RtPipe
